import Mathlib

/-!
# rollOffNano: roof controller driver (`src/rolloffino.cpp`)

A shallow embedding of the driver's protocol codec, controller link and motion
state machine, followed by theorems about them.

Conventions of the embedding.

* A C string is the list of its characters before the terminating NUL.
* A fixed-size `char` array of `n` bytes holds a string of at most `n - 1`
  characters; copying more, or copying from a null pointer, is a fault.
* The serial transport is a script: the outcomes of the successive `tty_read`
  and `tty_write_string` calls.  A script that has run out answers every
  further call with an error (the wait of `MAXINOWAIT` seconds expires).
* Calls into the device framework are recorded in order in `State.calls`; the
  framework's own variables that the driver reads are fields of the state.
* Times are kept in whole milliseconds, the precision `CalcTimeLeft` works at.
-/

namespace RollOffNano

/-! ## Constants of the source -/

/-- Seconds between status-light updates while inactive (`INACTIVE_STATUS`). -/
def INACTIVE_STATUS : Nat := 5
/-- Milliseconds to wait after a relay command (`ROR_D_PRESS`). -/
def ROR_D_PRESS : Nat := 1000
/-- Maximum consecutive communication errors (`MAX_CNTRL_COM_ERR`). -/
def MAX_CNTRL_COM_ERR : Nat := 10
/-- Command buffer limit (`MAXINOCMD`). -/
def MAXINOCMD : Nat := 15
/-- Target buffer limit (`MAXINOTARGET`). -/
def MAXINOTARGET : Nat := 15
/-- Value buffer limit (`MAXINOVAL`). -/
def MAXINOVAL : Nat := 127
/-- Outgoing request limit (`MAXINOLINE`). -/
def MAXINOLINE : Nat := 63
/-- Overall input / output limit (`MAXINOBUF`). -/
def MAXINOBUF : Nat := 255

/-- Read-only switch id `ROOF_OPENED_SWITCH`. -/
def ROOF_OPENED_SWITCH : List Char := ['O', 'P', 'E', 'N', 'E', 'D']
/-- Read-only switch id `ROOF_CLOSED_SWITCH`. -/
def ROOF_CLOSED_SWITCH : List Char := ['C', 'L', 'O', 'S', 'E', 'D']
/-- Write-only relay id `ROOF_OPEN_RELAY`. -/
def ROOF_OPEN_RELAY : List Char := ['O', 'P', 'E', 'N']
/-- Write-only relay id `ROOF_CLOSE_RELAY`. -/
def ROOF_CLOSE_RELAY : List Char := ['C', 'L', 'O', 'S', 'E']

/-! ## C string helpers -/

/-- The C string stored at the start of a zero-filled buffer: the bytes before
the first NUL. -/
def cstr (buf : List Char) : List Char :=
  buf.takeWhile (fun c => c != Char.ofNat 0)

/-- One call of `strtok`: `s` is the text still to be scanned, `delim` the
delimiter set.  Leading delimiters are skipped; if nothing is left the call
returns a null pointer (`none`).  Otherwise the token runs up to the next
delimiter, which is consumed, and the text after it is kept for the next
call. -/
def strtok (s delim : List Char) : Option (List Char) × List Char :=
  match s.dropWhile (fun c => delim.contains c) with
  | [] => (none, [])
  | c :: cs =>
    (some ((c :: cs).takeWhile (fun x => !delim.contains x)),
     ((c :: cs).dropWhile (fun x => !delim.contains x)).drop 1)

/-- The call `strcpy(dst, src)` into an array of `cap + 1` bytes: a fault
(`none`) when `src` is a null pointer or does not fit, else the copy. -/
def strcpy (cap : Nat) (src : Option (List Char)) : Option (List Char) :=
  match src with
  | none => none
  | some t => if t.length ≤ cap then some t else none

/-- What `evaluateResponse` reports: its return value, the value left in
`*result`, and for a negative acknowledgement the text it logs as the error. -/
inductive Response where
  | nak (reason : List Char)
  | ack (isOn : Bool)
  deriving DecidableEq

/-- The return value of `evaluateResponse`. -/
def Response.status : Response → Bool
  | .nak _ => false
  | .ack _ => true

/-- The value `evaluateResponse` leaves in `*result`. -/
def Response.result : Response → Bool
  | .nak _ => false
  | .ack b => b

/-- The source's `evaluateResponse(buff, result)`.  `none` is a fault: one of
the three `strcpy` calls received a null pointer from `strtok` or overran its
destination array. -/
def evaluateResponse (buff : List Char) : Option Response :=
  let t1 := strtok buff ['(', ':']
  match strcpy MAXINOCMD t1.1 with
  | none => none
  | some inoCmd =>
    let t2 := strtok t1.2 [':']
    match strcpy MAXINOTARGET t2.1 with
    | none => none
    | some _inoTarget =>
      let t3 := strtok t2.2 [')']
      match strcpy MAXINOVAL t3.1 with
      | none => none
      | some inoVal =>
        if inoCmd = ['N', 'A', 'K'] then some (Response.nak inoVal)
        else some (Response.ack (decide (inoVal = ['O', 'N'])))

/-! ## Data model -/

/-- Property state of the device framework (`IPState`). -/
inductive IPState where
  | IPS_IDLE | IPS_OK | IPS_BUSY | IPS_ALERT
  deriving DecidableEq

/-- Switch state of the device framework (`ISState`). -/
inductive ISState where
  | ISS_OFF | ISS_ON
  deriving DecidableEq

/-- Direction of a motion: `DOME_CW` opens, `DOME_CCW` closes. -/
inductive DomeDirection where
  | DOME_CW | DOME_CCW
  deriving DecidableEq

/-- Operation of a motion request. -/
inductive DomeMotionCommand where
  | MOTION_START | MOTION_STOP
  deriving DecidableEq

/-- Dome states of the framework, as listed in `setupConditions`. -/
inductive DomeState where
  | DOME_UNKNOWN | DOME_ERROR | DOME_IDLE | DOME_MOVING | DOME_SYNCED
  | DOME_PARKING | DOME_UNPARKING | DOME_PARKED | DOME_UNPARKED
  deriving DecidableEq

/-- Outcome of the last timed motion (`roofTimedOut`). -/
inductive RoofTimedOut where
  | EXPIRED_CLEAR | EXPIRED_OPEN | EXPIRED_CLOSE
  deriving DecidableEq

/-- A `struct timeval`. -/
structure Timeval where
  tv_sec : Nat
  tv_usec : Nat
  deriving DecidableEq

/-- Outcome of one `tty_read` of a single byte: an error status, `TTY_OK`
with nothing read, or `TTY_OK` with one byte. -/
inductive RxEv where
  | err
  | idle
  | byte (c : Char)
  deriving DecidableEq

/-- A call that leaves the driver: into the device framework, or a sleep. -/
inductive Call where
  | IDSetLight
  | setDomeState (v : DomeState)
  | SetParked (b : Bool)
  | SetTimer (ms : Nat)
  | Disconnect
  | DomeInitProperties
  | SetParkDataType
  | addAuxControls
  | msSleep (ms : Nat)
  deriving DecidableEq

/-- The driver object together with its surroundings. -/
structure State where
  /- motion state machine -/
  roofOpening : Bool
  roofClosing : Bool
  roofTimedOut : RoofTimedOut
  MotionRequest : Int
  MotionStart : Timeval
  fullyOpenedLimitSwitch : ISState
  fullyClosedLimitSwitch : ISState
  simRoofOpen : Bool
  simRoofClosed : Bool
  /- status lights -/
  lightOpened : IPState
  lightClosed : IPState
  lightMoving : IPState
  lightLocked : IPState
  lightAuxState : IPState
  RoofStatusLP : IPState
  /- controller link -/
  contactEstablished : Bool
  communicationErrors : Nat
  /- variables of the framework read by the driver -/
  connected : Bool
  simulation : Bool
  locked : Bool
  DomeMotionSP : IPState
  DomeMotionCW : ISState
  DomeMotionCCW : ISState
  RoofTimeout : Int
  PortFD : Int
  /- serial transport -/
  rx : List RxEv
  txOk : List Bool
  tx : List (List Char)
  /- calls made so far -/
  calls : List Call
  deriving DecidableEq

/-- Result of running a driver function: it returns `ret` in state `s`, or
the program faults (a null pointer or a buffer overrun reaches `strcpy` /
`strcat`) in state `s`. -/
inductive Outcome (α : Type) where
  | ok (ret : α) (s : State)
  | fault (s : State)
  deriving DecidableEq

/-- The state an outcome ends in. -/
def Outcome.state {α : Type} : Outcome α → State
  | .ok _ s => s
  | .fault s => s

/-- The returned value, if the function returned. -/
def Outcome.ret? {α : Type} : Outcome α → Option α
  | .ok a _ => some a
  | .fault _ => none

/-! ## Serial transport: `writeIno`, `readIno` -/

/-- The source's `writeIno(msg)`: refuses a message of `MAXINOLINE` bytes or
more, else hands it to `tty_write_string` and reports whether that
succeeded. -/
def writeIno (msg : List Char) (s : State) : Bool × State :=
  if msg.length ≥ MAXINOLINE then (false, s)
  else
    match s.txOk with
    | [] => (false, { s with tx := s.tx ++ [msg] })
    | okay :: rest => (okay, { s with tx := s.tx ++ [msg], txOk := rest })

/-- The `while (!stop)` loop of `readIno`, by recursion on the outcomes of the
`tty_read` calls still to come.  `off` is `bufPtr - retBuf`; the result is the
return value, the buffer, the error counter and the unread outcomes. -/
def readInoLoop : List RxEv → Bool → Nat → Nat → Nat → List Char → Nat →
    Bool × List Char × Nat × List RxEv
  | [], _, _, _, _, buf, errs => (false, buf, errs + 1, [])
  | RxEv.err :: rest, _, _, _, _, buf, errs => (false, buf, errs + 1, rest)
  | RxEv.idle :: rest, start_found, retCount, totalCount, off, buf, errs =>
    readInoLoop rest start_found 0 totalCount (off + retCount) buf errs
  | RxEv.byte c :: rest, start_found, retCount, totalCount, off, buf, _ =>
    let off1 := off + retCount
    let buf1 := buf.set off1 c
    let start1 := start_found || c == '('
    let retCount1 := if start1 then 1 else 0
    let total1 := totalCount + retCount1
    if c == ')' || total1 ≥ MAXINOBUF - 2 then
      (true, buf1.set (off1 + 1) (Char.ofNat 0), 0, rest)
    else
      readInoLoop rest start1 retCount1 total1 off1 buf1 0

/-- The source's `readIno(retBuf)`; the buffer comes back with the status. -/
def readIno (retBuf : List Char) (s : State) : Bool × List Char × State :=
  let r := readInoLoop s.rx false 0 0 0 retBuf s.communicationErrors
  (r.1, r.2.1, { s with communicationErrors := r.2.2.1, rx := r.2.2.2 })

/-- A buffer of `MAXINOBUF` bytes after `memset(buf, 0, sizeof(buf))`. -/
def zeroBuf : List Char := List.replicate MAXINOBUF (Char.ofNat 0)

/-! ## Controller link -/

/-- The request `(GET:<id>:0)` that `readRoofSwitch` builds with `strcpy` and
`strcat`. -/
def getFrame (id : List Char) : List Char :=
  ['(', 'G', 'E', 'T', ':'] ++ id ++ [':', '0', ')']

/-- The request `(SET:<button>:ON)` or `(SET:<button>:OFF)` that
`pushRoofButton` builds with `strcpy` and `strcat`. -/
def setFrame (button : List Char) (switchOn : Bool) : List Char :=
  ['(', 'S', 'E', 'T', ':'] ++ button ++
    (if switchOn then [':', 'O', 'N', ')'] else [':', 'O', 'F', 'F', ')'])

/-- The source's `readRoofSwitch(roofSwitchId, result)`.  `result` is the
value `*result` holds on entry; the outcome carries the return value and the
value `*result` holds on exit.  The request is built in `writeBuffer`, an
array of `MAXINOLINE` bytes. -/
def readRoofSwitch (roofSwitchId : Option (List Char)) (result : Bool) (s : State) :
    Outcome (Bool × Bool) :=
  if !s.contactEstablished then .ok (false, result) s
  else
    match roofSwitchId with
    | none => .ok (false, result) s
    | some id =>
      let writeBuffer := getFrame id
      if writeBuffer.length + 1 > MAXINOLINE then .fault s
      else
        let w := writeIno writeBuffer s
        if !w.1 then .ok (false, result) w.2
        else
          let r := readIno zeroBuf w.2
          if !r.1 then .ok (false, result) r.2.2
          else
            match evaluateResponse (cstr r.2.1) with
            | none => .fault r.2.2
            | some resp => .ok (resp.status, resp.result) r.2.2

/-- Switch id of the external lock (`ROOF_LOCKED_SWITCH`), from the spec's
list of `GET` targets. -/
def ROOF_LOCKED_SWITCH : List Char := ['L', 'O', 'C', 'K', 'E', 'D']

/-- Modelled from the spec: `getRoofLockedSwitch`, which `pushRoofButton`
calls, has no body in the source file.  The spec has the push "first query the
lock switch", one of the `GET` targets `OPENED`, `CLOSED`, `LOCKED`, `AUX`: a
switch query for `LOCKED`. -/
def getRoofLockedSwitch (switchState : Bool) (s : State) : Outcome (Bool × Bool) :=
  readRoofSwitch (some ROOF_LOCKED_SWITCH) switchState s

/-- The source's `initialContact()`. -/
def initialContact (s : State) : Outcome Bool :=
  let s0 := { s with contactEstablished := false }
  let w := writeIno ['(', 'C', 'O', 'N', ':', '0', ':', '0', ')'] s0
  if w.1 then
    let r := readIno zeroBuf w.2
    if r.1 then
      match evaluateResponse (cstr r.2.1) with
      | none => .fault r.2.2
      | some resp => .ok resp.status { r.2.2 with contactEstablished := resp.status }
    else .ok false r.2.2
  else .ok false w.2

/-- The source's `pushRoofButton(button, switchOn, ignoreLock)`.  The request
is built in `writeBuffer`, an array of `MAXINOBUF` bytes; the acknowledgement
is handed to `evaluateResponse` whether or not the read succeeded. -/
def pushRoofButton (button : List Char) (switchOn ignoreLock : Bool) (s : State) :
    Outcome Bool :=
  if !s.contactEstablished then .ok false s
  else
    match getRoofLockedSwitch false s with
    | .fault s1 => .fault s1
    | .ok (status, switchState) s1 =>
      if (status && !switchState) || ignoreLock then
        let writeBuffer := setFrame button switchOn
        if writeBuffer.length + 1 > MAXINOBUF then .fault s1
        else
          let w := writeIno writeBuffer s1
          if !w.1 then .ok false w.2
          else
            let s2 := { w.2 with calls := w.2.calls ++ [Call.msSleep ROR_D_PRESS] }
            let r := readIno zeroBuf s2
            match evaluateResponse (cstr r.2.1) with
            | none => .fault r.2.2
            | some _ => .ok r.1 r.2.2
      else .ok false s1

/-- The source's `getFullOpenedLimitSwitch(switchState)`. -/
def getFullOpenedLimitSwitch (switchState : Bool) (s : State) : Outcome (Bool × Bool) :=
  if s.simulation then
    if s.simRoofOpen then .ok (true, true) { s with fullyOpenedLimitSwitch := ISState.ISS_ON }
    else .ok (true, false) { s with fullyOpenedLimitSwitch := ISState.ISS_OFF }
  else
    match readRoofSwitch (some ROOF_OPENED_SWITCH) switchState s with
    | .fault s1 => .fault s1
    | .ok (true, sw) s1 =>
      .ok (true, sw)
        { s1 with fullyOpenedLimitSwitch := if sw then ISState.ISS_ON else ISState.ISS_OFF }
    | .ok (false, sw) s1 => .ok (false, sw) s1

/-- The source's `getFullClosedLimitSwitch(switchState)`. -/
def getFullClosedLimitSwitch (switchState : Bool) (s : State) : Outcome (Bool × Bool) :=
  if s.simulation then
    if s.simRoofClosed then .ok (true, true) { s with fullyClosedLimitSwitch := ISState.ISS_ON }
    else .ok (true, false) { s with fullyClosedLimitSwitch := ISState.ISS_OFF }
  else
    match readRoofSwitch (some ROOF_CLOSED_SWITCH) switchState s with
    | .fault s1 => .fault s1
    | .ok (true, sw) s1 =>
      .ok (true, sw)
        { s1 with fullyClosedLimitSwitch := if sw then ISState.ISS_ON else ISState.ISS_OFF }
    | .ok (false, sw) s1 => .ok (false, sw) s1

/-- The source's `roofOpen()`. -/
def roofOpen (s : State) : Outcome Bool :=
  if s.simulation then .ok true s
  else pushRoofButton ROOF_OPEN_RELAY true false s

/-- The source's `roofClose()`. -/
def roofClose (s : State) : Outcome Bool :=
  if s.simulation then .ok true s
  else pushRoofButton ROOF_CLOSE_RELAY true false s

/-! ## Motion state machine -/

/-- The part of `updateRoofStatus` after the two limit switches have been
sampled into `openedState` and `closedState`: the status lights are reset and
then set from the samples, the motion flags and the last timeout outcome, and
the light vector is sent to the client. -/
def setRoofStatus (openedState closedState : Bool) (s : State) : State :=
  let s0 : State :=
    { s with
      lightAuxState := IPState.IPS_IDLE, lightLocked := IPState.IPS_IDLE,
      lightOpened := IPState.IPS_IDLE, lightClosed := IPState.IPS_IDLE,
      lightMoving := IPState.IPS_IDLE, RoofStatusLP := IPState.IPS_IDLE }
  let s3 : State :=
    if openedState || closedState then
      let s1 : State :=
        if openedState && !closedState then
          { s0 with roofOpening := false, lightOpened := IPState.IPS_OK,
                    RoofStatusLP := IPState.IPS_OK }
        else s0
      if closedState && !openedState then
        { s1 with roofClosing := false, lightClosed := IPState.IPS_OK,
                  RoofStatusLP := IPState.IPS_OK }
      else s1
    else if s0.roofOpening || s0.roofClosing then
      let s1 : State :=
        if s0.roofOpening then
          { s0 with lightOpened := IPState.IPS_BUSY, lightMoving := IPState.IPS_BUSY }
        else if s0.roofClosing then
          { s0 with lightClosed := IPState.IPS_BUSY, lightMoving := IPState.IPS_BUSY }
        else s0
      { s1 with RoofStatusLP := IPState.IPS_BUSY }
    else
      let s1 : State :=
        if s0.roofTimedOut = RoofTimedOut.EXPIRED_OPEN then
          { s0 with lightOpened := IPState.IPS_ALERT }
        else if s0.roofTimedOut = RoofTimedOut.EXPIRED_CLOSE then
          { s0 with lightClosed := IPState.IPS_ALERT }
        else s0
      { s1 with RoofStatusLP := IPState.IPS_ALERT }
  { s3 with calls := s3.calls ++ [Call.IDSetLight] }

/-- The source's `updateRoofStatus()`: both limit switches are sampled, each
into a local that starts as `false`, then the status is set. -/
def updateRoofStatus (s : State) : Outcome Unit :=
  match getFullOpenedLimitSwitch false s with
  | .fault s1 => .fault s1
  | .ok o s1 =>
    match getFullClosedLimitSwitch false s1 with
    | .fault s2 => .fault s2
    | .ok c s2 => .ok () (setRoofStatus o.2 c.2 s2)

/-- Milliseconds of a `timeval`, as `CalcTimeLeft` takes them:
`tv_sec * 1000 + tv_usec / 1000`. -/
def Timeval.ms (t : Timeval) : Int :=
  (t.tv_sec : Int) * 1000 + ((t.tv_usec / 1000 : Nat) : Int)

/-- The source's `CalcTimeLeft(start)` at clock reading `now`, in
milliseconds: `MotionRequest` seconds less the time since `start`. -/
def CalcTimeLeft (now start : Timeval) (s : State) : Int :=
  1000 * s.MotionRequest - (now.ms - start.ms)

/-- The source's `initProperties()`: the lights and the timeout number are
filled with their initial values. -/
def initProperties (s : State) : State :=
  { s with
    lightOpened := IPState.IPS_IDLE, lightClosed := IPState.IPS_IDLE,
    lightMoving := IPState.IPS_IDLE, RoofStatusLP := IPState.IPS_BUSY,
    RoofTimeout := 15,
    calls := s.calls ++ [Call.DomeInitProperties, Call.SetParkDataType, Call.addAuxControls] }

/-- The `isSimulation()` block of `TimerHit`: with five seconds or less left,
the simulated switch of the selected direction is set. -/
def simSwitches (timeleft : Int) (s : State) : State :=
  if s.simulation then
    if timeleft - 5000 ≤ 0 then
      if s.DomeMotionCW = ISState.ISS_ON then
        { s with simRoofOpen := true, simRoofClosed := false }
      else if s.DomeMotionCCW = ISState.ISS_ON then
        { s with simRoofClosed := true, simRoofOpen := false }
      else s
    else s
  else s

/-- The `DomeMotionSP.s == IPS_BUSY` block of `TimerHit`: the next delay in
milliseconds and the state. -/
def motionCheck (timeleft : Int) (s : State) : Nat × State :=
  let delay := 1000 * INACTIVE_STATUS
  if s.DomeMotionSP = IPState.IPS_BUSY then
    if s.MotionRequest < 0 then
      (delay, { s with calls := s.calls ++ [Call.setDomeState DomeState.DOME_IDLE] })
    else if s.DomeMotionCW = ISState.ISS_ON then
      if s.fullyOpenedLimitSwitch = ISState.ISS_ON then
        (delay, { s with calls := s.calls ++ [Call.SetParked false] })
      else if timeleft ≤ 0 then
        (delay, { s with calls := s.calls ++ [Call.setDomeState DomeState.DOME_IDLE],
                         roofOpening := false,
                         roofTimedOut := RoofTimedOut.EXPIRED_OPEN })
      else (1000, s)
    else if s.DomeMotionCCW = ISState.ISS_ON then
      if s.fullyClosedLimitSwitch = ISState.ISS_ON then
        (delay, { s with calls := s.calls ++ [Call.SetParked true] })
      else if timeleft ≤ 0 then
        (delay, { s with calls := s.calls ++ [Call.setDomeState DomeState.DOME_IDLE],
                         roofClosing := false,
                         roofTimedOut := RoofTimedOut.EXPIRED_CLOSE })
      else (1000, s)
    else (delay, s)
  else (delay, s)

/-- The communication-error block of `TimerHit`. -/
def commCheck (s : State) : State :=
  if s.communicationErrors > MAX_CNTRL_COM_ERR then
    let s1 := initProperties { s with calls := s.calls ++ [Call.Disconnect] }
    { s1 with communicationErrors := 0 }
  else s

/-- The source's `TimerHit()` at clock reading `now`. -/
def TimerHit (now : Timeval) (s : State) : Outcome Unit :=
  let timeleft := CalcTimeLeft now s.MotionStart s
  if !s.connected then .ok () s
  else
    match updateRoofStatus (simSwitches timeleft s) with
    | .fault s1 => .fault s1
    | .ok _ s1 =>
      let m := motionCheck timeleft s1
      let s2 := commCheck m.2
      .ok () { s2 with calls := s2.calls ++ [Call.SetTimer m.1] }

/-- The end of a successful `MOTION_START` in `Move`: the timeout outcome is
cleared, the timeout armed from the configured number, the start time taken
and the timer set to one second. -/
def startMotion (now : Timeval) (s : State) : Outcome IPState :=
  .ok IPState.IPS_BUSY
    { s with roofTimedOut := RoofTimedOut.EXPIRED_CLEAR,
             MotionRequest := s.RoofTimeout,
             MotionStart := now,
             calls := s.calls ++ [Call.SetTimer 1000] }

/-- The source's `Move(dir, operation)` at clock reading `now`. -/
def Move (dir : DomeDirection) (operation : DomeMotionCommand) (now : Timeval) (s : State) :
    Outcome IPState :=
  match updateRoofStatus s with
  | .fault s1 => .fault s1
  | .ok _ s1 =>
    if operation = DomeMotionCommand.MOTION_START then
      if s1.roofOpening then .ok IPState.IPS_OK s1
      else if s1.roofClosing then .ok IPState.IPS_OK s1
      else
        match dir with
        | DomeDirection.DOME_CW =>
          if s1.fullyOpenedLimitSwitch = ISState.ISS_ON then
            .ok IPState.IPS_ALERT { s1 with calls := s1.calls ++ [Call.SetParked false] }
          else
            match roofOpen s1 with
            | .fault s2 => .fault s2
            | .ok true s2 => startMotion now { s2 with roofOpening := true, roofClosing := false }
            | .ok false s2 => .ok IPState.IPS_ALERT s2
        | DomeDirection.DOME_CCW =>
          if s1.fullyClosedLimitSwitch = ISState.ISS_ON then
            .ok IPState.IPS_ALERT { s1 with calls := s1.calls ++ [Call.SetParked true] }
          else if s1.locked then .ok IPState.IPS_ALERT s1
          else
            match roofClose s1 with
            | .fault s2 => .fault s2
            | .ok true s2 => startMotion now { s2 with roofClosing := true, roofOpening := false }
            | .ok false s2 => .ok IPState.IPS_ALERT s2
    else .ok IPState.IPS_ALERT s1

/-- The source's `Handshake()`. -/
def Handshake (s : State) : Outcome Bool :=
  if s.PortFD ≤ 0 then .ok false s
  else
    match initialContact s with
    | .fault s1 => .fault s1
    | .ok true s1 => .ok true s1
    | .ok false s1 =>
      initialContact { s1 with calls := s1.calls ++ [Call.msSleep 1000] }

/-! ## Sample states -/

/-- A disconnected, idle driver with an empty transport script. -/
def idleState : State :=
  { roofOpening := false, roofClosing := false,
    roofTimedOut := RoofTimedOut.EXPIRED_CLEAR,
    MotionRequest := 0, MotionStart := { tv_sec := 0, tv_usec := 0 },
    fullyOpenedLimitSwitch := ISState.ISS_OFF, fullyClosedLimitSwitch := ISState.ISS_OFF,
    simRoofOpen := false, simRoofClosed := false,
    lightOpened := IPState.IPS_IDLE, lightClosed := IPState.IPS_IDLE,
    lightMoving := IPState.IPS_IDLE, lightLocked := IPState.IPS_IDLE,
    lightAuxState := IPState.IPS_IDLE, RoofStatusLP := IPState.IPS_IDLE,
    contactEstablished := false, communicationErrors := 0,
    connected := false, simulation := false, locked := false,
    DomeMotionSP := IPState.IPS_IDLE,
    DomeMotionCW := ISState.ISS_OFF, DomeMotionCCW := ISState.ISS_OFF,
    RoofTimeout := 15, PortFD := 3,
    rx := [], txOk := [], tx := [], calls := [] }

/-- The read outcomes that deliver the bytes of `frame` one by one. -/
def rxOf (frame : String) : List RxEv :=
  frame.toList.map RxEv.byte

/-- A connected, contacted, stationary driver with the given framework lock
and the given answers waiting on the transport. -/
def stationaryState (locked : Bool) (answers : String) : State :=
  { idleState with
    connected := true, contactEstablished := true, locked := locked,
    RoofTimeout := 15,
    txOk := [true, true, true, true],
    rx := rxOf answers }

/-- A connected, contacted driver with both motion flags set and an old
close timeout on record; the controller answers opened On, closed Off. -/
def arrivedOpenState : State :=
  { idleState with
    connected := true, contactEstablished := true,
    roofOpening := true, roofClosing := true,
    roofTimedOut := RoofTimedOut.EXPIRED_CLOSE,
    txOk := [true, true],
    rx := rxOf "(ACK:OPENED:ON)(ACK:CLOSED:OFF)" }

/-- A connected, contacted driver that is opening since second 100 with a
timeout of 15 seconds; the controller answers both switches Off. -/
def openingState : State :=
  { idleState with
    connected := true, contactEstablished := true,
    roofOpening := true, MotionRequest := 15,
    MotionStart := { tv_sec := 100, tv_usec := 0 },
    DomeMotionSP := IPState.IPS_BUSY, DomeMotionCW := ISState.ISS_ON,
    txOk := [true, true],
    rx := rxOf "(ACK:OPENED:OFF)(ACK:CLOSED:OFF)" }

/-- As `openingState`, for a close motion. -/
def closingState : State :=
  { idleState with
    connected := true, contactEstablished := true,
    roofClosing := true, MotionRequest := 15,
    MotionStart := { tv_sec := 100, tv_usec := 0 },
    DomeMotionSP := IPState.IPS_BUSY, DomeMotionCCW := ISState.ISS_ON,
    txOk := [true, true],
    rx := rxOf "(ACK:OPENED:OFF)(ACK:CLOSED:OFF)" }

/-- A contacted link on which the controller answers the lock query with
`(ACK:LOCKED:ON)` and a push with `(ACK:CLOSE:ON)`. -/
def lockOnState : State :=
  { idleState with
    connected := true, contactEstablished := true, txOk := [true, true],
    rx := rxOf "(ACK:LOCKED:ON)(ACK:CLOSE:ON)" }

/-- A contacted link on which the controller answers the lock query with the
frame `()`. -/
def lockGarbledState : State :=
  { idleState with
    connected := true, contactEstablished := true, txOk := [true, true],
    rx := rxOf "()(ACK:CLOSE:ON)" }

/-- The frame `(CMD:TARGET:VALUE)`. -/
def frame (cmd target value : List Char) : List Char :=
  '(' :: (cmd ++ ':' :: (target ++ ':' :: (value ++ [')'])))

/-- A token of a frame: non-empty and free of the delimiters `(`, `:`, `)`. -/
def Token (t : List Char) : Prop :=
  t ≠ [] ∧ ∀ c ∈ t, c ≠ '(' ∧ c ≠ ':' ∧ c ≠ ')'

instance (t : List Char) : Decidable (Token t) := by
  unfold Token
  infer_instance

/-- The motion fields of the state machine. -/
def State.motion (s : State) : Bool × Bool × RoofTimedOut × Int × Timeval :=
  (s.roofOpening, s.roofClosing, s.roofTimedOut, s.MotionRequest, s.MotionStart)

/-- The variables the driver only reads during a tick or a move, with the
contact flag. -/
def State.env (s : State) :
    Bool × Bool × Bool × IPState × ISState × ISState × Int × Int × Bool :=
  (s.connected, s.simulation, s.locked, s.DomeMotionSP, s.DomeMotionCW, s.DomeMotionCCW,
   s.RoofTimeout, s.PortFD, s.contactEstablished)

/-- The driver's record of an open motion in flight: started at `t0` with a
timeout of `T` seconds, no timeout recorded. -/
def Opening (T : Int) (t0 : Timeval) (s : State) : Prop :=
  s.roofOpening = true ∧ s.roofTimedOut = RoofTimedOut.EXPIRED_CLEAR ∧
  s.MotionRequest = T ∧ s.MotionStart = t0

/-- The driver's record of a close motion in flight: started at `t0` with a
timeout of `T` seconds, no timeout recorded. -/
def Closing (T : Int) (t0 : Timeval) (s : State) : Prop :=
  s.roofClosing = true ∧ s.roofTimedOut = RoofTimedOut.EXPIRED_CLEAR ∧
  s.MotionRequest = T ∧ s.MotionStart = t0

instance (T : Int) (t0 : Timeval) (s : State) : Decidable (Opening T t0 s) := by
  unfold Opening
  infer_instance

instance (T : Int) (t0 : Timeval) (s : State) : Decidable (Closing T t0 s) := by
  unfold Closing
  infer_instance

/-- Fields the controller link leaves alone: the motion fields, the variables
it only reads, the call log and the stored limit switches agree in `s` and
`s1`. -/
def LinkKept (s s1 : State) : Prop :=
  s1.motion = s.motion ∧ s1.env = s.env ∧ s1.calls = s.calls ∧
  s1.fullyOpenedLimitSwitch = s.fullyOpenedLimitSwitch ∧
  s1.fullyClosedLimitSwitch = s.fullyClosedLimitSwitch

/-- What a limit-switch sample leaves alone. -/
def SwitchKept (s s1 : State) : Prop :=
  s1.motion = s.motion ∧ s1.env = s.env ∧ s1.calls = s.calls

/-- Whether a byte arrives before the first read error of a script (a script
that runs out ends in an error). -/
def rxBytesBeforeErr : List RxEv → Bool
  | [] => false
  | RxEv.err :: _ => false
  | RxEv.idle :: rest => rxBytesBeforeErr rest
  | RxEv.byte _ :: _ => true

/-- The state after `n` ticks in a row at clock reading `now`. -/
def runTicks : Nat → Timeval → State → State
  | 0, _, s => s
  | n + 1, now, s => runTicks n now (TimerHit now s).state

/-- The handshake request `(CON:0:0)`. -/
def conFrame : List Char := ['(', 'C', 'O', 'N', ':', '0', ':', '0', ')']

/-- A connected, contacted driver with the given error counter, write outcomes
and read outcomes. -/
def linkState (errs : Nat) (txOk : List Bool) (rx : List RxEv) : State :=
  { idleState with
    connected := true, contactEstablished := true,
    communicationErrors := errs, txOk := txOk, rx := rx }

/-- A connected, contacted driver on a dead link: every write is accepted and
no byte ever comes back. -/
def deadReadState : State :=
  linkState 0 (List.replicate 24 true) []

/-- A connected, contacted driver on a link where every write fails. -/
def deadWriteState : State :=
  linkState 0 [] []

/-- A driver with an open port and no contact yet, with the given write and
read outcomes. -/
def portState (txOk : List Bool) (rx : List RxEv) : State :=
  { idleState with txOk := txOk, rx := rx }

/-- The acknowledgement read of `pushRoofButton`: the `readIno` it makes once
the `SET` frame has been written from state `s1` and the settle delay has
passed. -/
def ackRead (button : List Char) (switchOn : Bool) (s1 : State) : Bool × List Char × State :=
  readIno zeroBuf
    { (writeIno (setFrame button switchOn) s1).2 with
      calls := (writeIno (setFrame button switchOn) s1).2.calls ++ [Call.msSleep ROR_D_PRESS] }

/-- The logical states of the motion state machine that the driver itself
records (spec 4.4). -/
inductive MotionState where
  | Idle | Opening | Closing | TimedOutOpen | TimedOutClose
  deriving DecidableEq

/-- The logical state the driver's flags stand for. -/
def motionState (s : State) : MotionState :=
  if s.roofOpening then MotionState.Opening
  else if s.roofClosing then MotionState.Closing
  else
    match s.roofTimedOut with
    | RoofTimedOut.EXPIRED_OPEN => MotionState.TimedOutOpen
    | RoofTimedOut.EXPIRED_CLOSE => MotionState.TimedOutClose
    | RoofTimedOut.EXPIRED_CLEAR => MotionState.Idle

/-- Modelled from the spec: `Abort`, which the source file announces
(`DOME_CAN_ABORT`) and whose effect `TimerHit` tests for ("Abort called stop
movement", `MotionRequest < 0`) but which has no body there.  The spec has it
"set the state to Idle immediately regardless of in-flight motion" and has the
motion request "cleared on completion, abort, or timeout": the motion flags and
the timeout outcome are reset and `MotionRequest` takes the negative value the
tick tests for. -/
def Abort (s : State) : State :=
  { s with roofOpening := false, roofClosing := false,
           roofTimedOut := RoofTimedOut.EXPIRED_CLEAR, MotionRequest := -1 }

/-- A connected, contacted driver on which the controller answers both limit
switches On. -/
def bothOnState : State :=
  { idleState with
    connected := true, contactEstablished := true,
    roofOpening := true,
    txOk := [true, true],
    rx := rxOf "(ACK:OPENED:ON)(ACK:CLOSED:ON)" }

/-- An open motion 20 seconds after its start with a timeout of 15 seconds, the
controller answering opened On and closed Off. -/
def arrivingOpenState : State :=
  { openingState with rx := rxOf "(ACK:OPENED:ON)(ACK:CLOSED:OFF)" }

/-- A close motion with the controller answering opened Off and closed On. -/
def arrivingCloseState : State :=
  { closingState with rx := rxOf "(ACK:OPENED:OFF)(ACK:CLOSED:ON)" }

/-- A connected, contacted, stationary driver with the given last timeout
outcome, the controller answering both switches Off. -/
def ambiguousState (outcome : RoofTimedOut) : State :=
  { idleState with
    connected := true, contactEstablished := true, roofTimedOut := outcome,
    txOk := [true, true],
    rx := rxOf "(ACK:OPENED:OFF)(ACK:CLOSED:OFF)" }

/-- A stationary driver with both switches stored On, both motion flags set
and a timeout on record, with the given contact flag, write outcomes and read
outcomes. -/
def staleState (contact : Bool) (txOk : List Bool) (rx : List RxEv) : State :=
  { idleState with
    connected := true, contactEstablished := contact,
    roofOpening := true, roofClosing := true,
    roofTimedOut := RoofTimedOut.EXPIRED_OPEN,
    fullyOpenedLimitSwitch := ISState.ISS_ON, fullyClosedLimitSwitch := ISState.ISS_ON,
    txOk := txOk, rx := rx }


/-- The simulated switches and the serial transport of a state: what a tick in
simulation may set, and what it must not touch. -/
def State.simLink (s : State) : Bool × Bool × List RxEv × List Bool × List (List Char) :=
  (s.simRoofOpen, s.simRoofClosed, s.rx, s.txOk, s.tx)

/-- A connected driver in simulation with the given motion selection and the
given simulated switches, its motion timer of 15 seconds started at second 100
and its transport empty. -/
def simState (cw ccw : ISState) (simOpen simClosed : Bool) : State :=
  { idleState with
    connected := true, simulation := true,
    DomeMotionSP := IPState.IPS_BUSY, DomeMotionCW := cw, DomeMotionCCW := ccw,
    MotionRequest := 15, MotionStart := { tv_sec := 100, tv_usec := 0 },
    simRoofOpen := simOpen, simRoofClosed := simClosed }

/-- The states reachable from one with neither motion flag set by `Move`,
`updateRoofStatus` and `TimerHit` steps, taken in any order with any arguments
and clock readings.  Between two steps the surroundings may change everything
but the two motion flags (switch readings and transport outcomes still to come,
the framework's variables, the other driver fields).  A step that faults
leaves the state it faulted in. -/
inductive Reachable : State → Prop where
  | start (s : State) (ho : s.roofOpening = false) (hc : s.roofClosing = false) : Reachable s
  | move (dir : DomeDirection) (operation : DomeMotionCommand) (now : Timeval) (s : State)
      (h : Reachable s) : Reachable (Move dir operation now s).state
  | refresh (s : State) (h : Reachable s) : Reachable (updateRoofStatus s).state
  | tick (now : Timeval) (s : State) (h : Reachable s) : Reachable (TimerHit now s).state
  | surroundings (s s1 : State) (h : Reachable s) (ho : s1.roofOpening = s.roofOpening)
      (hc : s1.roofClosing = s.roofClosing) : Reachable s1

/-! ## Theorems: protocol codec -/

theorem takeWhile_append_stop (p : Char → Bool) (tok rest : List Char) (d : Char)
    (h : ∀ c ∈ tok, p c = true) (hd : p d = false) :
    (tok ++ d :: rest).takeWhile p = tok := by
  induction tok with
  | nil => simp [List.takeWhile, hd]
  | cons a t ih =>
    have ha : p a = true := h a (List.mem_cons_self a t)
    have ht : ∀ c ∈ t, p c = true := fun c hc => h c (List.mem_cons_of_mem a hc)
    simp [List.takeWhile, ha, ih ht]

theorem dropWhile_append_stop (p : Char → Bool) (tok rest : List Char) (d : Char)
    (h : ∀ c ∈ tok, p c = true) (hd : p d = false) :
    (tok ++ d :: rest).dropWhile p = d :: rest := by
  induction tok with
  | nil => simp [List.dropWhile, hd]
  | cons a t ih =>
    have ha : p a = true := h a (List.mem_cons_self a t)
    have ht : ∀ c ∈ t, p c = true := fun c hc => h c (List.mem_cons_of_mem a hc)
    simp [List.dropWhile, ha, ih ht]

/-- A leading delimiter is skipped by `strtok`. -/
theorem strtok_skip (d : Char) (s delim : List Char) (hd : d ∈ delim) :
    strtok (d :: s) delim = strtok s delim := by
  have e : (d :: s).dropWhile (fun c => delim.contains c)
      = s.dropWhile (fun c => delim.contains c) := by
    rw [List.dropWhile_cons]
    simp [hd]
  unfold strtok
  rw [e]

/-- On a non-empty delimiter-free token followed by a delimiter, `strtok`
returns the token and keeps the text after the delimiter. -/
theorem strtok_token (tok rest delim : List Char) (d : Char) (hne : tok ≠ [])
    (h : ∀ c ∈ tok, c ∉ delim) (hd : d ∈ delim) :
    strtok (tok ++ d :: rest) delim = (some tok, rest) := by
  cases tok with
  | nil => exact absurd rfl hne
  | cons a t =>
    have ha : a ∉ delim := h a (List.mem_cons_self a t)
    have h1 : ∀ c ∈ a :: t, (fun x => !delim.contains x) c = true := by
      intro c hc
      simp [h c hc]
    have h2 : (fun x => !delim.contains x) d = false := by simp [hd]
    have e1 := takeWhile_append_stop (fun x => !delim.contains x) (a :: t) rest d h1 h2
    have e2 := dropWhile_append_stop (fun x => !delim.contains x) (a :: t) rest d h1 h2
    have e0 : ((a :: t) ++ d :: rest).dropWhile (fun c => delim.contains c)
        = a :: (t ++ d :: rest) := by
      rw [List.cons_append, List.dropWhile_cons]
      simp [ha]
    rw [List.cons_append] at e1 e2
    unfold strtok
    rw [e0]
    simp only [e1, e2, List.drop_one, List.tail_cons]

/-- The three `strtok` calls of `evaluateResponse` on a frame of three tokens
return exactly these tokens. -/
theorem evaluateResponse_frame (cmd target value : List Char)
    (hc : Token cmd) (ht : Token target) (hv : Token value)
    (lc : cmd.length ≤ MAXINOCMD) (lt : target.length ≤ MAXINOTARGET)
    (lv : value.length ≤ MAXINOVAL) :
    evaluateResponse (frame cmd target value) =
      if cmd = ['N', 'A', 'K'] then some (Response.nak value)
      else some (Response.ack (decide (value = ['O', 'N']))) := by
  have k1 : strtok (frame cmd target value) ['(', ':']
      = (some cmd, target ++ ':' :: (value ++ [')'])) := by
    unfold frame
    rw [strtok_skip _ _ _ (by decide)]
    apply strtok_token _ _ _ _ hc.1 _ (by decide)
    intro c hcm
    have := hc.2 c hcm
    simp [this.1, this.2.1]
  have k2 : strtok (target ++ ':' :: (value ++ [')'])) [':'] = (some target, value ++ [')']) := by
    apply strtok_token _ _ _ _ ht.1 _ (by decide)
    intro c hcm
    have := ht.2 c hcm
    simp [this.2.1]
  have k3 : strtok (value ++ [')']) [')'] = (some value, []) := by
    apply strtok_token _ _ _ _ hv.1 _ (by decide)
    intro c hcm
    have := hv.2 c hcm
    simp [this.2.2]
  unfold evaluateResponse
  simp only [k1, k2, k3, strcpy, lc, lt, lv, if_true]

/-- C8, as amended: for every frame `(CMD:TARGET:VALUE)` whose three tokens are
non-empty, contain no delimiter and fit the interface limits (`CMD` and
`TARGET` at most 15 characters, `VALUE` at most 127), with `CMD` other than
`NAK`, `evaluateResponse` returns true and leaves the switch result true
exactly when `VALUE` is `ON`. -/
theorem evaluateResponse_ack (cmd target value : List Char)
    (hc : Token cmd) (ht : Token target) (hv : Token value)
    (hnak : cmd ≠ ['N', 'A', 'K'])
    (lc : cmd.length ≤ MAXINOCMD) (lt : target.length ≤ MAXINOTARGET)
    (lv : value.length ≤ MAXINOVAL) :
    (evaluateResponse (frame cmd target value)).map Response.status = some true ∧
    ((evaluateResponse (frame cmd target value)).map Response.result = some true
      ↔ value = ['O', 'N']) := by
  rw [evaluateResponse_frame cmd target value hc ht hv lc lt lv, if_neg hnak]
  simp [Response.status, Response.result]

/-- C8, witness: `(ACK:OPENED:ON)` decodes to success with the switch on. -/
theorem evaluateResponse_ack_witness :
    frame ['A', 'C', 'K'] ROOF_OPENED_SWITCH ['O', 'N'] = "(ACK:OPENED:ON)".toList ∧
    (evaluateResponse (frame ['A', 'C', 'K'] ROOF_OPENED_SWITCH ['O', 'N'])).map
      Response.status = some true ∧
    ((evaluateResponse (frame ['A', 'C', 'K'] ROOF_OPENED_SWITCH ['O', 'N'])).map
      Response.result = some true ↔ ['O', 'N'] = ['O', 'N']) :=
  ⟨by decide,
   evaluateResponse_ack ['A', 'C', 'K'] ROOF_OPENED_SWITCH ['O', 'N']
    (by decide) (by decide) (by decide) (by decide) (by decide) (by decide) (by decide)⟩

set_option maxRecDepth 8192 in
/-- C8 as stated fails: three non-empty delimiter-free tokens, the command not
`NAK`, and `evaluateResponse` faults, because the command (16 characters), the
target (16 characters) or the value (128 characters) overruns its array. -/
theorem evaluateResponse_ack_overrun :
    (Token "ACKNOWLEDGEMENTS".toList ∧ Token ROOF_OPENED_SWITCH ∧ Token ['O', 'N'] ∧
      "ACKNOWLEDGEMENTS".toList ≠ ['N', 'A', 'K'] ∧
      evaluateResponse (frame "ACKNOWLEDGEMENTS".toList ROOF_OPENED_SWITCH ['O', 'N']) = none) ∧
    (Token ['A', 'C', 'K'] ∧ Token "OPENED_LIMIT_SWITCH".toList ∧
      evaluateResponse (frame ['A', 'C', 'K'] "OPENED_LIMIT_SWITCH".toList ['O', 'N']) = none) ∧
    (Token (List.replicate 128 'N') ∧
      evaluateResponse (frame ['A', 'C', 'K'] ROOF_OPENED_SWITCH (List.replicate 128 'N'))
        = none) := by
  decide

/-- C9, as amended: for every frame `(NAK:TARGET:VALUE)` whose target and
value are non-empty, contain no delimiter and fit the interface limits (at
most 15 and 127 characters), `evaluateResponse` returns false, logs `VALUE` as
the error and leaves the switch result false, also when `VALUE` is `ON`. -/
theorem evaluateResponse_nak (target value : List Char)
    (ht : Token target) (hv : Token value)
    (lt : target.length ≤ MAXINOTARGET) (lv : value.length ≤ MAXINOVAL) :
    evaluateResponse (frame ['N', 'A', 'K'] target value) = some (Response.nak value) ∧
    (Response.nak value).status = false ∧ (Response.nak value).result = false := by
  refine ⟨?_, rfl, rfl⟩
  rw [evaluateResponse_frame ['N', 'A', 'K'] target value (by decide) ht hv (by decide) lt lv]
  simp

/-- C9, witness: `(NAK:OPENED:jam)` is a failure with reason `jam` and the
switch result false. -/
theorem evaluateResponse_nak_witness :
    frame ['N', 'A', 'K'] ROOF_OPENED_SWITCH ['j', 'a', 'm'] = "(NAK:OPENED:jam)".toList ∧
    evaluateResponse (frame ['N', 'A', 'K'] ROOF_OPENED_SWITCH ['j', 'a', 'm'])
      = some (Response.nak ['j', 'a', 'm']) ∧
    (Response.nak ['j', 'a', 'm']).status = false ∧
    (Response.nak ['j', 'a', 'm']).result = false :=
  ⟨by decide,
   evaluateResponse_nak ROOF_OPENED_SWITCH ['j', 'a', 'm']
    (by decide) (by decide) (by decide) (by decide)⟩

set_option maxRecDepth 8192 in
/-- C9 as stated fails: a negative acknowledgement whose target (16
characters) or reason (128 characters) overruns its array makes
`evaluateResponse` fault instead of returning false. -/
theorem evaluateResponse_nak_overrun :
    (Token "OPENED_LIMIT_SW_".toList ∧ Token ['j', 'a', 'm'] ∧
      evaluateResponse (frame ['N', 'A', 'K'] "OPENED_LIMIT_SW_".toList ['j', 'a', 'm'])
        = none) ∧
    (Token ROOF_OPENED_SWITCH ∧ Token (List.replicate 128 'x') ∧
      evaluateResponse (frame ['N', 'A', 'K'] ROOF_OPENED_SWITCH (List.replicate 128 'x'))
        = none) := by
  decide

/-- C10: on the frames of the claim from which fewer than three tokens can be
split, `evaluateResponse` faults: `strtok` returns a null pointer and `strcpy`
reads from it.  No failure is returned. -/
theorem evaluateResponse_malformed_faults :
    evaluateResponse [] = none ∧
    evaluateResponse ['('] = none ∧
    evaluateResponse "(GET:OPENED".toList = none ∧
    evaluateResponse "(GET::)".toList = none ∧
    evaluateResponse "()".toList = none := by
  decide

/-! ## Theorems: controller link -/

theorem linkKept_refl (s : State) : LinkKept s s :=
  ⟨rfl, rfl, rfl, rfl, rfl⟩

theorem linkKept_trans {s s1 s2 : State} (h1 : LinkKept s s1) (h2 : LinkKept s1 s2) :
    LinkKept s s2 :=
  ⟨h2.1.trans h1.1, h2.2.1.trans h1.2.1, h2.2.2.1.trans h1.2.2.1,
   h2.2.2.2.1.trans h1.2.2.2.1, h2.2.2.2.2.trans h1.2.2.2.2⟩

theorem linkKept_switchKept {s s1 : State} (h : LinkKept s s1) : SwitchKept s s1 :=
  ⟨h.1, h.2.1, h.2.2.1⟩

theorem switchKept_trans {s s1 s2 : State} (h1 : SwitchKept s s1) (h2 : SwitchKept s1 s2) :
    SwitchKept s s2 :=
  ⟨h2.1.trans h1.1, h2.2.1.trans h1.2.1, h2.2.2.trans h1.2.2⟩

theorem writeIno_kept (msg : List Char) (s : State) : LinkKept s (writeIno msg s).2 := by
  unfold writeIno
  split
  · exact linkKept_refl s
  · split <;> exact ⟨rfl, rfl, rfl, rfl, rfl⟩

/-- A message below the length bound is handed to the transport. -/
theorem writeIno_tx (msg : List Char) (s : State) (h : msg.length < MAXINOLINE) :
    (writeIno msg s).2.tx = s.tx ++ [msg] := by
  unfold writeIno
  rw [if_neg (by omega)]
  split <;> rfl

/-- A write that succeeded handed the message to the transport. -/
theorem writeIno_tx_of_ok (msg : List Char) (s : State) (h : (writeIno msg s).1 = true) :
    (writeIno msg s).2.tx = s.tx ++ [msg] := by
  unfold writeIno at h ⊢
  split
  · rename_i hlen
    rw [if_pos hlen] at h
    exact absurd h (by simp)
  · split <;> rfl

/-- The transport log only grows by the message, if at all. -/
theorem writeIno_tx_cases (msg : List Char) (s : State) :
    (writeIno msg s).2.tx = s.tx ∨ (writeIno msg s).2.tx = s.tx ++ [msg] := by
  unfold writeIno
  split
  · exact Or.inl rfl
  · split <;> exact Or.inr rfl

theorem readIno_kept (buf : List Char) (s : State) : LinkKept s (readIno buf s).2.2 :=
  ⟨rfl, rfl, rfl, rfl, rfl⟩

theorem readIno_tx (buf : List Char) (s : State) : (readIno buf s).2.2.tx = s.tx :=
  rfl

theorem readRoofSwitch_kept (id : Option (List Char)) (r : Bool) (s : State) :
    LinkKept s (readRoofSwitch id r s).state := by
  have kw := fun msg => writeIno_kept msg s
  have kr := fun msg => readIno_kept zeroBuf (writeIno msg s).2
  unfold readRoofSwitch
  split
  · exact linkKept_refl s
  · split
    · exact linkKept_refl s
    · dsimp only
      split
      · exact linkKept_refl s
      · split
        · exact kw _
        · split
          · exact linkKept_trans (kw _) (kr _)
          · split <;> exact linkKept_trans (kw _) (kr _)

/-- A switch query puts at most its own `GET` request on the transport. -/
theorem readRoofSwitch_tx (id : List Char) (r : Bool) (s : State) :
    (readRoofSwitch (some id) r s).state.tx = s.tx ∨
    (readRoofSwitch (some id) r s).state.tx = s.tx ++ [getFrame id] := by
  have kw := writeIno_tx_cases (getFrame id) s
  unfold readRoofSwitch
  split
  · exact Or.inl rfl
  · dsimp only
    split
    · exact Or.inl rfl
    · split
      · exact kw
      · split
        · exact kw
        · split <;> exact kw

/-- A switch query that reports success wrote its `GET` request. -/
theorem readRoofSwitch_tx_of_ok (id : List Char) (r b : Bool) (s s1 : State)
    (h : readRoofSwitch (some id) r s = .ok (true, b) s1) :
    s1.tx = s.tx ++ [getFrame id] := by
  unfold readRoofSwitch at h
  split at h
  · simp at h
  · dsimp only at h
    split at h
    · simp at h
    · split at h
      · simp at h
      · rename_i hw
        split at h
        · simp at h
        · have e := writeIno_tx_of_ok _ s (by simpa using hw)
          split at h
          · simp at h
          · simp only [Outcome.ok.injEq] at h
            rw [← h.2]
            exact e


/-- A switch query that fails leaves `*result` as it found it, or false. -/
theorem readRoofSwitch_result_of_fail (id : Option (List Char)) (b : Bool) (s s1 : State)
    (h : readRoofSwitch id false s = .ok (false, b) s1) : b = false := by
  unfold readRoofSwitch at h
  split at h
  · simp only [Outcome.ok.injEq, Prod.mk.injEq] at h
    exact h.1.2.symm
  · split at h
    · simp only [Outcome.ok.injEq, Prod.mk.injEq] at h
      exact h.1.2.symm
    · dsimp only at h
      split at h
      · simp at h
      · split at h
        · simp only [Outcome.ok.injEq, Prod.mk.injEq] at h
          exact h.1.2.symm
        · split at h
          · simp only [Outcome.ok.injEq, Prod.mk.injEq] at h
            exact h.1.2.symm
          · split at h
            · simp at h
            · rename_i resp _
              simp only [Outcome.ok.injEq, Prod.mk.injEq] at h
              cases resp with
              | nak reason => exact h.1.2.symm
              | ack isOn => simp [Response.status] at h

/-- C7: while `contactEstablished` is false, `readRoofSwitch` and
`pushRoofButton` return false at once and leave the whole state as it was:
nothing is written to or read from the transport, the error counter and the
stored limit switches keep their values, and `*result` is not touched. -/
theorem contact_gate (s : State) (h : s.contactEstablished = false) :
    (∀ (id : Option (List Char)) (result : Bool),
      readRoofSwitch id result s = .ok (false, result) s) ∧
    (∀ (button : List Char) (switchOn ignoreLock : Bool),
      pushRoofButton button switchOn ignoreLock s = .ok false s) := by
  constructor
  · intro id result
    simp [readRoofSwitch, h]
  · intro button switchOn ignoreLock
    simp [pushRoofButton, h]

/-- C7, witness: a driver without contact and with bytes waiting on the
transport. -/
theorem contact_gate_witness :
    ({ idleState with rx := rxOf "(ACK:OPENED:ON)", txOk := [true] } : State).contactEstablished
      = false ∧
    readRoofSwitch (some ROOF_OPENED_SWITCH) true
        { idleState with rx := rxOf "(ACK:OPENED:ON)", txOk := [true] }
      = .ok (false, true) { idleState with rx := rxOf "(ACK:OPENED:ON)", txOk := [true] } ∧
    pushRoofButton ROOF_CLOSE_RELAY true true
        { idleState with rx := rxOf "(ACK:OPENED:ON)", txOk := [true] }
      = .ok false { idleState with rx := rxOf "(ACK:OPENED:ON)", txOk := [true] } :=
  ⟨rfl,
   (contact_gate { idleState with rx := rxOf "(ACK:OPENED:ON)", txOk := [true] } rfl).1 _ _,
   (contact_gate { idleState with rx := rxOf "(ACK:OPENED:ON)", txOk := [true] } rfl).2 _ _ _⟩

/-- C6, as amended: with contact established, (1) if the lock query reports
the lock switch On and `ignoreLock` is false, `pushRoofButton` returns false
in the state the lock query left, whose transport log holds the
`(GET:LOCKED:0)` request and no `SET` frame; (2) if `ignoreLock` is true the
lock switch is queried all the same, and whatever the query returned, the
`SET` frame, when shorter than `MAXINOLINE`, is the next message handed to the
transport. -/
theorem pushRoofButton_lock (button : List Char) (switchOn : Bool) (s s1 : State)
    (q : Bool × Bool) (hc : s.contactEstablished = true)
    (hq : getRoofLockedSwitch false s = .ok q s1) :
    (q = (true, true) →
      pushRoofButton button switchOn false s = .ok false s1 ∧
      s1.tx = s.tx ++ [getFrame ROOF_LOCKED_SWITCH]) ∧
    ((setFrame button switchOn).length < MAXINOLINE →
      (pushRoofButton button switchOn true s).state.tx = s1.tx ++ [setFrame button switchOn]) := by
  constructor
  · intro hq1
    subst hq1
    refine ⟨?_, readRoofSwitch_tx_of_ok _ _ _ _ _ hq⟩
    simp [pushRoofButton, hc, hq]
  · intro hlen
    have hw := writeIno_tx (setFrame button switchOn) s1 hlen
    have hfit : ¬ ((setFrame button switchOn).length + 1 > MAXINOBUF) := by
      simp only [MAXINOLINE, MAXINOBUF] at hlen ⊢
      omega
    obtain ⟨q1, q2⟩ := q
    simp only [pushRoofButton, hc, hq, Bool.not_true, Bool.false_eq_true, if_false,
      Bool.or_true, if_true]
    rw [if_neg hfit]
    split
    · exact hw
    · split <;> exact hw


/-- C6, witness: the lock switch answers On. -/
theorem pushRoofButton_lock_witness :
    lockOnState.contactEstablished = true ∧
    getRoofLockedSwitch false lockOnState
      = .ok (true, true) (getRoofLockedSwitch false lockOnState).state ∧
    pushRoofButton ROOF_CLOSE_RELAY true false lockOnState
      = .ok false (getRoofLockedSwitch false lockOnState).state ∧
    (getRoofLockedSwitch false lockOnState).state.tx = ["(GET:LOCKED:0)".toList] ∧
    (pushRoofButton ROOF_CLOSE_RELAY true true lockOnState).state.tx
      = ["(GET:LOCKED:0)".toList, "(SET:CLOSE:ON)".toList] :=
  ⟨by decide, by decide,
   ((pushRoofButton_lock ROOF_CLOSE_RELAY true lockOnState
      (getRoofLockedSwitch false lockOnState).state (true, true)
      (by decide) (by decide)).1 rfl).1,
   by decide,
   ((pushRoofButton_lock ROOF_CLOSE_RELAY true lockOnState
      (getRoofLockedSwitch false lockOnState).state (true, true)
      (by decide) (by decide)).2 (by decide)).trans (by decide)⟩

/-- C6 as stated fails in its second half: with `ignoreLock` true the lock
switch is queried all the same.  The `(GET:LOCKED:0)` request goes out before
the `SET` frame and its answer is read; and when that answer is the frame
`()`, the push faults in decoding it and no `SET` frame is sent. -/
theorem pushRoofButton_ignoreLock_queries :
    (pushRoofButton ROOF_CLOSE_RELAY true true lockOnState).state.tx
      = ["(GET:LOCKED:0)".toList, "(SET:CLOSE:ON)".toList] ∧
    (pushRoofButton ROOF_CLOSE_RELAY true true lockOnState).state.rx = [] ∧
    (pushRoofButton ROOF_CLOSE_RELAY true true lockGarbledState).ret? = none ∧
    (pushRoofButton ROOF_CLOSE_RELAY true true lockGarbledState).state.tx
      = ["(GET:LOCKED:0)".toList] := by
  decide

/-! ## Theorems: limit switches and status refresh -/

theorem getFullOpenedLimitSwitch_kept (sw : Bool) (s : State) :
    SwitchKept s (getFullOpenedLimitSwitch sw s).state ∧
    (getFullOpenedLimitSwitch sw s).state.fullyClosedLimitSwitch = s.fullyClosedLimitSwitch := by
  have k := readRoofSwitch_kept (some ROOF_OPENED_SWITCH) sw s
  unfold getFullOpenedLimitSwitch
  split
  · split <;> exact ⟨⟨rfl, rfl, rfl⟩, rfl⟩
  · split
    · rename_i h
      rw [h] at k
      exact ⟨linkKept_switchKept k, k.2.2.2.2⟩
    · rename_i h
      rw [h] at k
      exact ⟨⟨k.1, k.2.1, k.2.2.1⟩, k.2.2.2.2⟩
    · rename_i h
      rw [h] at k
      exact ⟨linkKept_switchKept k, k.2.2.2.2⟩

theorem getFullClosedLimitSwitch_kept (sw : Bool) (s : State) :
    SwitchKept s (getFullClosedLimitSwitch sw s).state ∧
    (getFullClosedLimitSwitch sw s).state.fullyOpenedLimitSwitch = s.fullyOpenedLimitSwitch := by
  have k := readRoofSwitch_kept (some ROOF_CLOSED_SWITCH) sw s
  unfold getFullClosedLimitSwitch
  split
  · split <;> exact ⟨⟨rfl, rfl, rfl⟩, rfl⟩
  · split
    · rename_i h
      rw [h] at k
      exact ⟨linkKept_switchKept k, k.2.2.2.1⟩
    · rename_i h
      rw [h] at k
      exact ⟨⟨k.1, k.2.1, k.2.2.1⟩, k.2.2.2.1⟩
    · rename_i h
      rw [h] at k
      exact ⟨linkKept_switchKept k, k.2.2.2.1⟩

/-- A sample of the opened switch that comes back true has stored `ISS_ON`. -/
theorem getFullOpenedLimitSwitch_on (s s1 : State) (r : Bool × Bool)
    (h : getFullOpenedLimitSwitch false s = .ok r s1) (hr : r.2 = true) :
    s1.fullyOpenedLimitSwitch = ISState.ISS_ON := by
  unfold getFullOpenedLimitSwitch at h
  split at h
  · split at h
    · simp only [Outcome.ok.injEq] at h
      rw [← h.2]
    · simp only [Outcome.ok.injEq] at h
      rw [← h.1] at hr
      exact absurd hr (by simp)
  · split at h
    · simp at h
    · simp only [Outcome.ok.injEq] at h
      rw [← h.1] at hr
      simp only at hr
      rw [← h.2, hr]
      rfl
    · rename_i sw s2 hq
      simp only [Outcome.ok.injEq] at h
      rw [← h.1] at hr
      simp only at hr
      have := readRoofSwitch_result_of_fail _ _ _ _ hq
      rw [this] at hr
      exact absurd hr (by simp)

/-- A sample of the closed switch that comes back true has stored `ISS_ON`. -/
theorem getFullClosedLimitSwitch_on (s s1 : State) (r : Bool × Bool)
    (h : getFullClosedLimitSwitch false s = .ok r s1) (hr : r.2 = true) :
    s1.fullyClosedLimitSwitch = ISState.ISS_ON := by
  unfold getFullClosedLimitSwitch at h
  split at h
  · split at h
    · simp only [Outcome.ok.injEq] at h
      rw [← h.2]
    · simp only [Outcome.ok.injEq] at h
      rw [← h.1] at hr
      exact absurd hr (by simp)
  · split at h
    · simp at h
    · simp only [Outcome.ok.injEq] at h
      rw [← h.1] at hr
      simp only at hr
      rw [← h.2, hr]
      rfl
    · rename_i sw s2 hq
      simp only [Outcome.ok.injEq] at h
      rw [← h.1] at hr
      simp only at hr
      have := readRoofSwitch_result_of_fail _ _ _ _ hq
      rw [this] at hr
      exact absurd hr (by simp)


/-- What setting the status lights leaves alone, and what it does to the
motion flags and the call log. -/
theorem setRoofStatus_kept (o c : Bool) (s : State) :
    (setRoofStatus o c s).roofTimedOut = s.roofTimedOut ∧
    (setRoofStatus o c s).MotionRequest = s.MotionRequest ∧
    (setRoofStatus o c s).MotionStart = s.MotionStart ∧
    (setRoofStatus o c s).env = s.env ∧
    (setRoofStatus o c s).fullyOpenedLimitSwitch = s.fullyOpenedLimitSwitch ∧
    (setRoofStatus o c s).fullyClosedLimitSwitch = s.fullyClosedLimitSwitch ∧
    (setRoofStatus o c s).tx = s.tx ∧
    (setRoofStatus o c s).calls = s.calls ++ [Call.IDSetLight] ∧
    (setRoofStatus o c s).roofOpening = (if o && !c then false else s.roofOpening) ∧
    (setRoofStatus o c s).roofClosing = (if c && !o then false else s.roofClosing) := by
  unfold setRoofStatus
  cases o <;> cases c <;> simp [State.env]
  all_goals (repeat' split)
  all_goals simp

/-- A status refresh that returns has sampled the two switches into some
`o` and `c` and set the status from them; a sample that is true has stored
`ISS_ON`. -/
theorem updateRoofStatus_ok (s s1 : State) (h : updateRoofStatus s = .ok () s1) :
    ∃ (o c : Bool) (s2 : State), s1 = setRoofStatus o c s2 ∧ SwitchKept s s2 ∧
      (o = true → s2.fullyOpenedLimitSwitch = ISState.ISS_ON) ∧
      (c = true → s2.fullyClosedLimitSwitch = ISState.ISS_ON) := by
  unfold updateRoofStatus at h
  split at h
  · simp at h
  · rename_i ro sa ha
    split at h
    · simp at h
    · rename_i rc sb hb
      simp only [Outcome.ok.injEq, true_and] at h
      have ka := getFullOpenedLimitSwitch_kept false s
      have kb := getFullClosedLimitSwitch_kept false sa
      rw [ha] at ka
      rw [hb] at kb
      refine ⟨ro.2, rc.2, sb, h.symm, switchKept_trans ka.1 kb.1, ?_, ?_⟩
      · intro ho
        have := getFullOpenedLimitSwitch_on s sa ro ha ho
        exact kb.2.trans this
      · intro hc
        exact getFullClosedLimitSwitch_on sa sb rc hb hc


theorem getFullOpenedLimitSwitch_tx (sw : Bool) (s : State) :
    (getFullOpenedLimitSwitch sw s).state.tx = s.tx ∨
    (getFullOpenedLimitSwitch sw s).state.tx = s.tx ++ [getFrame ROOF_OPENED_SWITCH] := by
  have k := readRoofSwitch_tx ROOF_OPENED_SWITCH sw s
  unfold getFullOpenedLimitSwitch
  split
  · split <;> exact Or.inl rfl
  · split <;> (rename_i h; rw [h] at k; exact k)

theorem getFullClosedLimitSwitch_tx (sw : Bool) (s : State) :
    (getFullClosedLimitSwitch sw s).state.tx = s.tx ∨
    (getFullClosedLimitSwitch sw s).state.tx = s.tx ++ [getFrame ROOF_CLOSED_SWITCH] := by
  have k := readRoofSwitch_tx ROOF_CLOSED_SWITCH sw s
  unfold getFullClosedLimitSwitch
  split
  · split <;> exact Or.inl rfl
  · split <;> (rename_i h; rw [h] at k; exact k)

/-- A status refresh puts nothing on the transport but its two switch
queries. -/
theorem updateRoofStatus_tx (s s1 : State) (h : updateRoofStatus s = .ok () s1) :
    ∃ l : List (List Char), s1.tx = s.tx ++ l ∧
      ∀ m ∈ l, m = getFrame ROOF_OPENED_SWITCH ∨ m = getFrame ROOF_CLOSED_SWITCH := by
  unfold updateRoofStatus at h
  split at h
  · simp at h
  · rename_i ro sa ha
    split at h
    · simp at h
    · rename_i rc sb hb
      simp only [Outcome.ok.injEq, true_and] at h
      have ta := getFullOpenedLimitSwitch_tx false s
      have tb := getFullClosedLimitSwitch_tx false sa
      rw [ha] at ta
      rw [hb] at tb
      simp only [Outcome.state] at ta tb
      have e : s1.tx = sb.tx := by
        rw [← h]
        exact (setRoofStatus_kept ro.2 rc.2 sb).2.2.2.2.2.2.1
      rcases ta with ta | ta <;> rcases tb with tb | tb
      · exact ⟨[], by rw [e, tb, ta]; simp, by simp⟩
      · exact ⟨[getFrame ROOF_CLOSED_SWITCH], by rw [e, tb, ta], by simp⟩
      · exact ⟨[getFrame ROOF_OPENED_SWITCH], by rw [e, tb, ta], by simp⟩
      · exact ⟨[getFrame ROOF_OPENED_SWITCH, getFrame ROOF_CLOSED_SWITCH],
          by rw [e, tb, ta]; simp, by simp⟩

/-- C2: whatever the state before, a status refresh that samples the opened
switch as On and the closed switch as Off returns with the opened light OK,
the overall status OK, the closed and moving lights idle and `roofOpening`
cleared. -/
theorem updateRoofStatus_opened (s s1 s2 : State) (a b : Bool)
    (h1 : getFullOpenedLimitSwitch false s = .ok (a, true) s1)
    (h2 : getFullClosedLimitSwitch false s1 = .ok (b, false) s2) :
    ∃ s3, updateRoofStatus s = .ok () s3 ∧
      s3.lightOpened = IPState.IPS_OK ∧ s3.RoofStatusLP = IPState.IPS_OK ∧
      s3.lightClosed = IPState.IPS_IDLE ∧ s3.lightMoving = IPState.IPS_IDLE ∧
      s3.roofOpening = false := by
  refine ⟨setRoofStatus true false s2, ?_, ?_, ?_, ?_, ?_, ?_⟩
  · simp [updateRoofStatus, h1, h2]
  all_goals simp [setRoofStatus]

/-- C2, witness: both motion flags set and a close timeout on record before
the refresh. -/
theorem updateRoofStatus_opened_witness :
    arrivedOpenState.roofOpening = true ∧ arrivedOpenState.roofClosing = true ∧
    getFullOpenedLimitSwitch false arrivedOpenState
      = .ok (true, true) (getFullOpenedLimitSwitch false arrivedOpenState).state ∧
    getFullClosedLimitSwitch false (getFullOpenedLimitSwitch false arrivedOpenState).state
      = .ok (true, false)
          (getFullClosedLimitSwitch false
            (getFullOpenedLimitSwitch false arrivedOpenState).state).state ∧
    ∃ s3, updateRoofStatus arrivedOpenState = .ok () s3 ∧
      s3.lightOpened = IPState.IPS_OK ∧ s3.RoofStatusLP = IPState.IPS_OK ∧
      s3.lightClosed = IPState.IPS_IDLE ∧ s3.lightMoving = IPState.IPS_IDLE ∧
      s3.roofOpening = false :=
  ⟨by decide, by decide, by decide, by decide,
   updateRoofStatus_opened arrivedOpenState
     (getFullOpenedLimitSwitch false arrivedOpenState).state
     (getFullClosedLimitSwitch false
       (getFullOpenedLimitSwitch false arrivedOpenState).state).state
     true true (by decide) (by decide)⟩


/-! ## Theorems: relay operations -/

/-- A button push leaves the motion fields and the framework variables
alone. -/
theorem pushRoofButton_kept (button : List Char) (switchOn ignoreLock : Bool) (s : State) :
    (pushRoofButton button switchOn ignoreLock s).state.motion = s.motion ∧
    (pushRoofButton button switchOn ignoreLock s).state.env = s.env := by
  have kq := readRoofSwitch_kept (some ROOF_LOCKED_SWITCH) false s
  unfold pushRoofButton
  split
  · exact ⟨rfl, rfl⟩
  · unfold getRoofLockedSwitch
    split
    · rename_i s1 hq
      rw [hq] at kq
      exact ⟨kq.1, kq.2.1⟩
    · rename_i status switchState s1 hq
      rw [hq] at kq
      simp only [Outcome.state] at kq
      have kw := writeIno_kept (setFrame button switchOn) s1
      split
      · dsimp only
        split
        · exact ⟨kq.1, kq.2.1⟩
        · split
          · exact ⟨kw.1.trans kq.1, kw.2.1.trans kq.2.1⟩
          · split <;> exact ⟨kw.1.trans kq.1, kw.2.1.trans kq.2.1⟩
      · exact ⟨kq.1, kq.2.1⟩

theorem roofOpen_kept (s : State) :
    (roofOpen s).state.motion = s.motion ∧ (roofOpen s).state.env = s.env := by
  unfold roofOpen
  split
  · exact ⟨rfl, rfl⟩
  · exact pushRoofButton_kept _ _ _ s

theorem roofClose_kept (s : State) :
    (roofClose s).state.motion = s.motion ∧ (roofClose s).state.env = s.env := by
  unfold roofClose
  split
  · exact ⟨rfl, rfl⟩
  · exact pushRoofButton_kept _ _ _ s


/-! ## Theorems: motion state machine -/

/-- What a status refresh leaves alone, and how far it can change the motion
flags. -/
theorem updateRoofStatus_fields (s s1 : State) (h : updateRoofStatus s = .ok () s1) :
    s1.roofTimedOut = s.roofTimedOut ∧ s1.MotionRequest = s.MotionRequest ∧
    s1.MotionStart = s.MotionStart ∧ s1.env = s.env ∧
    s1.calls = s.calls ++ [Call.IDSetLight] ∧
    (s.roofOpening = false → s1.roofOpening = false) ∧
    (s.roofClosing = false → s1.roofClosing = false) ∧
    (s1.fullyOpenedLimitSwitch ≠ ISState.ISS_ON → s1.roofOpening = s.roofOpening) ∧
    (s1.fullyClosedLimitSwitch ≠ ISState.ISS_ON → s1.roofClosing = s.roofClosing) := by
  obtain ⟨o, c, s2, e, k, ho, hc⟩ := updateRoofStatus_ok s s1 h
  have f := setRoofStatus_kept o c s2
  rw [← e] at f
  obtain ⟨f1, f2, f3, f4, f5, f6, _, f8, f9, f10⟩ := f
  have km := k.1
  simp only [State.motion, Prod.mk.injEq] at km
  obtain ⟨m1, m2, m3, m4, m5⟩ := km
  refine ⟨f1.trans m3, f2.trans m4, f3.trans m5, f4.trans k.2.1, ?_, ?_, ?_, ?_, ?_⟩
  · rw [f8, k.2.2]
  · intro hs
    rw [f9, m1, hs]
    simp
  · intro hs
    rw [f10, m2, hs]
    simp
  · intro hne
    have : o = false := by
      cases o
      · rfl
      · exact absurd (f5.trans (ho rfl)) hne
    rw [f9, this, m1]
    simp
  · intro hne
    have : c = false := by
      cases c
      · rfl
      · exact absurd (f6.trans (hc rfl)) hne
    rw [f10, this, m2]
    simp

/-- C3, as amended: when `roofOpening` is still set after the status refresh
that opens `Move`, `Move(DOME_CW, MOTION_START)` does nothing beyond that
refresh and returns `IPS_OK`.  The state it returns in is the state the
refresh left: `roofOpening` is set as before, `roofTimedOut`, `MotionRequest`
and `MotionStart` are as before the call, `roofClosing` is not set if it was
not, and the transport has received no request but the refresh's two switch
queries. -/
theorem Move_while_opening (now : Timeval) (s s1 : State)
    (h : updateRoofStatus s = .ok () s1) (ho : s1.roofOpening = true) :
    Move DomeDirection.DOME_CW DomeMotionCommand.MOTION_START now s
      = .ok IPState.IPS_OK s1 ∧
    s.roofOpening = true ∧ s1.roofTimedOut = s.roofTimedOut ∧
    s1.MotionRequest = s.MotionRequest ∧ s1.MotionStart = s.MotionStart ∧
    (s.roofClosing = false → s1.roofClosing = false) ∧
    ∃ l : List (List Char), s1.tx = s.tx ++ l ∧
      ∀ m ∈ l, m = getFrame ROOF_OPENED_SWITCH ∨ m = getFrame ROOF_CLOSED_SWITCH := by
  obtain ⟨f1, f2, f3, _, _, f6, f7, _, _⟩ := updateRoofStatus_fields s s1 h
  refine ⟨?_, ?_, f1, f2, f3, f7, updateRoofStatus_tx s s1 h⟩
  · simp [Move, h, ho]
  · cases hs : s.roofOpening
    · rw [f6 hs] at ho
      exact absurd ho (by simp)
    · rfl

/-- C3, witness: a second open request two seconds into an open motion. -/
theorem Move_while_opening_witness :
    updateRoofStatus openingState = .ok () (updateRoofStatus openingState).state ∧
    (updateRoofStatus openingState).state.roofOpening = true ∧
    Move DomeDirection.DOME_CW DomeMotionCommand.MOTION_START
        { tv_sec := 102, tv_usec := 0 } openingState
      = .ok IPState.IPS_OK (updateRoofStatus openingState).state ∧
    (updateRoofStatus openingState).state.tx
      = ["(GET:OPENED:0)".toList, "(GET:CLOSED:0)".toList] :=
  ⟨by decide, by decide,
   (Move_while_opening { tv_sec := 102, tv_usec := 0 } openingState
      (updateRoofStatus openingState).state (by decide) (by decide)).1,
   by decide⟩

/-- C3 as stated fails in the returned status: during an open motion, with the
motion property busy, a second `Move(DOME_CW, MOTION_START)` returns `IPS_OK`,
which is not the busy status. -/
theorem Move_while_opening_returns_ok :
    openingState.DomeMotionSP = IPState.IPS_BUSY ∧
    (updateRoofStatus openingState).state.roofOpening = true ∧
    (Move DomeDirection.DOME_CW DomeMotionCommand.MOTION_START
        { tv_sec := 102, tv_usec := 0 } openingState).ret? = some IPState.IPS_OK ∧
    (Move DomeDirection.DOME_CW DomeMotionCommand.MOTION_START
        { tv_sec := 102, tv_usec := 0 } openingState).ret? ≠ some IPState.IPS_BUSY := by
  decide

/-- C5: with no motion in flight, `Move(DOME_CCW, MOTION_START)` returns
`IPS_ALERT` without a relay command (1) when the closed switch is not On and
the framework reports the roof locked, in the state the status refresh left,
with `roofClosing`, `roofOpening`, `roofTimedOut`, `MotionRequest` and
`MotionStart` unchanged; (2) when the closed switch reads On, after calling
`SetParked(true)`.  In both cases the transport has received nothing but the
refresh's two switch queries. -/
theorem Move_close_rejected (now : Timeval) (s s1 : State)
    (h : updateRoofStatus s = .ok () s1)
    (ho : s.roofOpening = false) (hc : s.roofClosing = false) :
    (s1.fullyClosedLimitSwitch ≠ ISState.ISS_ON → s.locked = true →
      Move DomeDirection.DOME_CCW DomeMotionCommand.MOTION_START now s
        = .ok IPState.IPS_ALERT s1 ∧
      s1.roofClosing = s.roofClosing ∧ s1.roofOpening = s.roofOpening ∧
      s1.roofTimedOut = s.roofTimedOut ∧ s1.MotionRequest = s.MotionRequest ∧
      s1.MotionStart = s.MotionStart) ∧
    (s1.fullyClosedLimitSwitch = ISState.ISS_ON →
      Move DomeDirection.DOME_CCW DomeMotionCommand.MOTION_START now s
        = .ok IPState.IPS_ALERT { s1 with calls := s1.calls ++ [Call.SetParked true] }) ∧
    ∃ l : List (List Char), s1.tx = s.tx ++ l ∧
      ∀ m ∈ l, m = getFrame ROOF_OPENED_SWITCH ∨ m = getFrame ROOF_CLOSED_SWITCH := by
  obtain ⟨f1, f2, f3, f4, _, f6, f7, _, _⟩ := updateRoofStatus_fields s s1 h
  have ho1 := f6 ho
  have hc1 := f7 hc
  simp only [State.env, Prod.mk.injEq] at f4
  refine ⟨?_, ?_, updateRoofStatus_tx s s1 h⟩
  · intro hsw hl
    have hl1 : s1.locked = true := f4.2.2.1.trans hl
    refine ⟨?_, hc1.trans hc.symm, ho1.trans ho.symm, f1, f2, f3⟩
    simp [Move, h, ho1, hc1, hsw, hl1]
  · intro hsw
    simp [Move, h, ho1, hc1, hsw]

/-- C5, witness: the mount lock is on and the roof is open; then the closed
switch reads On. -/
theorem Move_close_rejected_witness :
    (Move DomeDirection.DOME_CCW DomeMotionCommand.MOTION_START
        { tv_sec := 100, tv_usec := 0 }
        (stationaryState true "(ACK:OPENED:ON)(ACK:CLOSED:OFF)")
      = .ok IPState.IPS_ALERT
          (updateRoofStatus (stationaryState true "(ACK:OPENED:ON)(ACK:CLOSED:OFF)")).state) ∧
    (Move DomeDirection.DOME_CCW DomeMotionCommand.MOTION_START
        { tv_sec := 100, tv_usec := 0 }
        (stationaryState false "(ACK:OPENED:OFF)(ACK:CLOSED:ON)")).ret?
      = some IPState.IPS_ALERT ∧
    (Move DomeDirection.DOME_CCW DomeMotionCommand.MOTION_START
        { tv_sec := 100, tv_usec := 0 }
        (stationaryState false "(ACK:OPENED:OFF)(ACK:CLOSED:ON)")).state.calls
      = [Call.IDSetLight, Call.SetParked true] :=
  ⟨((Move_close_rejected { tv_sec := 100, tv_usec := 0 }
      (stationaryState true "(ACK:OPENED:ON)(ACK:CLOSED:OFF)")
      (updateRoofStatus (stationaryState true "(ACK:OPENED:ON)(ACK:CLOSED:OFF)")).state
      (by decide) (by decide) (by decide)).1 (by decide) (by decide)).1,
   congrArg Outcome.ret?
    ((Move_close_rejected { tv_sec := 100, tv_usec := 0 }
      (stationaryState false "(ACK:OPENED:OFF)(ACK:CLOSED:ON)")
      (updateRoofStatus (stationaryState false "(ACK:OPENED:OFF)(ACK:CLOSED:ON)")).state
      (by decide) (by decide) (by decide)).2.1 (by decide)),
   by decide⟩


theorem simSwitches_kept (timeleft : Int) (s : State) :
    (simSwitches timeleft s).motion = s.motion ∧ (simSwitches timeleft s).env = s.env ∧
    (simSwitches timeleft s).calls = s.calls := by
  unfold simSwitches
  repeat' split
  all_goals exact ⟨rfl, rfl, rfl⟩

/-- The communication-error block leaves the motion fields and the motion
property alone and only adds to the call log. -/
theorem commCheck_kept (s : State) :
    (commCheck s).motion = s.motion ∧
    (commCheck s).DomeMotionSP = s.DomeMotionSP ∧
    (commCheck s).DomeMotionCW = s.DomeMotionCW ∧
    (commCheck s).DomeMotionCCW = s.DomeMotionCCW ∧
    ∃ more, (commCheck s).calls = s.calls ++ more := by
  unfold commCheck
  split
  · exact ⟨rfl, rfl, rfl, rfl,
      [Call.Disconnect, Call.DomeInitProperties, Call.SetParkDataType, Call.addAuxControls],
      by simp [initProperties]⟩
  · exact ⟨rfl, rfl, rfl, rfl, [], (List.append_nil _).symm⟩

/-- A tick of a connected driver whose status refresh returns runs the motion
block, the communication-error block and sets the timer. -/
theorem TimerHit_connected (now : Timeval) (s s1 : State) (hconn : s.connected = true)
    (href : updateRoofStatus (simSwitches (CalcTimeLeft now s.MotionStart s) s) = .ok () s1) :
    TimerHit now s = .ok ()
      { commCheck (motionCheck (CalcTimeLeft now s.MotionStart s) s1).2 with
        calls := (commCheck (motionCheck (CalcTimeLeft now s.MotionStart s) s1).2).calls ++
          [Call.SetTimer (motionCheck (CalcTimeLeft now s.MotionStart s) s1).1] } := by
  simp [TimerHit, hconn, href]

/-- The motion block during an open motion with the opened switch not On. -/
theorem motionCheck_opening (timeleft : Int) (s : State)
    (hb : s.DomeMotionSP = IPState.IPS_BUSY) (hr : 0 ≤ s.MotionRequest)
    (hcw : s.DomeMotionCW = ISState.ISS_ON)
    (hsw : s.fullyOpenedLimitSwitch ≠ ISState.ISS_ON) :
    motionCheck timeleft s =
      if timeleft ≤ 0 then
        (1000 * INACTIVE_STATUS,
          { s with calls := s.calls ++ [Call.setDomeState DomeState.DOME_IDLE],
                   roofOpening := false, roofTimedOut := RoofTimedOut.EXPIRED_OPEN })
      else (1000, s) := by
  have hr1 : ¬ s.MotionRequest < 0 := not_lt.mpr hr
  simp [motionCheck, hb, hr1, hcw, hsw]

/-- The motion block during a close motion with the closed switch not On. -/
theorem motionCheck_closing (timeleft : Int) (s : State)
    (hb : s.DomeMotionSP = IPState.IPS_BUSY) (hr : 0 ≤ s.MotionRequest)
    (hcw : s.DomeMotionCW = ISState.ISS_OFF) (hccw : s.DomeMotionCCW = ISState.ISS_ON)
    (hsw : s.fullyClosedLimitSwitch ≠ ISState.ISS_ON) :
    motionCheck timeleft s =
      if timeleft ≤ 0 then
        (1000 * INACTIVE_STATUS,
          { s with calls := s.calls ++ [Call.setDomeState DomeState.DOME_IDLE],
                   roofClosing := false, roofTimedOut := RoofTimedOut.EXPIRED_CLOSE })
      else (1000, s) := by
  have hr1 : ¬ s.MotionRequest < 0 := not_lt.mpr hr
  simp [motionCheck, hb, hr1, hcw, hccw, hsw]


/-- One tick of an open motion in flight while the opened switch is not On:
before the timeout the motion stays in flight, from the timeout on the tick
records `EXPIRED_OPEN`. -/
theorem TimerHit_opening (T : Int) (t0 now : Timeval) (s s1 : State)
    (hT : 0 ≤ T) (hconn : s.connected = true) (hbusy : s.DomeMotionSP = IPState.IPS_BUSY)
    (href : updateRoofStatus (simSwitches (CalcTimeLeft now s.MotionStart s) s) = .ok () s1)
    (hO : Opening T t0 s) (hdir : s.DomeMotionCW = ISState.ISS_ON)
    (hsw : s1.fullyOpenedLimitSwitch ≠ ISState.ISS_ON) :
    ∃ s2, TimerHit now s = .ok () s2 ∧
      (now.ms - t0.ms < 1000 * T → Opening T t0 s2) ∧
      (1000 * T ≤ now.ms - t0.ms →
        s2.roofTimedOut = RoofTimedOut.EXPIRED_OPEN ∧ s2.roofOpening = false ∧
        ∃ more, s2.calls = s.calls ++
          Call.IDSetLight :: Call.setDomeState DomeState.DOME_IDLE :: more) := by
  obtain ⟨o1, o2, o3, o4⟩ := hO
  have htl : CalcTimeLeft now s.MotionStart s = 1000 * T - (now.ms - t0.ms) := by
    simp [CalcTimeLeft, o3, o4]
  obtain ⟨km, ke, kc⟩ := simSwitches_kept (CalcTimeLeft now s.MotionStart s) s
  obtain ⟨f1, f2, f3, f4, f5, _, _, f8, _⟩ := updateRoofStatus_fields _ s1 href
  simp only [State.motion, Prod.mk.injEq] at km
  simp only [State.env, Prod.mk.injEq] at ke f4
  have hb : s1.DomeMotionSP = IPState.IPS_BUSY := (f4.2.2.2.1.trans ke.2.2.2.1).trans hbusy
  have hcw : s1.DomeMotionCW = ISState.ISS_ON := (f4.2.2.2.2.1.trans ke.2.2.2.2.1).trans hdir
  have hreq : s1.MotionRequest = T := (f2.trans km.2.2.2.1).trans o3
  have hst : s1.MotionStart = t0 := (f3.trans km.2.2.2.2).trans o4
  have hto : s1.roofTimedOut = RoofTimedOut.EXPIRED_CLEAR := (f1.trans km.2.2.1).trans o2
  have hop : s1.roofOpening = true := ((f8 hsw).trans km.1).trans o1
  have hmc := motionCheck_opening (CalcTimeLeft now s.MotionStart s) s1 hb
    (by rw [hreq]; exact hT) hcw hsw
  have hTH := TimerHit_connected now s s1 hconn href
  obtain ⟨m, hm⟩ : ∃ m, m = motionCheck (CalcTimeLeft now s.MotionStart s) s1 := ⟨_, rfl⟩
  rw [← hm] at hTH
  rw [hmc] at hm
  obtain ⟨cm, _, _, _, more, c5⟩ := commCheck_kept m.2
  simp only [State.motion, Prod.mk.injEq] at cm
  refine ⟨_, hTH, ?_, ?_⟩
  · intro hlt
    have hpos : ¬ CalcTimeLeft now s.MotionStart s ≤ 0 := by
      rw [htl]
      omega
    rw [if_neg hpos] at hm
    subst hm
    exact ⟨cm.1.trans hop, cm.2.2.1.trans hto, cm.2.2.2.1.trans hreq, cm.2.2.2.2.trans hst⟩
  · intro hge
    have hle : CalcTimeLeft now s.MotionStart s ≤ 0 := by
      rw [htl]
      omega
    rw [if_pos hle] at hm
    subst hm
    refine ⟨cm.2.2.1, cm.1, more ++ [Call.SetTimer (1000 * INACTIVE_STATUS)], ?_⟩
    show (commCheck _).calls ++ [Call.SetTimer _] = _
    rw [c5]
    show (s1.calls ++ [Call.setDomeState DomeState.DOME_IDLE]) ++ more ++ [Call.SetTimer _] = _
    rw [f5, kc]
    simp

/-- One tick of a close motion in flight while the closed switch is not On. -/
theorem TimerHit_closing (T : Int) (t0 now : Timeval) (s s1 : State)
    (hT : 0 ≤ T) (hconn : s.connected = true) (hbusy : s.DomeMotionSP = IPState.IPS_BUSY)
    (href : updateRoofStatus (simSwitches (CalcTimeLeft now s.MotionStart s) s) = .ok () s1)
    (hC : Closing T t0 s) (hdir : s.DomeMotionCW = ISState.ISS_OFF)
    (hdir2 : s.DomeMotionCCW = ISState.ISS_ON)
    (hsw : s1.fullyClosedLimitSwitch ≠ ISState.ISS_ON) :
    ∃ s2, TimerHit now s = .ok () s2 ∧
      (now.ms - t0.ms < 1000 * T → Closing T t0 s2) ∧
      (1000 * T ≤ now.ms - t0.ms →
        s2.roofTimedOut = RoofTimedOut.EXPIRED_CLOSE ∧ s2.roofClosing = false ∧
        ∃ more, s2.calls = s.calls ++
          Call.IDSetLight :: Call.setDomeState DomeState.DOME_IDLE :: more) := by
  obtain ⟨o1, o2, o3, o4⟩ := hC
  have htl : CalcTimeLeft now s.MotionStart s = 1000 * T - (now.ms - t0.ms) := by
    simp [CalcTimeLeft, o3, o4]
  obtain ⟨km, ke, kc⟩ := simSwitches_kept (CalcTimeLeft now s.MotionStart s) s
  obtain ⟨f1, f2, f3, f4, f5, _, _, _, f9⟩ := updateRoofStatus_fields _ s1 href
  simp only [State.motion, Prod.mk.injEq] at km
  simp only [State.env, Prod.mk.injEq] at ke f4
  have hb : s1.DomeMotionSP = IPState.IPS_BUSY := (f4.2.2.2.1.trans ke.2.2.2.1).trans hbusy
  have hcw : s1.DomeMotionCW = ISState.ISS_OFF := (f4.2.2.2.2.1.trans ke.2.2.2.2.1).trans hdir
  have hccw : s1.DomeMotionCCW = ISState.ISS_ON :=
    (f4.2.2.2.2.2.1.trans ke.2.2.2.2.2.1).trans hdir2
  have hreq : s1.MotionRequest = T := (f2.trans km.2.2.2.1).trans o3
  have hst : s1.MotionStart = t0 := (f3.trans km.2.2.2.2).trans o4
  have hto : s1.roofTimedOut = RoofTimedOut.EXPIRED_CLEAR := (f1.trans km.2.2.1).trans o2
  have hcl : s1.roofClosing = true := ((f9 hsw).trans km.2.1).trans o1
  have hmc := motionCheck_closing (CalcTimeLeft now s.MotionStart s) s1 hb
    (by rw [hreq]; exact hT) hcw hccw hsw
  have hTH := TimerHit_connected now s s1 hconn href
  obtain ⟨m, hm⟩ : ∃ m, m = motionCheck (CalcTimeLeft now s.MotionStart s) s1 := ⟨_, rfl⟩
  rw [← hm] at hTH
  rw [hmc] at hm
  obtain ⟨cm, _, _, _, more, c5⟩ := commCheck_kept m.2
  simp only [State.motion, Prod.mk.injEq] at cm
  refine ⟨_, hTH, ?_, ?_⟩
  · intro hlt
    have hpos : ¬ CalcTimeLeft now s.MotionStart s ≤ 0 := by
      rw [htl]
      omega
    rw [if_neg hpos] at hm
    subst hm
    exact ⟨cm.2.1.trans hcl, cm.2.2.1.trans hto, cm.2.2.2.1.trans hreq,
      cm.2.2.2.2.trans hst⟩
  · intro hge
    have hle : CalcTimeLeft now s.MotionStart s ≤ 0 := by
      rw [htl]
      omega
    rw [if_pos hle] at hm
    subst hm
    refine ⟨cm.2.2.1, cm.2.1, more ++ [Call.SetTimer (1000 * INACTIVE_STATUS)], ?_⟩
    show (commCheck _).calls ++ [Call.SetTimer _] = _
    rw [c5]
    show (s1.calls ++ [Call.setDomeState DomeState.DOME_IDLE]) ++ more ++ [Call.SetTimer _] = _
    rw [f5, kc]
    simp

/-- C1: motion timeout.  Take a connected driver whose motion property is busy,
with the driver's record of a motion in flight that started at `t0` with a
timeout of `T ≥ 0` seconds, and a tick at `now` whose status refresh returns
in `s1`.  If the motion is an open motion (direction switch `DOME_CW` On) and
the opened switch does not read On, the tick returns, and: while
`now - t0 < T` (in the milliseconds of `CalcTimeLeft`) the open motion is still
on record afterwards, with `roofOpening` set, no timeout recorded and the same
`T` and `t0`; once `now - t0 ≥ T` the tick records `EXPIRED_OPEN`, clears
`roofOpening` and calls `setDomeState(DOME_IDLE)`.  The same holds for a close
motion (direction switch `DOME_CCW` On) with the closed switch, `roofClosing`
and `EXPIRED_CLOSE`. -/
theorem TimerHit_timeout (T : Int) (t0 now : Timeval) (s s1 : State)
    (hT : 0 ≤ T) (hconn : s.connected = true) (hbusy : s.DomeMotionSP = IPState.IPS_BUSY)
    (href : updateRoofStatus (simSwitches (CalcTimeLeft now s.MotionStart s) s) = .ok () s1) :
    (Opening T t0 s → s.DomeMotionCW = ISState.ISS_ON →
      s1.fullyOpenedLimitSwitch ≠ ISState.ISS_ON →
      ∃ s2, TimerHit now s = .ok () s2 ∧
        (now.ms - t0.ms < 1000 * T → Opening T t0 s2) ∧
        (1000 * T ≤ now.ms - t0.ms →
          s2.roofTimedOut = RoofTimedOut.EXPIRED_OPEN ∧ s2.roofOpening = false ∧
          ∃ more, s2.calls = s.calls ++
            Call.IDSetLight :: Call.setDomeState DomeState.DOME_IDLE :: more)) ∧
    (Closing T t0 s → s.DomeMotionCW = ISState.ISS_OFF → s.DomeMotionCCW = ISState.ISS_ON →
      s1.fullyClosedLimitSwitch ≠ ISState.ISS_ON →
      ∃ s2, TimerHit now s = .ok () s2 ∧
        (now.ms - t0.ms < 1000 * T → Closing T t0 s2) ∧
        (1000 * T ≤ now.ms - t0.ms →
          s2.roofTimedOut = RoofTimedOut.EXPIRED_CLOSE ∧ s2.roofClosing = false ∧
          ∃ more, s2.calls = s.calls ++
            Call.IDSetLight :: Call.setDomeState DomeState.DOME_IDLE :: more)) :=
  ⟨TimerHit_opening T t0 now s s1 hT hconn hbusy href,
   TimerHit_closing T t0 now s s1 hT hconn hbusy href⟩

/-- C1, witness: timeout 15 s, motion started at second 100, the controller
answering both switches Off.  A tick one microsecond before second 115 leaves
the motion in flight; the tick at second 115 records the timeout. -/
theorem TimerHit_timeout_witness :
    Opening 15 { tv_sec := 100, tv_usec := 0 } openingState ∧
    (∃ s2, TimerHit { tv_sec := 114, tv_usec := 999999 } openingState = .ok () s2 ∧
      Opening 15 { tv_sec := 100, tv_usec := 0 } s2) ∧
    (∃ s2, TimerHit { tv_sec := 115, tv_usec := 0 } openingState = .ok () s2 ∧
      s2.roofTimedOut = RoofTimedOut.EXPIRED_OPEN ∧ s2.roofOpening = false) ∧
    Closing 15 { tv_sec := 100, tv_usec := 0 } closingState ∧
    (∃ s2, TimerHit { tv_sec := 114, tv_usec := 999999 } closingState = .ok () s2 ∧
      Closing 15 { tv_sec := 100, tv_usec := 0 } s2) ∧
    (∃ s2, TimerHit { tv_sec := 115, tv_usec := 0 } closingState = .ok () s2 ∧
      s2.roofTimedOut = RoofTimedOut.EXPIRED_CLOSE ∧ s2.roofClosing = false) := by
  have early := TimerHit_timeout 15 { tv_sec := 100, tv_usec := 0 }
    { tv_sec := 114, tv_usec := 999999 } openingState
    (updateRoofStatus (simSwitches (CalcTimeLeft { tv_sec := 114, tv_usec := 999999 }
      openingState.MotionStart openingState) openingState)).state
    (by decide) (by decide) (by decide) (by decide)
  have late := TimerHit_timeout 15 { tv_sec := 100, tv_usec := 0 }
    { tv_sec := 115, tv_usec := 0 } openingState
    (updateRoofStatus (simSwitches (CalcTimeLeft { tv_sec := 115, tv_usec := 0 }
      openingState.MotionStart openingState) openingState)).state
    (by decide) (by decide) (by decide) (by decide)
  have earlyC := TimerHit_timeout 15 { tv_sec := 100, tv_usec := 0 }
    { tv_sec := 114, tv_usec := 999999 } closingState
    (updateRoofStatus (simSwitches (CalcTimeLeft { tv_sec := 114, tv_usec := 999999 }
      closingState.MotionStart closingState) closingState)).state
    (by decide) (by decide) (by decide) (by decide)
  have lateC := TimerHit_timeout 15 { tv_sec := 100, tv_usec := 0 }
    { tv_sec := 115, tv_usec := 0 } closingState
    (updateRoofStatus (simSwitches (CalcTimeLeft { tv_sec := 115, tv_usec := 0 }
      closingState.MotionStart closingState) closingState)).state
    (by decide) (by decide) (by decide) (by decide)
  obtain ⟨a, ha, ha1, _⟩ := early.1 (by decide) (by decide) (by decide)
  obtain ⟨b, hb, _, hb2⟩ := late.1 (by decide) (by decide) (by decide)
  obtain ⟨c, hc, hc1, _⟩ := earlyC.2 (by decide) (by decide) (by decide) (by decide)
  obtain ⟨d, hd, _, hd2⟩ := lateC.2 (by decide) (by decide) (by decide) (by decide)
  exact ⟨by decide, ⟨a, ha, ha1 (by decide)⟩,
    ⟨b, hb, (hb2 (by decide)).1, (hb2 (by decide)).2.1⟩,
    by decide, ⟨c, hc, hc1 (by decide)⟩,
    ⟨d, hd, (hd2 (by decide)).1, (hd2 (by decide)).2.1⟩⟩

/-! ## Theorems: frames on the wire -/

/-- C11: a `)` that arrives before the first `(` ends the read.  On the stream
`x)(ACK:OPENED:ON)` the frame `readIno` returns is `)`: it does not begin with
the first `(`, it is made of a byte that preceded it, and the frame proper is
left unread.  Noise without a `)` is discarded as the claim says. -/
theorem readIno_stops_at_early_paren :
    (readIno zeroBuf (linkState 0 [] (rxOf "x)(ACK:OPENED:ON)"))).1 = true ∧
    cstr (readIno zeroBuf (linkState 0 [] (rxOf "x)(ACK:OPENED:ON)"))).2.1 = [')'] ∧
    (readIno zeroBuf (linkState 0 [] (rxOf "x)(ACK:OPENED:ON)"))).2.2.rx
      = rxOf "(ACK:OPENED:ON)" ∧
    cstr (readIno zeroBuf (linkState 0 [] (rxOf "xy(ACK:OPENED:ON)(NAK"))).2.1
      = "(ACK:OPENED:ON)".toList := by
  decide

/-- A contacted switch query whose request fits hands exactly that request
to the transport. -/
theorem readRoofSwitch_tx_contact (id : List Char) (r : Bool) (s : State)
    (hc : s.contactEstablished = true) (hfit : (getFrame id).length < MAXINOLINE) :
    (readRoofSwitch (some id) r s).state.tx = s.tx ++ [getFrame id] := by
  have kw := writeIno_tx (getFrame id) s hfit
  have hfit2 : ¬ ((getFrame id).length + 1 > MAXINOLINE) := by omega
  simp only [readRoofSwitch, hc, Bool.not_true, Bool.false_eq_true, if_false]
  rw [if_neg hfit2]
  split
  · exact kw
  · split
    · exact kw
    · split <;> exact kw

/-- The transport log after a button push: nothing, the lock query, or the
lock query and the `SET` frame. -/
theorem pushRoofButton_tx_cases (button : List Char) (switchOn ignoreLock : Bool) (s : State) :
    ∃ l, (pushRoofButton button switchOn ignoreLock s).state.tx = s.tx ++ l ∧
      (l = [] ∨ l = [getFrame ROOF_LOCKED_SWITCH] ∨
       l = [getFrame ROOF_LOCKED_SWITCH, setFrame button switchOn]) := by
  cases hc : s.contactEstablished
  · exact ⟨[], by simp [pushRoofButton, hc, Outcome.state], Or.inl rfl⟩
  · have tq := readRoofSwitch_tx_contact ROOF_LOCKED_SWITCH false s hc (by decide)
    simp only [pushRoofButton, hc, Bool.not_true, Bool.false_eq_true, if_false]
    unfold getRoofLockedSwitch
    split
    · rename_i s1 hq
      rw [hq] at tq
      exact ⟨_, tq, Or.inr (Or.inl rfl)⟩
    · rename_i status switchState s1 hq
      rw [hq] at tq
      simp only [Outcome.state] at tq
      have hw := writeIno_tx_cases (setFrame button switchOn) s1
      have key : ∃ l, (writeIno (setFrame button switchOn) s1).2.tx = s.tx ++ l ∧
          (l = [] ∨ l = [getFrame ROOF_LOCKED_SWITCH] ∨
            l = [getFrame ROOF_LOCKED_SWITCH, setFrame button switchOn]) := by
        rcases hw with hw | hw
        · exact ⟨_, hw.trans tq, Or.inr (Or.inl rfl)⟩
        · refine ⟨_, ?_, Or.inr (Or.inr rfl)⟩
          rw [hw, tq]
          simp
      split
      · split
        · exact ⟨_, tq, Or.inr (Or.inl rfl)⟩
        · split
          · exact key
          · split <;> exact key
      · exact ⟨_, tq, Or.inr (Or.inl rfl)⟩

/-- The handshake request is handed to the transport at every attempt. -/
theorem initialContact_tx (s : State) :
    (initialContact s).state.tx = s.tx ++ [conFrame] := by
  have kw := writeIno_tx conFrame { s with contactEstablished := false } (by decide)
  unfold initialContact
  dsimp only
  split
  · split
    · split <;> exact kw
    · exact kw
  · exact kw

/-- A switch query without contact hands nothing to the transport. -/
theorem readRoofSwitch_tx_nocontact (id : Option (List Char)) (r : Bool) (s : State)
    (hc : s.contactEstablished = false) :
    (readRoofSwitch id r s).state.tx = s.tx := by
  simp [readRoofSwitch, hc, Outcome.state]

/-- The length of a `GET` request. -/
theorem getFrame_length (id : List Char) : (getFrame id).length = id.length + 8 := by
  simp [getFrame]

/-- The length of a `SET` request. -/
theorem setFrame_length (button : List Char) (switchOn : Bool) :
    (setFrame button switchOn).length = button.length + (if switchOn then 9 else 10) := by
  cases switchOn <;> simp [setFrame]

/-- A contacted push that the lock does not block, with a button that fits,
hands the lock query and then its `SET` frame to the transport, whatever
happens to the write and to the acknowledgement. -/
theorem pushRoofButton_tx_sent (button : List Char) (switchOn ignoreLock : Bool)
    (s s1 : State) (q : Bool × Bool)
    (hc : s.contactEstablished = true)
    (hq : getRoofLockedSwitch false s = .ok q s1)
    (hnb : ((q.1 && !q.2) || ignoreLock) = true)
    (hfit : (setFrame button switchOn).length < MAXINOLINE) :
    (pushRoofButton button switchOn ignoreLock s).state.tx
      = s.tx ++ [getFrame ROOF_LOCKED_SWITCH, setFrame button switchOn] := by
  have tq := readRoofSwitch_tx_contact ROOF_LOCKED_SWITCH false s hc (by decide)
  have hq1 : readRoofSwitch (some ROOF_LOCKED_SWITCH) false s = .ok q s1 := hq
  rw [hq1] at tq
  simp only [Outcome.state] at tq
  have tw := writeIno_tx (setFrame button switchOn) s1 hfit
  have hfit2 : ¬ ((setFrame button switchOn).length + 1 > MAXINOBUF) := by
    simp only [MAXINOLINE, MAXINOBUF] at hfit ⊢
    omega
  have key : (writeIno (setFrame button switchOn) s1).2.tx
      = s.tx ++ [getFrame ROOF_LOCKED_SWITCH, setFrame button switchOn] := by
    rw [tw, tq]
    simp
  obtain ⟨q1, q2⟩ := q
  simp only [pushRoofButton, hc, hq, Bool.not_true, Bool.false_eq_true, if_false]
  rw [if_pos hnb, if_neg hfit2]
  split
  · exact key
  · split <;> exact key

/-- A contacted push that the lock query blocks hands only the lock query to
the transport. -/
theorem pushRoofButton_tx_blocked (button : List Char) (switchOn ignoreLock : Bool)
    (s s1 : State) (q : Bool × Bool)
    (hc : s.contactEstablished = true)
    (hq : getRoofLockedSwitch false s = .ok q s1)
    (hb : ((q.1 && !q.2) || ignoreLock) = false) :
    (pushRoofButton button switchOn ignoreLock s).state.tx
      = s.tx ++ [getFrame ROOF_LOCKED_SWITCH] := by
  have tq := readRoofSwitch_tx_contact ROOF_LOCKED_SWITCH false s hc (by decide)
  have hq1 : readRoofSwitch (some ROOF_LOCKED_SWITCH) false s = .ok q s1 := hq
  rw [hq1] at tq
  simp only [Outcome.state] at tq
  obtain ⟨q1, q2⟩ := q
  simp only [pushRoofButton, hc, hq, Bool.not_true, Bool.false_eq_true, if_false]
  rw [if_neg (by rw [hb]; simp)]
  exact tq

/-- Outside simulation and with contact, a limit-switch query hands its `GET`
request to the transport. -/
theorem getFullOpenedLimitSwitch_tx_sent (sw : Bool) (s : State)
    (hsim : s.simulation = false) (hc : s.contactEstablished = true) :
    (getFullOpenedLimitSwitch sw s).state.tx = s.tx ++ [getFrame ROOF_OPENED_SWITCH] := by
  have k := readRoofSwitch_tx_contact ROOF_OPENED_SWITCH sw s hc (by decide)
  simp only [getFullOpenedLimitSwitch, hsim, Bool.false_eq_true, if_false]
  split <;> (rename_i h; rw [h] at k; exact k)

/-- Outside simulation and with contact, a limit-switch query hands its `GET`
request to the transport. -/
theorem getFullClosedLimitSwitch_tx_sent (sw : Bool) (s : State)
    (hsim : s.simulation = false) (hc : s.contactEstablished = true) :
    (getFullClosedLimitSwitch sw s).state.tx = s.tx ++ [getFrame ROOF_CLOSED_SWITCH] := by
  have k := readRoofSwitch_tx_contact ROOF_CLOSED_SWITCH sw s hc (by decide)
  simp only [getFullClosedLimitSwitch, hsim, Bool.false_eq_true, if_false]
  split <;> (rename_i h; rw [h] at k; exact k)

/-- C12: wire format of the outgoing frames.  With contact established,
`readRoofSwitch` hands the transport exactly `(GET:<id>:0)` for every id that
fits its write buffer (at most 54 characters), and nothing without contact.  A
contacted `pushRoofButton` that the lock query lets through hands over the lock
query and then exactly `(SET:<button>:ON)` if `switchOn`, `(SET:<button>:OFF)`
otherwise, for every button that fits (at most 52 characters).
`initialContact` hands over exactly `(CON:0:0)`.  Outside simulation `roofOpen`
and `roofClose` so send `(SET:OPEN:ON)` and `(SET:CLOSE:ON)`, and the
limit-switch queries send `(GET:OPENED:0)` and `(GET:CLOSED:0)`.  In no state,
faulting runs included, does any of them hand the transport anything else. -/
theorem wire_format :
    (∀ (id : List Char) (r : Bool) (s : State),
      (s.contactEstablished = true → id.length ≤ 54 →
        (readRoofSwitch (some id) r s).state.tx
          = s.tx ++ ["(GET:".toList ++ id ++ ":0)".toList]) ∧
      (s.contactEstablished = false → (readRoofSwitch (some id) r s).state.tx = s.tx) ∧
      ((readRoofSwitch (some id) r s).state.tx = s.tx ∨
        (readRoofSwitch (some id) r s).state.tx
          = s.tx ++ ["(GET:".toList ++ id ++ ":0)".toList])) ∧
    (∀ (button : List Char) (switchOn ignoreLock : Bool) (s : State),
      (∀ (q : Bool × Bool) (s1 : State), s.contactEstablished = true →
        button.length ≤ 52 → getRoofLockedSwitch false s = .ok q s1 →
        ((q.1 && !q.2) || ignoreLock) = true →
        (pushRoofButton button switchOn ignoreLock s).state.tx
          = s.tx ++ ["(GET:LOCKED:0)".toList,
              "(SET:".toList ++ button ++
                (if switchOn then ":ON)".toList else ":OFF)".toList)]) ∧
      (∃ l, (pushRoofButton button switchOn ignoreLock s).state.tx = s.tx ++ l ∧
        (l = [] ∨ l = ["(GET:LOCKED:0)".toList] ∨
         l = ["(GET:LOCKED:0)".toList,
              "(SET:".toList ++ button ++
                (if switchOn then ":ON)".toList else ":OFF)".toList)]))) ∧
    (∀ s : State, (initialContact s).state.tx = s.tx ++ ["(CON:0:0)".toList]) ∧
    (∀ s : State,
      (∀ (q : Bool × Bool) (s1 : State), s.simulation = false →
        s.contactEstablished = true → getRoofLockedSwitch false s = .ok q s1 →
        (q.1 && !q.2) = true →
        (roofOpen s).state.tx
          = s.tx ++ ["(GET:LOCKED:0)".toList, "(SET:OPEN:ON)".toList]) ∧
      (∃ l, (roofOpen s).state.tx = s.tx ++ l ∧
        (l = [] ∨ l = ["(GET:LOCKED:0)".toList] ∨
         l = ["(GET:LOCKED:0)".toList, "(SET:OPEN:ON)".toList]))) ∧
    (∀ s : State,
      (∀ (q : Bool × Bool) (s1 : State), s.simulation = false →
        s.contactEstablished = true → getRoofLockedSwitch false s = .ok q s1 →
        (q.1 && !q.2) = true →
        (roofClose s).state.tx
          = s.tx ++ ["(GET:LOCKED:0)".toList, "(SET:CLOSE:ON)".toList]) ∧
      (∃ l, (roofClose s).state.tx = s.tx ++ l ∧
        (l = [] ∨ l = ["(GET:LOCKED:0)".toList] ∨
         l = ["(GET:LOCKED:0)".toList, "(SET:CLOSE:ON)".toList]))) ∧
    (∀ (sw : Bool) (s : State),
      (s.simulation = false → s.contactEstablished = true →
        (getFullOpenedLimitSwitch sw s).state.tx = s.tx ++ ["(GET:OPENED:0)".toList]) ∧
      ((getFullOpenedLimitSwitch sw s).state.tx = s.tx ∨
        (getFullOpenedLimitSwitch sw s).state.tx = s.tx ++ ["(GET:OPENED:0)".toList])) ∧
    (∀ (sw : Bool) (s : State),
      (s.simulation = false → s.contactEstablished = true →
        (getFullClosedLimitSwitch sw s).state.tx = s.tx ++ ["(GET:CLOSED:0)".toList]) ∧
      ((getFullClosedLimitSwitch sw s).state.tx = s.tx ∨
        (getFullClosedLimitSwitch sw s).state.tx = s.tx ++ ["(GET:CLOSED:0)".toList])) := by
  refine ⟨?_, ?_, ?_, ?_, ?_, ?_, ?_⟩
  · intro id r s
    refine ⟨fun hc hl => ?_, fun hc => readRoofSwitch_tx_nocontact _ r s hc,
      readRoofSwitch_tx id r s⟩
    exact readRoofSwitch_tx_contact id r s hc (by
      rw [getFrame_length]
      simp only [MAXINOLINE]
      omega)
  · intro button switchOn ignoreLock s
    refine ⟨fun q s1 hc hl hq hnb => ?_, pushRoofButton_tx_cases button switchOn ignoreLock s⟩
    exact pushRoofButton_tx_sent button switchOn ignoreLock s s1 q hc hq hnb (by
      rw [setFrame_length]
      simp only [MAXINOLINE]
      split <;> omega)
  · intro s
    exact initialContact_tx s
  · intro s
    refine ⟨fun q s1 hsim hc hq hnb => ?_, ?_⟩
    · have k := pushRoofButton_tx_sent ROOF_OPEN_RELAY true false s s1 q hc hq
        (by rw [hnb]; rfl) (by decide)
      simp only [roofOpen, hsim, Bool.false_eq_true, if_false]
      exact k
    · unfold roofOpen
      split
      · exact ⟨[], by simp [Outcome.state], Or.inl rfl⟩
      · exact pushRoofButton_tx_cases ROOF_OPEN_RELAY true false s
  · intro s
    refine ⟨fun q s1 hsim hc hq hnb => ?_, ?_⟩
    · have k := pushRoofButton_tx_sent ROOF_CLOSE_RELAY true false s s1 q hc hq
        (by rw [hnb]; rfl) (by decide)
      simp only [roofClose, hsim, Bool.false_eq_true, if_false]
      exact k
    · unfold roofClose
      split
      · exact ⟨[], by simp [Outcome.state], Or.inl rfl⟩
      · exact pushRoofButton_tx_cases ROOF_CLOSE_RELAY true false s
  · intro sw s
    exact ⟨getFullOpenedLimitSwitch_tx_sent sw s, getFullOpenedLimitSwitch_tx sw s⟩
  · intro sw s
    exact ⟨getFullClosedLimitSwitch_tx_sent sw s, getFullClosedLimitSwitch_tx sw s⟩

/-- C12, witness: on a contacted link with an empty log, a query of the opened
switch leaves the log `(GET:OPENED:0)`; a push of the close relay Off, the lock
answered Off, leaves it `(GET:LOCKED:0)`, `(SET:CLOSE:OFF)`; `roofOpen` leaves
it `(GET:LOCKED:0)`, `(SET:OPEN:ON)`, also when the write of the `SET` frame
fails; the handshake on a fresh port leaves it `(CON:0:0)`. -/
theorem wire_format_witness :
    (readRoofSwitch (some ROOF_OPENED_SWITCH) false
      (linkState 0 [true] (rxOf "(ACK:OPENED:ON)"))).state.tx = ["(GET:OPENED:0)".toList] ∧
    (pushRoofButton ROOF_CLOSE_RELAY false false
      (linkState 0 [true, true] (rxOf "(ACK:LOCKED:OFF)(ACK:CLOSE:OFF)"))).state.tx
      = ["(GET:LOCKED:0)".toList, "(SET:CLOSE:OFF)".toList] ∧
    (roofOpen (linkState 0 [true, true] (rxOf "(ACK:LOCKED:OFF)(ACK:OPEN:ON)"))).state.tx
      = ["(GET:LOCKED:0)".toList, "(SET:OPEN:ON)".toList] ∧
    (roofOpen (linkState 0 [true, false] (rxOf "(ACK:LOCKED:OFF)"))).state.tx
      = ["(GET:LOCKED:0)".toList, "(SET:OPEN:ON)".toList] ∧
    (getFullClosedLimitSwitch false
      (linkState 0 [true] (rxOf "(ACK:CLOSED:OFF)"))).state.tx = ["(GET:CLOSED:0)".toList] ∧
    (initialContact (portState [true] (rxOf "(ACK:0:0)"))).state.tx = ["(CON:0:0)".toList] :=
  ⟨(wire_format.1 ROOF_OPENED_SWITCH false
      (linkState 0 [true] (rxOf "(ACK:OPENED:ON)"))).1 (by decide) (by decide),
   (wire_format.2.1 ROOF_CLOSE_RELAY false false
      (linkState 0 [true, true] (rxOf "(ACK:LOCKED:OFF)(ACK:CLOSE:OFF)"))).1 (true, false)
      (getRoofLockedSwitch false
        (linkState 0 [true, true] (rxOf "(ACK:LOCKED:OFF)(ACK:CLOSE:OFF)"))).state
      (by decide) (by decide) (by decide) (by decide),
   (wire_format.2.2.2.1
      (linkState 0 [true, true] (rxOf "(ACK:LOCKED:OFF)(ACK:OPEN:ON)"))).1 (true, false)
      (getRoofLockedSwitch false
        (linkState 0 [true, true] (rxOf "(ACK:LOCKED:OFF)(ACK:OPEN:ON)"))).state
      (by decide) (by decide) (by decide) (by decide),
   (wire_format.2.2.2.1
      (linkState 0 [true, false] (rxOf "(ACK:LOCKED:OFF)"))).1 (true, false)
      (getRoofLockedSwitch false
        (linkState 0 [true, false] (rxOf "(ACK:LOCKED:OFF)"))).state
      (by decide) (by decide) (by decide) (by decide),
   (wire_format.2.2.2.2.2.2 false
      (linkState 0 [true] (rxOf "(ACK:CLOSED:OFF)"))).1 (by decide) (by decide),
   wire_format.2.2.1 (portState [true] (rxOf "(ACK:0:0)"))⟩

/-- C13: `writeIno` hands a message to the transport, unchanged, exactly when
it is shorter than `MAXINOLINE` = 63 bytes; a message of 63 bytes or more is
refused with `false` and the state, transport included, is left as it was. -/
theorem writeIno_length_bound (msg : List Char) (s : State) :
    MAXINOLINE = 63 ∧
    ((writeIno msg s).2.tx = s.tx ++ [msg] ↔ msg.length < MAXINOLINE) ∧
    (MAXINOLINE ≤ msg.length → writeIno msg s = (false, s)) := by
  refine ⟨rfl, ⟨?_, writeIno_tx msg s⟩, ?_⟩
  · intro h
    by_contra hlen
    have hge : msg.length ≥ MAXINOLINE := by omega
    simp only [writeIno, hge, if_true] at h
    have := congrArg List.length h
    simp at this
  · intro hge
    simp [writeIno, hge]

/-- C13, witness: a request of 62 bytes goes out, one of 63 bytes does not. -/
theorem writeIno_length_bound_witness :
    (writeIno (List.replicate 62 'x') (linkState 0 [true] [])).2.tx
      = [List.replicate 62 'x'] ∧
    (writeIno (List.replicate 62 'x') (linkState 0 [true] [])).1 = true ∧
    writeIno (List.replicate 63 'x') (linkState 0 [true] [])
      = (false, linkState 0 [true] []) :=
  ⟨((writeIno_length_bound (List.replicate 62 'x') (linkState 0 [true] [])).2.1.mpr
      (by decide)).trans (by decide),
   by decide,
   (writeIno_length_bound (List.replicate 63 'x') (linkState 0 [true] [])).2.2 (by decide)⟩

/-! ## Theorems: error accounting -/

/-- The error counter after the read loop: 0 after a frame, and after a failure
1 if a byte had arrived, one more than before otherwise. -/
theorem readInoLoop_errs (rx : List RxEv) :
    ∀ (start_found : Bool) (retCount totalCount off : Nat) (buf : List Char) (errs : Nat),
      ((readInoLoop rx start_found retCount totalCount off buf errs).1 = true →
        (readInoLoop rx start_found retCount totalCount off buf errs).2.2.1 = 0) ∧
      ((readInoLoop rx start_found retCount totalCount off buf errs).1 = false →
        (readInoLoop rx start_found retCount totalCount off buf errs).2.2.1
          = if rxBytesBeforeErr rx then 1 else errs + 1) := by
  induction rx with
  | nil =>
    intro sf rc tc off buf errs
    simp [readInoLoop, rxBytesBeforeErr]
  | cons ev rest ih =>
    intro sf rc tc off buf errs
    cases ev with
    | err => simp [readInoLoop, rxBytesBeforeErr]
    | idle =>
      simp only [readInoLoop, rxBytesBeforeErr]
      exact ih sf 0 tc (off + rc) buf errs
    | byte c =>
      have key : ∀ (sf1 : Bool) (rc1 tc1 off1 : Nat) (buf1 : List Char),
          ((readInoLoop rest sf1 rc1 tc1 off1 buf1 0).1 = true →
            (readInoLoop rest sf1 rc1 tc1 off1 buf1 0).2.2.1 = 0) ∧
          ((readInoLoop rest sf1 rc1 tc1 off1 buf1 0).1 = false →
            (readInoLoop rest sf1 rc1 tc1 off1 buf1 0).2.2.1 = 1) := by
        intro sf1 rc1 tc1 off1 buf1
        refine ⟨(ih sf1 rc1 tc1 off1 buf1 0).1, fun hf => ?_⟩
        rw [(ih sf1 rc1 tc1 off1 buf1 0).2 hf]
        split <;> rfl
      simp only [readInoLoop, rxBytesBeforeErr, if_true]
      split <;> split
      · simp
      · exact key _ _ _ _ _
      · simp
      · exact key _ _ _ _ _

/-- The error counter after `readIno`. -/
theorem readIno_errs (buf : List Char) (s : State) :
    ((readIno buf s).1 = true → (readIno buf s).2.2.communicationErrors = 0) ∧
    ((readIno buf s).1 = false →
      (readIno buf s).2.2.communicationErrors
        = if rxBytesBeforeErr s.rx then 1 else s.communicationErrors + 1) :=
  readInoLoop_errs s.rx false 0 0 0 buf s.communicationErrors

/-- A read that meets no byte before the first error fails. -/
theorem readIno_fails (buf : List Char) (s : State) (h : rxBytesBeforeErr s.rx = false) :
    (readIno buf s).1 = false := by
  have key : ∀ (rx : List RxEv), rxBytesBeforeErr rx = false →
      ∀ (sf : Bool) (rc tc off : Nat) (b : List Char) (e : Nat),
        (readInoLoop rx sf rc tc off b e).1 = false := by
    intro rx
    induction rx with
    | nil =>
      intro _ sf rc tc off b e
      rfl
    | cons ev rest ih =>
      intro hb sf rc tc off b e
      cases ev with
      | err => rfl
      | idle =>
        simp only [readInoLoop]
        exact ih (by simpa [rxBytesBeforeErr] using hb) sf 0 tc (off + rc) b e
      | byte c => simp [rxBytesBeforeErr] at hb
  exact key s.rx h false 0 0 0 buf s.communicationErrors

/-- A write leaves the error counter and the read script alone. -/
theorem writeIno_errs (msg : List Char) (s : State) :
    (writeIno msg s).2.communicationErrors = s.communicationErrors ∧
    (writeIno msg s).2.rx = s.rx := by
  unfold writeIno
  split
  · exact ⟨rfl, rfl⟩
  · split <;> exact ⟨rfl, rfl⟩

/-- C14, as amended: error accounting of a switch query on a contacted link,
for a switch id whose request fits the request buffer.  Only a failed frame
read is counted.  (1) If the write fails the query returns false and the
counter is unchanged.  (2) If the frame read fails the query returns false;
the counter is one greater than before the call when no byte had arrived
before the failure, and 1 when one had.  (3) If the frame is read and decodes,
the query returns what the decoding returns, false for a `NAK` and true with
the switch value otherwise, and the counter is 0. -/
theorem readRoofSwitch_accounting (id : List Char) (result : Bool) (s : State)
    (hc : s.contactEstablished = true) (hfit : (getFrame id).length < MAXINOLINE) :
    ((writeIno (getFrame id) s).1 = false →
      readRoofSwitch (some id) result s = .ok (false, result) (writeIno (getFrame id) s).2 ∧
      (writeIno (getFrame id) s).2.communicationErrors = s.communicationErrors) ∧
    ((writeIno (getFrame id) s).1 = true →
      (readIno zeroBuf (writeIno (getFrame id) s).2).1 = false →
      readRoofSwitch (some id) result s
        = .ok (false, result) (readIno zeroBuf (writeIno (getFrame id) s).2).2.2 ∧
      (readIno zeroBuf (writeIno (getFrame id) s).2).2.2.communicationErrors
        = if rxBytesBeforeErr s.rx then 1 else s.communicationErrors + 1) ∧
    ((writeIno (getFrame id) s).1 = true →
      (readIno zeroBuf (writeIno (getFrame id) s).2).1 = true →
      ∀ resp, evaluateResponse (cstr (readIno zeroBuf (writeIno (getFrame id) s).2).2.1)
          = some resp →
        readRoofSwitch (some id) result s
          = .ok (resp.status, resp.result)
              (readIno zeroBuf (writeIno (getFrame id) s).2).2.2 ∧
        (readIno zeroBuf (writeIno (getFrame id) s).2).2.2.communicationErrors = 0) := by
  have hfit2 : ¬ ((getFrame id).length + 1 > MAXINOLINE) := by omega
  have hw := writeIno_errs (getFrame id) s
  have hr := readIno_errs zeroBuf (writeIno (getFrame id) s).2
  refine ⟨?_, ?_, ?_⟩
  · intro h1
    refine ⟨?_, hw.1⟩
    simp [readRoofSwitch, hc, hfit2, h1]
  · intro h1 h2
    refine ⟨?_, ?_⟩
    · simp [readRoofSwitch, hc, hfit2, h1, h2]
    · rw [hr.2 h2, hw.1, hw.2]
  · intro h1 h2 resp h3
    refine ⟨?_, hr.1 h2⟩
    simp [readRoofSwitch, hc, hfit2, h1, h2, h3]

/-- C14, witness: from a counter of 3, a failed write leaves 3, a read that
times out at once gives 4, a read that fails after four bytes gives 1, a `NAK`
gives failure with 0, and an acknowledgement gives success with 0. -/
theorem readRoofSwitch_accounting_witness :
    (readRoofSwitch (some ROOF_OPENED_SWITCH) false (linkState 3 [false] [])
      = .ok (false, false) (writeIno (getFrame ROOF_OPENED_SWITCH) (linkState 3 [false] [])).2 ∧
     (writeIno (getFrame ROOF_OPENED_SWITCH)
        (linkState 3 [false] [])).2.communicationErrors = 3) ∧
    (readRoofSwitch (some ROOF_OPENED_SWITCH) false (linkState 3 [true] [])).state.communicationErrors
      = 4 ∧
    (readRoofSwitch (some ROOF_OPENED_SWITCH) false
      (linkState 3 [true] (rxOf "(ACK"))).state.communicationErrors = 1 ∧
    (readRoofSwitch (some ROOF_OPENED_SWITCH) false
      (linkState 3 [true] (rxOf "(NAK:OPENED:jam)"))).ret? = some (false, false) ∧
    (readRoofSwitch (some ROOF_OPENED_SWITCH) false
      (linkState 3 [true] (rxOf "(NAK:OPENED:jam)"))).state.communicationErrors = 0 ∧
    (readRoofSwitch (some ROOF_OPENED_SWITCH) false
      (linkState 3 [true] (rxOf "(ACK:OPENED:ON)"))).ret? = some (true, true) ∧
    (readRoofSwitch (some ROOF_OPENED_SWITCH) false
      (linkState 3 [true] (rxOf "(ACK:OPENED:ON)"))).state.communicationErrors = 0 :=
  ⟨(readRoofSwitch_accounting ROOF_OPENED_SWITCH false (linkState 3 [false] [])
      (by decide) (by decide)).1 (by decide),
   by decide, by decide, by decide, by decide, by decide, by decide⟩

/-- C14 as stated fails: from a counter of 3, a query whose write fails and a
query answered by a `NAK` both return false, with the counter at 3 and at 0,
not at 4; and a read that fails after some bytes leaves the counter at 1. -/
theorem readRoofSwitch_failures_uncounted :
    (readRoofSwitch (some ROOF_OPENED_SWITCH) false (linkState 3 [false] [])).ret?
      = some (false, false) ∧
    (readRoofSwitch (some ROOF_OPENED_SWITCH) false
      (linkState 3 [false] [])).state.communicationErrors = 3 ∧
    (readRoofSwitch (some ROOF_OPENED_SWITCH) false
      (linkState 3 [true] (rxOf "(NAK:OPENED:jam)"))).ret? = some (false, false) ∧
    (readRoofSwitch (some ROOF_OPENED_SWITCH) false
      (linkState 3 [true] (rxOf "(NAK:OPENED:jam)"))).state.communicationErrors = 0 ∧
    (readRoofSwitch (some ROOF_OPENED_SWITCH) false
      (linkState 3 [true] (rxOf "(ACK"))).ret? = some (false, false) ∧
    (readRoofSwitch (some ROOF_OPENED_SWITCH) false
      (linkState 3 [true] (rxOf "(ACK"))).state.communicationErrors = 1 := by
  decide

/-- The motion block of a tick leaves the error counter alone and never calls
`Disconnect`. -/
theorem motionCheck_errs (timeleft : Int) (s : State) :
    (motionCheck timeleft s).2.communicationErrors = s.communicationErrors ∧
    (motionCheck timeleft s).2.calls.count Call.Disconnect = s.calls.count Call.Disconnect ∧
    (motionCheck timeleft s).2.calls.count Call.DomeInitProperties
      = s.calls.count Call.DomeInitProperties := by
  unfold motionCheck
  repeat' split
  all_goals simp

/-- C15, as amended: the communication-error ceiling.  (1) A tick of a
connected driver acts on the counter value it finds after its status refresh:
at 10 or less it leaves the counter alone and does not call `Disconnect`;
above 10 it calls `Disconnect` once, re-initialises the properties and sets the
counter to 0 itself, so that a later tick acts again only after the counter has
again risen above 10.  (2) The counter counts failed reads: a read that fails
before any byte arrives adds exactly one, so that from 0 the eleventh such
failure in a row is the first to be acted on. -/
theorem TimerHit_ceiling (now : Timeval) (s s1 : State) (hconn : s.connected = true)
    (href : updateRoofStatus (simSwitches (CalcTimeLeft now s.MotionStart s) s) = .ok () s1) :
    (∃ s2, TimerHit now s = .ok () s2 ∧
      (s1.communicationErrors ≤ MAX_CNTRL_COM_ERR →
        s2.communicationErrors = s1.communicationErrors ∧
        s2.calls.count Call.Disconnect = s.calls.count Call.Disconnect) ∧
      (MAX_CNTRL_COM_ERR < s1.communicationErrors →
        s2.communicationErrors = 0 ∧
        s2.calls.count Call.Disconnect = s.calls.count Call.Disconnect + 1 ∧
        s2.calls.count Call.DomeInitProperties
          = s.calls.count Call.DomeInitProperties + 1)) ∧
    (∀ (buf : List Char) (t : State), rxBytesBeforeErr t.rx = false →
      (readIno buf t).1 = false ∧
      (readIno buf t).2.2.communicationErrors = t.communicationErrors + 1) := by
  constructor
  · obtain ⟨_, _, kc⟩ := simSwitches_kept (CalcTimeLeft now s.MotionStart s) s
    obtain ⟨_, _, _, _, f5, _, _, _, _⟩ := updateRoofStatus_fields _ s1 href
    have hTH := TimerHit_connected now s s1 hconn href
    obtain ⟨m, hm⟩ : ∃ m, m = motionCheck (CalcTimeLeft now s.MotionStart s) s1 := ⟨_, rfl⟩
    have me := motionCheck_errs (CalcTimeLeft now s.MotionStart s) s1
    rw [← hm] at hTH me
    have hs1 : s1.calls.count Call.Disconnect = s.calls.count Call.Disconnect := by
      rw [f5, kc]
      simp
    have hs1i : s1.calls.count Call.DomeInitProperties
        = s.calls.count Call.DomeInitProperties := by
      rw [f5, kc]
      simp
    refine ⟨_, hTH, ?_, ?_⟩
    · intro hle
      have hno : ¬ m.2.communicationErrors > MAX_CNTRL_COM_ERR := by
        rw [me.1]
        omega
      have e : commCheck m.2 = m.2 := by simp [commCheck, hno]
      refine ⟨?_, ?_⟩
      · show (commCheck m.2).communicationErrors = _
        rw [e, me.1]
      · show ((commCheck m.2).calls ++ [Call.SetTimer m.1]).count Call.Disconnect = _
        rw [e, List.count_append, me.2.1, hs1]
        simp
    · intro hgt
      have hyes : m.2.communicationErrors > MAX_CNTRL_COM_ERR := by
        rw [me.1]
        exact hgt
      refine ⟨?_, ?_, ?_⟩
      · show (commCheck m.2).communicationErrors = 0
        simp [commCheck, hyes]
      · show ((commCheck m.2).calls ++ [Call.SetTimer m.1]).count Call.Disconnect = _
        simp only [commCheck, hyes, if_true, initProperties]
        rw [List.count_append, List.count_append, List.count_append, me.2.1, hs1]
        simp
      · show ((commCheck m.2).calls ++ [Call.SetTimer m.1]).count Call.DomeInitProperties = _
        simp only [commCheck, hyes, if_true, initProperties]
        rw [List.count_append, List.count_append, List.count_append, me.2.2, hs1i]
        simp
  · intro buf t hb
    have hf := readIno_fails buf t hb
    refine ⟨hf, ?_⟩
    rw [(readIno_errs buf t).2 hf, hb]
    simp

/-- C15, witness: on a link where every read times out each tick adds two
failed queries.  Five ticks bring the counter to 10 with no `Disconnect`; the
sixth tick finds 12, calls `Disconnect` once and leaves the counter at 0. -/
theorem TimerHit_ceiling_witness :
    (runTicks 5 { tv_sec := 0, tv_usec := 0 } deadReadState).communicationErrors = 10 ∧
    (runTicks 5 { tv_sec := 0, tv_usec := 0 } deadReadState).calls.count Call.Disconnect = 0 ∧
    (∃ s2, TimerHit { tv_sec := 0, tv_usec := 0 }
          (runTicks 5 { tv_sec := 0, tv_usec := 0 } deadReadState) = .ok () s2 ∧
      s2.communicationErrors = 0 ∧ s2.calls.count Call.Disconnect = 1) := by
  have h := (TimerHit_ceiling { tv_sec := 0, tv_usec := 0 }
    (runTicks 5 { tv_sec := 0, tv_usec := 0 } deadReadState)
    (updateRoofStatus (simSwitches (CalcTimeLeft { tv_sec := 0, tv_usec := 0 }
      (runTicks 5 { tv_sec := 0, tv_usec := 0 } deadReadState).MotionStart
      (runTicks 5 { tv_sec := 0, tv_usec := 0 } deadReadState))
      (runTicks 5 { tv_sec := 0, tv_usec := 0 } deadReadState))).state
    (by decide) (by decide)).1
  obtain ⟨s2, h1, _, h3⟩ := h
  have h4 := h3 (by decide)
  refine ⟨by decide, by decide, s2, h1, h4.1, ?_⟩
  rw [h4.2.1]
  decide

/-- C15 as stated fails.  A run of transport failures that are failed writes
is not counted: after six ticks of twelve failed queries the counter is 0 and
nothing was acted on.  And the crossing is acted on again without any
successful exchange: on a link where every read times out and the driver stays
connected, `Disconnect` has been called once after six ticks and twice after
twelve, no byte having been received. -/
theorem TimerHit_ceiling_repeats :
    (runTicks 6 { tv_sec := 0, tv_usec := 0 } deadWriteState).communicationErrors = 0 ∧
    (runTicks 6 { tv_sec := 0, tv_usec := 0 } deadWriteState).calls.count Call.Disconnect = 0 ∧
    (runTicks 6 { tv_sec := 0, tv_usec := 0 } deadWriteState).tx.length = 12 ∧
    (runTicks 6 { tv_sec := 0, tv_usec := 0 } deadReadState).calls.count Call.Disconnect = 1 ∧
    (runTicks 11 { tv_sec := 0, tv_usec := 0 } deadReadState).calls.count Call.Disconnect = 1 ∧
    (runTicks 12 { tv_sec := 0, tv_usec := 0 } deadReadState).calls.count Call.Disconnect = 2 ∧
    (runTicks 12 { tv_sec := 0, tv_usec := 0 } deadReadState).connected = true := by
  decide

/-! ## Theorems: handshake -/

/-- A contact attempt that returns leaves `contactEstablished` equal to what it
returned, and returns true only when the request was written, a frame was read
back and that frame decodes as other than a `NAK`. -/
theorem initialContact_ok (s s1 : State) (b : Bool) (h : initialContact s = .ok b s1) :
    s1.contactEstablished = b ∧
    (b = true →
      (writeIno conFrame { s with contactEstablished := false }).1 = true ∧
      (readIno zeroBuf (writeIno conFrame { s with contactEstablished := false }).2).1 = true ∧
      ∃ isOn, evaluateResponse
          (cstr (readIno zeroBuf (writeIno conFrame { s with contactEstablished := false }).2).2.1)
        = some (Response.ack isOn)) := by
  have kw := writeIno_kept conFrame { s with contactEstablished := false }
  have kr := readIno_kept zeroBuf (writeIno conFrame { s with contactEstablished := false }).2
  have hce : (readIno zeroBuf
      (writeIno conFrame { s with contactEstablished := false }).2).2.2.contactEstablished
      = false := by
    have e1 := kr.2.1
    have e2 := kw.2.1
    simp only [State.env, Prod.mk.injEq] at e1 e2
    exact e1.2.2.2.2.2.2.2.2.trans e2.2.2.2.2.2.2.2.2
  have hcw : (writeIno conFrame { s with contactEstablished := false }).2.contactEstablished
      = false := by
    have e2 := kw.2.1
    simp only [State.env, Prod.mk.injEq] at e2
    exact e2.2.2.2.2.2.2.2.2
  unfold initialContact at h
  dsimp only at h
  change (if (writeIno conFrame { s with contactEstablished := false }).1 = true then _ else _)
    = _ at h
  split at h
  · rename_i hw
    split at h
    · rename_i hr
      split at h
      · simp at h
      · rename_i resp hresp
        simp only [Outcome.ok.injEq] at h
        obtain ⟨h1, h2⟩ := h
        refine ⟨?_, ?_⟩
        · rw [← h2, ← h1]
        · intro hb
          rw [hb] at h1
          refine ⟨hw, hr, ?_⟩
          cases resp with
          | nak reason => simp [Response.status] at h1
          | ack isOn => exact ⟨isOn, hresp⟩
    · simp only [Outcome.ok.injEq] at h
      obtain ⟨h1, h2⟩ := h
      refine ⟨?_, ?_⟩
      · rw [← h2, ← h1]
        exact hce
      · intro hb
        rw [hb] at h1
        exact absurd h1 (by simp)
  · simp only [Outcome.ok.injEq] at h
    obtain ⟨h1, h2⟩ := h
    refine ⟨?_, ?_⟩
    · rw [← h2, ← h1]
      exact hcw
    · intro hb
      rw [hb] at h1
      exact absurd h1 (by simp)

/-- C16: handshake with one retry, on a valid port.  If the first contact
attempt returns true, `Handshake` returns true after that one attempt.  If it
returns false, `Handshake` sleeps, makes a second attempt and returns what that
one returns.  In each case `contactEstablished` ends equal to the returned
value, so false when both attempts failed, and the transport has received the
request `(CON:0:0)` once per attempt, twice at most.  An attempt returns true
only when the request was written, a frame was read back and that frame decodes
as other than a `NAK`. -/
theorem Handshake_retry (s : State) (hport : 0 < s.PortFD) :
    (∀ (a1 : Bool) (s1 : State), initialContact s = .ok a1 s1 →
      (a1 = true →
        Handshake s = .ok true s1 ∧ s1.contactEstablished = true ∧
        s1.tx = s.tx ++ ["(CON:0:0)".toList]) ∧
      (a1 = false →
        ∀ (a2 : Bool) (s2 : State),
          initialContact { s1 with calls := s1.calls ++ [Call.msSleep 1000] } = .ok a2 s2 →
          Handshake s = .ok a2 s2 ∧ s2.contactEstablished = a2 ∧
          s2.tx = s.tx ++ ["(CON:0:0)".toList, "(CON:0:0)".toList])) ∧
    (∀ (t t1 : State), initialContact t = .ok true t1 →
      (writeIno "(CON:0:0)".toList { t with contactEstablished := false }).1 = true ∧
      (readIno zeroBuf
        (writeIno "(CON:0:0)".toList { t with contactEstablished := false }).2).1 = true ∧
      ∃ isOn, evaluateResponse
          (cstr (readIno zeroBuf
            (writeIno "(CON:0:0)".toList { t with contactEstablished := false }).2).2.1)
        = some (Response.ack isOn)) := by
  have hp : ¬ s.PortFD ≤ 0 := not_le.mpr hport
  constructor
  · intro a1 s1 h1
    have t1 := initialContact_tx s
    rw [h1] at t1
    simp only [Outcome.state] at t1
    constructor
    · intro ha
      subst ha
      refine ⟨?_, (initialContact_ok s s1 true h1).1, t1⟩
      simp [Handshake, hp, h1]
    · intro ha a2 s2 h2
      subst ha
      have t2 := initialContact_tx { s1 with calls := s1.calls ++ [Call.msSleep 1000] }
      rw [h2] at t2
      simp only [Outcome.state] at t2
      refine ⟨?_, (initialContact_ok _ s2 a2 h2).1, ?_⟩
      · simp [Handshake, hp, h1, h2]
      · rw [t2, t1]
        simp [conFrame]
  · intro t t1 h
    exact (initialContact_ok t t1 true h).2 rfl

/-- C16, witness: contact at the first attempt; a first attempt that times out
and a second that is acknowledged; two attempts that time out. -/
theorem Handshake_retry_witness :
    (Handshake (portState [true] (rxOf "(ACK:0:0)"))
        = .ok true (initialContact (portState [true] (rxOf "(ACK:0:0)"))).state ∧
      (initialContact (portState [true] (rxOf "(ACK:0:0)"))).state.tx
        = ["(CON:0:0)".toList]) ∧
    ((Handshake (portState [true, true] (RxEv.err :: rxOf "(ACK:0:0)"))).ret? = some true ∧
      (Handshake (portState [true, true]
        (RxEv.err :: rxOf "(ACK:0:0)"))).state.contactEstablished = true ∧
      (Handshake (portState [true, true] (RxEv.err :: rxOf "(ACK:0:0)"))).state.tx
        = ["(CON:0:0)".toList, "(CON:0:0)".toList]) ∧
    ((Handshake (portState [true, true] [RxEv.err, RxEv.err])).ret? = some false ∧
      (Handshake (portState [true, true] [RxEv.err, RxEv.err])).state.contactEstablished
        = false) := by
  have hA := ((Handshake_retry (portState [true] (rxOf "(ACK:0:0)")) (by decide)).1 true
    (initialContact (portState [true] (rxOf "(ACK:0:0)"))).state (by decide)).1 rfl
  have hB := ((Handshake_retry (portState [true, true] (RxEv.err :: rxOf "(ACK:0:0)"))
    (by decide)).1 false
    (initialContact (portState [true, true] (RxEv.err :: rxOf "(ACK:0:0)"))).state
    (by decide)).2 rfl true
    (initialContact
      { (initialContact (portState [true, true] (RxEv.err :: rxOf "(ACK:0:0)"))).state with
        calls := (initialContact (portState [true, true]
          (RxEv.err :: rxOf "(ACK:0:0)"))).state.calls ++ [Call.msSleep 1000] }).state
    (by decide)
  have hC := ((Handshake_retry (portState [true, true] [RxEv.err, RxEv.err])
    (by decide)).1 false
    (initialContact (portState [true, true] [RxEv.err, RxEv.err])).state
    (by decide)).2 rfl false
    (initialContact
      { (initialContact (portState [true, true] [RxEv.err, RxEv.err])).state with
        calls := (initialContact (portState [true, true]
          [RxEv.err, RxEv.err])).state.calls ++ [Call.msSleep 1000] }).state
    (by decide)
  refine ⟨⟨hA.1, hA.2.2⟩, ⟨?_, ?_, ?_⟩, ⟨?_, ?_⟩⟩
  · rw [hB.1]
    rfl
  · rw [hB.1]
    exact hB.2.1
  · rw [hB.1]
    exact hB.2.2
  · rw [hC.1]
    rfl
  · rw [hC.1]
    exact hC.2.1

/-! ## Theorems: acknowledgement of a button push -/

/-- Where the acknowledgement buffer decodes, a button push returns the status
of the read.  With contact established, the lock query answered and not
blocking (or ignored), and the `SET` frame written, (1) whenever the buffer left by the acknowledgement read
decodes, whether as On, as Off or as a `NAK`, the push returns the status of
that read, true exactly when the read completed; (2) in any case, a push that
returns has returned the status of that read, so it returns true only if the
read completed. -/
theorem pushRoofButton_read_decides (button : List Char) (switchOn ignoreLock : Bool)
    (s s1 : State) (q : Bool × Bool)
    (hc : s.contactEstablished = true)
    (hq : getRoofLockedSwitch false s = .ok q s1)
    (hnb : ((q.1 && !q.2) || ignoreLock) = true)
    (hfit : (setFrame button switchOn).length < MAXINOLINE)
    (hw : (writeIno (setFrame button switchOn) s1).1 = true) :
    (∀ resp, evaluateResponse (cstr (ackRead button switchOn s1).2.1) = some resp →
      pushRoofButton button switchOn ignoreLock s
        = .ok (ackRead button switchOn s1).1 (ackRead button switchOn s1).2.2) ∧
    (∀ (b : Bool) (s2 : State), pushRoofButton button switchOn ignoreLock s = .ok b s2 →
      b = (ackRead button switchOn s1).1) := by
  have hfit2 : ¬ ((setFrame button switchOn).length + 1 > MAXINOBUF) := by
    simp only [MAXINOLINE, MAXINOBUF] at hfit ⊢
    omega
  obtain ⟨q1, q2⟩ := q
  have e : pushRoofButton button switchOn ignoreLock s =
      match evaluateResponse (cstr (ackRead button switchOn s1).2.1) with
      | none => .fault (ackRead button switchOn s1).2.2
      | some _ => .ok (ackRead button switchOn s1).1 (ackRead button switchOn s1).2.2 := by
    simp only [pushRoofButton, hc, hq, Bool.not_true, Bool.false_eq_true, if_false]
    rw [if_pos hnb, if_neg hfit2]
    simp only [hw, Bool.not_true, Bool.false_eq_true, if_false]
    rfl
  constructor
  · intro resp hd
    rw [e, hd]
  · intro b s2 h
    rw [e] at h
    split at h
    · simp at h
    · simp only [Outcome.ok.injEq] at h
      exact h.1.symm

/-- Instances of a decoded acknowledgement: the lock switch Off and the push
acknowledged with On, with Off and with a `NAK`: the push returns true each
time; and an acknowledgement cut short by a read error after three tokens: the
push returns false. -/
theorem pushRoofButton_read_decides_witness :
    (pushRoofButton ROOF_CLOSE_RELAY true false
      (linkState 0 [true, true] (rxOf "(ACK:LOCKED:OFF)(ACK:CLOSE:ON)"))).ret? = some true ∧
    (pushRoofButton ROOF_CLOSE_RELAY true false
      (linkState 0 [true, true] (rxOf "(ACK:LOCKED:OFF)(ACK:CLOSE:OFF)"))).ret? = some true ∧
    (pushRoofButton ROOF_CLOSE_RELAY true false
      (linkState 0 [true, true] (rxOf "(ACK:LOCKED:OFF)(NAK:CLOSE:busy)"))).ret? = some true ∧
    (ackRead ROOF_CLOSE_RELAY true
      (getRoofLockedSwitch false
        (linkState 0 [true, true] (rxOf "(ACK:LOCKED:OFF)(ACK:CLOSE:O"))).state).1 = false ∧
    (pushRoofButton ROOF_CLOSE_RELAY true false
      (linkState 0 [true, true] (rxOf "(ACK:LOCKED:OFF)(ACK:CLOSE:O"))).ret? = some false := by
  have h := fun (rx : List RxEv) hq hw =>
    pushRoofButton_read_decides ROOF_CLOSE_RELAY true false
      (linkState 0 [true, true] rx)
      (getRoofLockedSwitch false (linkState 0 [true, true] rx)).state (true, false)
      rfl hq rfl (by decide) hw
  have h1 := (h (rxOf "(ACK:LOCKED:OFF)(ACK:CLOSE:ON)") (by decide) (by decide)).1
    (Response.ack true) (by decide)
  have h2 := (h (rxOf "(ACK:LOCKED:OFF)(ACK:CLOSE:OFF)") (by decide) (by decide)).1
    (Response.ack false) (by decide)
  have h3 := (h (rxOf "(ACK:LOCKED:OFF)(NAK:CLOSE:busy)") (by decide) (by decide)).1
    (Response.nak "busy".toList) (by decide)
  have h4 := (h (rxOf "(ACK:LOCKED:OFF)(ACK:CLOSE:O") (by decide) (by decide)).1
    (Response.ack false) (by decide)
  refine ⟨?_, ?_, ?_, by decide, ?_⟩
  · rw [h1]
    decide
  · rw [h2]
    decide
  · rw [h3]
    decide
  · rw [h4]
    decide

/-- When the buffer left by the acknowledgement read does not decode, the
push faults after the `SET` frame has gone out: with the completed frame `()`
it does not return true, and with nothing received it does not return
false. -/
theorem pushRoofButton_ack_faults :
    (readIno zeroBuf (linkState 0 [] (rxOf "()"))).1 = true ∧
    cstr (readIno zeroBuf (linkState 0 [] (rxOf "()"))).2.1 = "()".toList ∧
    (pushRoofButton ROOF_CLOSE_RELAY true false
      (linkState 0 [true, true] (rxOf "(ACK:LOCKED:OFF)()"))).ret? = none ∧
    (pushRoofButton ROOF_CLOSE_RELAY true false
      (linkState 0 [true, true] (rxOf "(ACK:LOCKED:OFF)()"))).state.tx
      = ["(GET:LOCKED:0)".toList, "(SET:CLOSE:ON)".toList] ∧
    (readIno zeroBuf (linkState 0 [] [])).1 = false ∧
    cstr (readIno zeroBuf (linkState 0 [] [])).2.1 = [] ∧
    (pushRoofButton ROOF_CLOSE_RELAY true false
      (linkState 0 [true, true] (rxOf "(ACK:LOCKED:OFF)"))).ret? = none ∧
    (pushRoofButton ROOF_CLOSE_RELAY true false
      (linkState 0 [true, true] (rxOf "(ACK:LOCKED:OFF)"))).state.tx
      = ["(GET:LOCKED:0)".toList, "(SET:CLOSE:ON)".toList] := by
  decide

/-- A read that meets no byte before the first error leaves the buffer as it
was. -/
theorem readIno_buffer_untouched (buf : List Char) (s : State)
    (h : rxBytesBeforeErr s.rx = false) : (readIno buf s).2.1 = buf := by
  have key : ∀ (rx : List RxEv), rxBytesBeforeErr rx = false →
      ∀ (sf : Bool) (rc tc off : Nat) (b : List Char) (e : Nat),
        (readInoLoop rx sf rc tc off b e).2.1 = b := by
    intro rx
    induction rx with
    | nil =>
      intro _ sf rc tc off b e
      rfl
    | cons ev rest ih =>
      intro hb sf rc tc off b e
      cases ev with
      | err => rfl
      | idle => exact ih hb sf 0 tc (off + rc) b e
      | byte c => simp [rxBytesBeforeErr] at hb
  exact key s.rx h false 0 0 0 buf s.communicationErrors

/-- C17: success of a button push is meant to be decided by the read, and the
code loses the failing half.  With contact established, the lock query
answered and not blocking (or ignored) and the `SET` frame written, a push
whose acknowledgement read meets no byte before its first error (a plain
timeout) has a read that did not complete, and yet the push does not return
false: the untouched, empty buffer goes to `evaluateResponse`, which faults.
The log then holds the lock query and the `SET` frame. -/
theorem pushRoofButton_timeout_faults (button : List Char) (switchOn ignoreLock : Bool)
    (s s1 : State) (q : Bool × Bool)
    (hc : s.contactEstablished = true)
    (hq : getRoofLockedSwitch false s = .ok q s1)
    (hnb : ((q.1 && !q.2) || ignoreLock) = true)
    (hfit : (setFrame button switchOn).length < MAXINOLINE)
    (hw : (writeIno (setFrame button switchOn) s1).1 = true)
    (hrx : rxBytesBeforeErr s1.rx = false) :
    (ackRead button switchOn s1).1 = false ∧
    cstr (ackRead button switchOn s1).2.1 = [] ∧
    pushRoofButton button switchOn ignoreLock s = .fault (ackRead button switchOn s1).2.2 ∧
    (pushRoofButton button switchOn ignoreLock s).ret? = none ∧
    (pushRoofButton button switchOn ignoreLock s).state.tx
      = s.tx ++ [getFrame ROOF_LOCKED_SWITCH, setFrame button switchOn] := by
  have hfit2 : ¬ ((setFrame button switchOn).length + 1 > MAXINOBUF) := by
    simp only [MAXINOLINE, MAXINOBUF] at hfit ⊢
    omega
  have hrx2 : rxBytesBeforeErr
      ({ (writeIno (setFrame button switchOn) s1).2 with
          calls := (writeIno (setFrame button switchOn) s1).2.calls ++
            [Call.msSleep ROR_D_PRESS] } : State).rx = false := by
    have e : (writeIno (setFrame button switchOn) s1).2.rx = s1.rx := by
      unfold writeIno
      split
      · rfl
      · split <;> rfl
    show rxBytesBeforeErr (writeIno (setFrame button switchOn) s1).2.rx = false
    rw [e]
    exact hrx
  have h1 : (ackRead button switchOn s1).1 = false := readIno_fails _ _ hrx2
  have h2 : (ackRead button switchOn s1).2.1 = zeroBuf := readIno_buffer_untouched _ _ hrx2
  have h3 : evaluateResponse (cstr (ackRead button switchOn s1).2.1) = none := by
    rw [h2]
    decide
  have e : pushRoofButton button switchOn ignoreLock s
      = .fault (ackRead button switchOn s1).2.2 := by
    obtain ⟨q1, q2⟩ := q
    have e1 : pushRoofButton button switchOn ignoreLock s =
        match evaluateResponse (cstr (ackRead button switchOn s1).2.1) with
        | none => .fault (ackRead button switchOn s1).2.2
        | some _ => .ok (ackRead button switchOn s1).1 (ackRead button switchOn s1).2.2 := by
      simp only [pushRoofButton, hc, hq, Bool.not_true, Bool.false_eq_true, if_false]
      rw [if_pos hnb, if_neg hfit2]
      simp only [hw, Bool.not_true, Bool.false_eq_true, if_false]
      rfl
    rw [e1, h3]
  refine ⟨h1, ?_, e, ?_, pushRoofButton_tx_sent button switchOn ignoreLock s s1 q hc hq hnb hfit⟩
  · rw [h2]
    decide
  · rw [e]
    rfl

/-- C17, witness: the lock switch answers Off, the `SET` frame for the close
relay is written, and nothing comes back: the read fails and the push faults
instead of returning false. -/
theorem pushRoofButton_timeout_faults_witness :
    (ackRead ROOF_CLOSE_RELAY true
      (getRoofLockedSwitch false
        (linkState 0 [true, true] (rxOf "(ACK:LOCKED:OFF)"))).state).1 = false ∧
    (pushRoofButton ROOF_CLOSE_RELAY true false
      (linkState 0 [true, true] (rxOf "(ACK:LOCKED:OFF)"))).ret? = none ∧
    (pushRoofButton ROOF_CLOSE_RELAY true false
      (linkState 0 [true, true] (rxOf "(ACK:LOCKED:OFF)"))).ret? ≠ some false ∧
    (pushRoofButton ROOF_CLOSE_RELAY true false
      (linkState 0 [true, true] (rxOf "(ACK:LOCKED:OFF)"))).state.tx
      = ["(GET:LOCKED:0)".toList, "(SET:CLOSE:ON)".toList] := by
  have h := pushRoofButton_timeout_faults ROOF_CLOSE_RELAY true false
    (linkState 0 [true, true] (rxOf "(ACK:LOCKED:OFF)"))
    (getRoofLockedSwitch false (linkState 0 [true, true] (rxOf "(ACK:LOCKED:OFF)"))).state
    (true, false) rfl (by decide) rfl (by decide) (by decide) (by decide)
  refine ⟨h.1, h.2.2.2.1, ?_, h.2.2.2.2⟩
  rw [h.2.2.2.1]
  simp

/-! ## Theorems: status refresh and arrival -/

/-- A status refresh whose two samples return sets the status from them. -/
theorem updateRoofStatus_samples (s sa sb : State) (ra rb : Bool × Bool)
    (h1 : getFullOpenedLimitSwitch false s = .ok ra sa)
    (h2 : getFullClosedLimitSwitch false sa = .ok rb sb) :
    updateRoofStatus s = .ok () (setRoofStatus ra.2 rb.2 sb) ∧ SwitchKept s sb ∧
    (ra.2 = true → sb.fullyOpenedLimitSwitch = ISState.ISS_ON) ∧
    (rb.2 = true → sb.fullyClosedLimitSwitch = ISState.ISS_ON) := by
  have ka := getFullOpenedLimitSwitch_kept false s
  have kb := getFullClosedLimitSwitch_kept false sa
  rw [h1] at ka
  rw [h2] at kb
  refine ⟨?_, switchKept_trans ka.1 kb.1, ?_, ?_⟩
  · simp [updateRoofStatus, h1, h2]
  · intro h
    exact kb.2.trans (getFullOpenedLimitSwitch_on s sa ra h1 h)
  · intro h
    exact getFullClosedLimitSwitch_on sa sb rb h2 h

/-- C19, as amended: whatever the state before, a status refresh that samples
both the opened and the closed switch as On returns without fault and treats
the roof as neither opened nor closed: the opened, closed and moving lights and
the overall status are all idle, and the motion flags are as before. -/
theorem updateRoofStatus_both_on (s s1 s2 : State) (a b : Bool)
    (h1 : getFullOpenedLimitSwitch false s = .ok (a, true) s1)
    (h2 : getFullClosedLimitSwitch false s1 = .ok (b, true) s2) :
    ∃ s3, updateRoofStatus s = .ok () s3 ∧
      s3.lightOpened = IPState.IPS_IDLE ∧ s3.lightClosed = IPState.IPS_IDLE ∧
      s3.lightMoving = IPState.IPS_IDLE ∧ s3.RoofStatusLP = IPState.IPS_IDLE ∧
      s3.roofOpening = s.roofOpening ∧ s3.roofClosing = s.roofClosing := by
  obtain ⟨e, k, _, _⟩ := updateRoofStatus_samples s s1 s2 (a, true) (b, true) h1 h2
  have km := k.1
  simp only [State.motion, Prod.mk.injEq] at km
  refine ⟨_, e, ?_, ?_, ?_, ?_, ?_, ?_⟩
  · simp [setRoofStatus]
  · simp [setRoofStatus]
  · simp [setRoofStatus]
  · simp [setRoofStatus]
  · simp [setRoofStatus, km.1]
  · simp [setRoofStatus, km.2.1]

/-- C19, witness: the controller answers both switches On during an open
motion. -/
theorem updateRoofStatus_both_on_witness :
    ∃ s3, updateRoofStatus bothOnState = .ok () s3 ∧
      s3.lightOpened = IPState.IPS_IDLE ∧ s3.lightClosed = IPState.IPS_IDLE ∧
      s3.lightMoving = IPState.IPS_IDLE ∧ s3.RoofStatusLP = IPState.IPS_IDLE ∧
      s3.roofOpening = bothOnState.roofOpening ∧ s3.roofClosing = bothOnState.roofClosing :=
  updateRoofStatus_both_on bothOnState
    (getFullOpenedLimitSwitch false bothOnState).state
    (getFullClosedLimitSwitch false (getFullOpenedLimitSwitch false bothOnState).state).state
    true true (by decide) (by decide)

/-- C19 as stated fails: with both switches sampled On the refresh returns and
the opened light is idle, not OK. -/
theorem updateRoofStatus_both_on_not_opened :
    (getFullOpenedLimitSwitch false bothOnState).ret? = some (true, true) ∧
    (getFullClosedLimitSwitch false
      (getFullOpenedLimitSwitch false bothOnState).state).ret? = some (true, true) ∧
    (updateRoofStatus bothOnState).ret? = some () ∧
    (updateRoofStatus bothOnState).state.lightOpened = IPState.IPS_IDLE ∧
    (updateRoofStatus bothOnState).state.lightOpened ≠ IPState.IPS_OK := by
  decide

/-- What setting the status does to the lights when one switch sample is On
and the other Off, and to the moving light when no motion flag is set. -/
theorem setRoofStatus_lights (o c : Bool) (s : State) :
    (s.roofOpening = false → s.roofClosing = false →
      (setRoofStatus o c s).lightMoving = IPState.IPS_IDLE) ∧
    (setRoofStatus o c s).communicationErrors = s.communicationErrors := by
  unfold setRoofStatus
  constructor
  · intro ho hc
    cases o <;> cases c <;> simp [ho, hc]
    all_goals (repeat' split)
    all_goals simp
  · cases o <;> cases c <;> simp
    all_goals (repeat' split)
    all_goals simp

/-- The motion block once the opened switch is stored On during an open
motion. -/
theorem motionCheck_arrived_open (timeleft : Int) (s : State)
    (hb : s.DomeMotionSP = IPState.IPS_BUSY) (hr : 0 ≤ s.MotionRequest)
    (hcw : s.DomeMotionCW = ISState.ISS_ON)
    (hsw : s.fullyOpenedLimitSwitch = ISState.ISS_ON) :
    motionCheck timeleft s =
      (1000 * INACTIVE_STATUS, { s with calls := s.calls ++ [Call.SetParked false] }) := by
  have hr1 : ¬ s.MotionRequest < 0 := not_lt.mpr hr
  simp [motionCheck, hb, hr1, hcw, hsw]

/-- The motion block once the closed switch is stored On during a close
motion. -/
theorem motionCheck_arrived_close (timeleft : Int) (s : State)
    (hb : s.DomeMotionSP = IPState.IPS_BUSY) (hr : 0 ≤ s.MotionRequest)
    (hcw : s.DomeMotionCW = ISState.ISS_OFF) (hccw : s.DomeMotionCCW = ISState.ISS_ON)
    (hsw : s.fullyClosedLimitSwitch = ISState.ISS_ON) :
    motionCheck timeleft s =
      (1000 * INACTIVE_STATUS, { s with calls := s.calls ++ [Call.SetParked true] }) := by
  have hr1 : ¬ s.MotionRequest < 0 := not_lt.mpr hr
  simp [motionCheck, hb, hr1, hcw, hccw, hsw]

/-- The end of a tick whose motion block made the one call `call` and kept the
idle delay. -/
theorem TimerHit_after_call (now : Timeval) (s s1 : State) (call : Call)
    (hconn : s.connected = true)
    (href : updateRoofStatus (simSwitches (CalcTimeLeft now s.MotionStart s) s) = .ok () s1)
    (hm : motionCheck (CalcTimeLeft now s.MotionStart s) s1 =
      (1000 * INACTIVE_STATUS, { s1 with calls := s1.calls ++ [call] })) :
    ∃ s2, TimerHit now s = .ok () s2 ∧ s2.motion = s1.motion ∧
      ∃ more, s2.calls = s.calls ++ Call.IDSetLight :: call :: more ++
        [Call.SetTimer (1000 * INACTIVE_STATUS)] := by
  obtain ⟨_, _, kc⟩ := simSwitches_kept (CalcTimeLeft now s.MotionStart s) s
  obtain ⟨_, _, _, _, f5, _, _, _, _⟩ := updateRoofStatus_fields _ s1 href
  have hTH := TimerHit_connected now s s1 hconn href
  rw [hm] at hTH
  obtain ⟨cm, _, _, _, more, c5⟩ := commCheck_kept { s1 with calls := s1.calls ++ [call] }
  refine ⟨_, hTH, cm, more, ?_⟩
  show (commCheck _).calls ++ [Call.SetTimer _] = _
  rw [c5]
  show (s1.calls ++ [call]) ++ more ++ [Call.SetTimer _] = _
  rw [f5, kc]
  simp

/-- C20: arrival.  Take a tick of a connected driver whose motion property is
busy and whose timeout is not negative, whatever the time elapsed.  If the
motion is an open motion (direction switch `DOME_CW` On) and the tick samples
the opened switch On and the closed switch Off, the tick returns with
`roofOpening` cleared and the recorded timeout outcome unchanged, having
called `SetParked(false)` right after the status refresh and, last, set the
timer to the idle interval of 5000 ms.  If it is a close motion (direction
switch `DOME_CCW` On) and the tick samples the closed switch On and the opened
switch Off, the same holds with `roofClosing` and `SetParked(true)`. -/
theorem TimerHit_arrival (now : Timeval) (s sa sb : State) (a b : Bool)
    (hconn : s.connected = true) (hbusy : s.DomeMotionSP = IPState.IPS_BUSY)
    (hreq : 0 ≤ s.MotionRequest) :
    (s.DomeMotionCW = ISState.ISS_ON →
      getFullOpenedLimitSwitch false (simSwitches (CalcTimeLeft now s.MotionStart s) s)
        = .ok (a, true) sa →
      getFullClosedLimitSwitch false sa = .ok (b, false) sb →
      ∃ s2, TimerHit now s = .ok () s2 ∧
        s2.roofOpening = false ∧ s2.roofTimedOut = s.roofTimedOut ∧
        ∃ more, s2.calls = s.calls ++ Call.IDSetLight :: Call.SetParked false :: more ++
          [Call.SetTimer 5000]) ∧
    (s.DomeMotionCW = ISState.ISS_OFF → s.DomeMotionCCW = ISState.ISS_ON →
      getFullOpenedLimitSwitch false (simSwitches (CalcTimeLeft now s.MotionStart s) s)
        = .ok (a, false) sa →
      getFullClosedLimitSwitch false sa = .ok (b, true) sb →
      ∃ s2, TimerHit now s = .ok () s2 ∧
        s2.roofClosing = false ∧ s2.roofTimedOut = s.roofTimedOut ∧
        ∃ more, s2.calls = s.calls ++ Call.IDSetLight :: Call.SetParked true :: more ++
          [Call.SetTimer 5000]) := by
  obtain ⟨km, ke, _⟩ := simSwitches_kept (CalcTimeLeft now s.MotionStart s) s
  simp only [State.motion, Prod.mk.injEq] at km
  simp only [State.env, Prod.mk.injEq] at ke
  constructor
  · intro hcw h1 h2
    obtain ⟨e, k, ho, _⟩ := updateRoofStatus_samples _ sa sb (a, true) (b, false) h1 h2
    obtain ⟨f1, f2, _, f4, _, _, _, _, _⟩ := updateRoofStatus_fields _ _ e
    have g := setRoofStatus_kept true false sb
    simp only [State.env, Prod.mk.injEq] at f4
    have hm := motionCheck_arrived_open (CalcTimeLeft now s.MotionStart s)
      (setRoofStatus true false sb)
      ((f4.2.2.2.1.trans ke.2.2.2.1).trans hbusy)
      (by rw [f2, km.2.2.2.1]; exact hreq)
      ((f4.2.2.2.2.1.trans ke.2.2.2.2.1).trans hcw)
      (g.2.2.2.2.1.trans (ho rfl))
    obtain ⟨s2, hT, hmo, more, hcalls⟩ := TimerHit_after_call now s _ _ hconn e hm
    simp only [State.motion, Prod.mk.injEq] at hmo
    refine ⟨s2, hT, ?_, ?_, more, hcalls⟩
    · rw [hmo.1, g.2.2.2.2.2.2.2.2.1]
      simp
    · rw [hmo.2.2.1, f1, km.2.2.1]
  · intro hcw hccw h1 h2
    obtain ⟨e, k, _, hc⟩ := updateRoofStatus_samples _ sa sb (a, false) (b, true) h1 h2
    obtain ⟨f1, f2, _, f4, _, _, _, _, _⟩ := updateRoofStatus_fields _ _ e
    have g := setRoofStatus_kept false true sb
    simp only [State.env, Prod.mk.injEq] at f4
    have hm := motionCheck_arrived_close (CalcTimeLeft now s.MotionStart s)
      (setRoofStatus false true sb)
      ((f4.2.2.2.1.trans ke.2.2.2.1).trans hbusy)
      (by rw [f2, km.2.2.2.1]; exact hreq)
      ((f4.2.2.2.2.1.trans ke.2.2.2.2.1).trans hcw)
      ((f4.2.2.2.2.2.1.trans ke.2.2.2.2.2.1).trans hccw)
      (g.2.2.2.2.2.1.trans (hc rfl))
    obtain ⟨s2, hT, hmo, more, hcalls⟩ := TimerHit_after_call now s _ _ hconn e hm
    simp only [State.motion, Prod.mk.injEq] at hmo
    refine ⟨s2, hT, ?_, ?_, more, hcalls⟩
    · rw [hmo.2.1, g.2.2.2.2.2.2.2.2.2]
      simp
    · rw [hmo.2.2.1, f1, km.2.2.1]

/-- C20, witness: the opened switch reads On at a tick 20 seconds into an open
motion whose timeout is 15 seconds; the closed switch reads On during a close
motion. -/
theorem TimerHit_arrival_witness :
    (∃ s2, TimerHit { tv_sec := 120, tv_usec := 0 } arrivingOpenState = .ok () s2 ∧
      s2.roofOpening = false ∧ s2.roofTimedOut = RoofTimedOut.EXPIRED_CLEAR ∧
      s2.calls = [Call.IDSetLight, Call.SetParked false, Call.SetTimer 5000]) ∧
    (∃ s2, TimerHit { tv_sec := 105, tv_usec := 0 } arrivingCloseState = .ok () s2 ∧
      s2.roofClosing = false ∧ s2.roofTimedOut = RoofTimedOut.EXPIRED_CLEAR ∧
      s2.calls = [Call.IDSetLight, Call.SetParked true, Call.SetTimer 5000]) := by
  obtain ⟨s2, h1, h2, h3, _⟩ :=
    (TimerHit_arrival { tv_sec := 120, tv_usec := 0 } arrivingOpenState
      (getFullOpenedLimitSwitch false arrivingOpenState).state
      (getFullClosedLimitSwitch false
        (getFullOpenedLimitSwitch false arrivingOpenState).state).state
      true true (by decide) (by decide) (by decide)).1 (by decide) (by decide) (by decide)
  obtain ⟨s3, g1, g2, g3, _⟩ :=
    (TimerHit_arrival { tv_sec := 105, tv_usec := 0 } arrivingCloseState
      (getFullOpenedLimitSwitch false arrivingCloseState).state
      (getFullClosedLimitSwitch false
        (getFullOpenedLimitSwitch false arrivingCloseState).state).state
      true true (by decide) (by decide) (by decide)).2 (by decide) (by decide) (by decide)
      (by decide)
  refine ⟨⟨s2, h1, h2, h3.trans (by decide), ?_⟩, ⟨s3, g1, g2, g3.trans (by decide), ?_⟩⟩
  · have e : s2 = (TimerHit { tv_sec := 120, tv_usec := 0 } arrivingOpenState).state := by
      rw [h1]
      rfl
    rw [e]
    decide
  · have e : s3 = (TimerHit { tv_sec := 105, tv_usec := 0 } arrivingCloseState).state := by
      rw [g1]
      rfl
    rw [e]
    decide

/-! ## Theorems: abort -/

/-- The motion block after an abort: at most `setDomeState(DOME_IDLE)` is
called; flags, timeout outcome and lights are left alone. -/
theorem motionCheck_aborted (timeleft : Int) (s : State) (h : s.MotionRequest < 0) :
    (motionCheck timeleft s).2.motion = s.motion ∧
    (motionCheck timeleft s).2.lightMoving = s.lightMoving ∧
    (s.DomeMotionSP = IPState.IPS_BUSY →
      (motionCheck timeleft s).2.calls = s.calls ++ [Call.setDomeState DomeState.DOME_IDLE]) := by
  unfold motionCheck
  split
  · rename_i hb
    simp [h, State.motion]
  · rename_i hb
    exact ⟨rfl, rfl, fun hb2 => absurd hb2 hb⟩

/-- The communication-error block can only set the moving light to idle. -/
theorem commCheck_lightMoving (s : State) (h : s.lightMoving = IPState.IPS_IDLE) :
    (commCheck s).lightMoving = IPState.IPS_IDLE := by
  unfold commCheck
  split
  · rfl
  · exact h

/-- C18: abort.  The modelled `Abort` leaves the driver in the logical state
Idle, whatever motion was in flight.  The next tick of a connected driver
whose status refresh returns, in particular with both limit switches reading
Off, returns with the logical state still Idle: `roofOpening` and
`roofClosing` are not set, the moving light is idle and no timed-out outcome is
recorded, however long after the start of the aborted motion the tick comes;
and if the motion property is still busy the tick calls
`setDomeState(DOME_IDLE)`. -/
theorem Abort_then_tick (now : Timeval) (s s1 : State) (hconn : s.connected = true)
    (href : updateRoofStatus
      (simSwitches (CalcTimeLeft now (Abort s).MotionStart (Abort s)) (Abort s)) = .ok () s1) :
    motionState (Abort s) = MotionState.Idle ∧
    ∃ s2, TimerHit now (Abort s) = .ok () s2 ∧
      s2.roofOpening = false ∧ s2.roofClosing = false ∧
      s2.lightMoving = IPState.IPS_IDLE ∧
      s2.roofTimedOut = RoofTimedOut.EXPIRED_CLEAR ∧
      motionState s2 = MotionState.Idle ∧
      (s.DomeMotionSP = IPState.IPS_BUSY →
        ∃ more, s2.calls = s.calls ++
          Call.IDSetLight :: Call.setDomeState DomeState.DOME_IDLE :: more) := by
  refine ⟨rfl, ?_⟩
  obtain ⟨km, ke, kc⟩ :=
    simSwitches_kept (CalcTimeLeft now (Abort s).MotionStart (Abort s)) (Abort s)
  simp only [State.motion, Prod.mk.injEq] at km
  simp only [State.env, Prod.mk.injEq] at ke
  obtain ⟨f1, f2, _, f4, f5, f6, f7, _, _⟩ := updateRoofStatus_fields _ s1 href
  simp only [State.env, Prod.mk.injEq] at f4
  obtain ⟨o, c, sb, e, k, _, _⟩ := updateRoofStatus_ok _ s1 href
  have kbm := k.1
  simp only [State.motion, Prod.mk.injEq] at kbm
  have ho1 : s1.roofOpening = false := f6 km.1
  have hc1 : s1.roofClosing = false := f7 km.2.1
  have ht1 : s1.roofTimedOut = RoofTimedOut.EXPIRED_CLEAR := f1.trans km.2.2.1
  have hr1 : s1.MotionRequest < 0 := by
    rw [f2, km.2.2.2.1]
    show (-1 : Int) < 0
    omega
  have hl1 : s1.lightMoving = IPState.IPS_IDLE := by
    rw [e]
    exact (setRoofStatus_lights o c sb).1 (kbm.1.trans km.1) (kbm.2.1.trans km.2.1)
  have hTH := TimerHit_connected now (Abort s) s1 hconn href
  obtain ⟨m1, m2, m3⟩ :=
    motionCheck_aborted (CalcTimeLeft now (Abort s).MotionStart (Abort s)) s1 hr1
  obtain ⟨m, hm⟩ : ∃ m, m = motionCheck (CalcTimeLeft now (Abort s).MotionStart (Abort s)) s1 :=
    ⟨_, rfl⟩
  rw [← hm] at hTH m1 m2 m3
  simp only [State.motion, Prod.mk.injEq] at m1
  obtain ⟨cm, _, _, _, more, c5⟩ := commCheck_kept m.2
  simp only [State.motion, Prod.mk.injEq] at cm
  have r1 : (commCheck m.2).roofOpening = false := (cm.1.trans m1.1).trans ho1
  have r2 : (commCheck m.2).roofClosing = false := (cm.2.1.trans m1.2.1).trans hc1
  have r3 : (commCheck m.2).roofTimedOut = RoofTimedOut.EXPIRED_CLEAR :=
    (cm.2.2.1.trans m1.2.2.1).trans ht1
  refine ⟨_, hTH, r1, r2, commCheck_lightMoving m.2 (m2.trans hl1), r3, ?_, ?_⟩
  · show motionState _ = MotionState.Idle
    unfold motionState
    simp only [r1, r2, r3]
    rfl
  · intro hb
    have hb1 : s1.DomeMotionSP = IPState.IPS_BUSY := (f4.2.2.2.1.trans ke.2.2.2.1).trans hb
    refine ⟨more ++ [Call.SetTimer m.1], ?_⟩
    show (commCheck m.2).calls ++ [Call.SetTimer m.1] = _
    rw [c5, m3 hb1, f5, kc]
    show s.calls ++ [Call.IDSetLight] ++ [Call.setDomeState DomeState.DOME_IDLE] ++ more ++
      [Call.SetTimer m.1] = _
    simp

/-- C18, witness: an open motion aborted, both switches answered Off, and the
next tick 20 seconds after the start of the motion, past its timeout of 15
seconds. -/
theorem Abort_then_tick_witness :
    motionState openingState = MotionState.Opening ∧
    motionState (Abort openingState) = MotionState.Idle ∧
    ∃ s2, TimerHit { tv_sec := 120, tv_usec := 0 } (Abort openingState) = .ok () s2 ∧
      s2.roofOpening = false ∧ s2.roofClosing = false ∧
      s2.lightMoving = IPState.IPS_IDLE ∧
      s2.roofTimedOut = RoofTimedOut.EXPIRED_CLEAR ∧
      s2.fullyOpenedLimitSwitch = ISState.ISS_OFF ∧
      s2.fullyClosedLimitSwitch = ISState.ISS_OFF := by
  obtain ⟨h0, s2, h1, h2, h3, h4, h5, _, _⟩ :=
    Abort_then_tick { tv_sec := 120, tv_usec := 0 } openingState
      (updateRoofStatus (simSwitches (CalcTimeLeft { tv_sec := 120, tv_usec := 0 }
        (Abort openingState).MotionStart (Abort openingState)) (Abort openingState))).state
      (by decide) (by decide)
  have e : s2 = (TimerHit { tv_sec := 120, tv_usec := 0 } (Abort openingState)).state := by
    rw [h1]
    rfl
  refine ⟨by decide, h0, s2, h1, h2, h3, h4, h5, ?_, ?_⟩
  · rw [e]
    decide
  · rw [e]
    decide

/-! ## Theorems: remaining properties of the refresh, the tick and the codec -/

/-- C26: encode / decode round trip.  For every non-empty target of at most 15
characters without `(`, `:`, `)` and every `switchOn`, `evaluateResponse` applied to
the frame `pushRoofButton` builds for `(target, switchOn)` returns true with
the switch result `switchOn`; applied to the query frame `(GET:<target>:0)` it returns
true with the switch result false. -/
theorem encode_decode_roundtrip (target : List Char) (switchOn : Bool)
    (ht : Token target) (hl : target.length ≤ 15) :
    evaluateResponse (setFrame target switchOn) = some (Response.ack switchOn) ∧
    (Response.ack switchOn).status = true ∧ (Response.ack switchOn).result = switchOn ∧
    evaluateResponse (getFrame target) = some (Response.ack false) := by
  have e1 : setFrame target switchOn
      = frame ['S', 'E', 'T'] target (if switchOn then ['O', 'N'] else ['O', 'F', 'F']) := by
    cases switchOn <;> simp [setFrame, frame]
  have e2 : getFrame target = frame ['G', 'E', 'T'] target ['0'] := by
    simp [getFrame, frame]
  refine ⟨?_, rfl, rfl, ?_⟩
  · rw [e1, evaluateResponse_frame ['S', 'E', 'T'] target _ (by decide) ht
      (by cases switchOn <;> decide) (by decide) hl (by cases switchOn <;> decide)]
    cases switchOn <;> simp
  · rw [e2, evaluateResponse_frame ['G', 'E', 'T'] target ['0'] (by decide) ht (by decide)
      (by decide) hl (by decide)]
    simp

/-- C26, witness: the frames for the close relay and the closed switch. -/
theorem encode_decode_roundtrip_witness :
    setFrame ROOF_CLOSE_RELAY true = "(SET:CLOSE:ON)".toList ∧
    evaluateResponse (setFrame ROOF_CLOSE_RELAY true) = some (Response.ack true) ∧
    setFrame ROOF_CLOSE_RELAY false = "(SET:CLOSE:OFF)".toList ∧
    evaluateResponse (setFrame ROOF_CLOSE_RELAY false) = some (Response.ack false) ∧
    evaluateResponse (getFrame ROOF_CLOSED_SWITCH) = some (Response.ack false) :=
  ⟨by decide,
   (encode_decode_roundtrip ROOF_CLOSE_RELAY true (by decide) (by decide)).1,
   by decide,
   (encode_decode_roundtrip ROOF_CLOSE_RELAY false (by decide) (by decide)).1,
   (encode_decode_roundtrip ROOF_CLOSED_SWITCH true (by decide) (by decide)).2.2.2⟩

/-- C23: stationary and ambiguous.  With no motion in flight, a status refresh
that samples neither switch On returns with `roofOpening`, `roofClosing` and
`roofTimedOut` unchanged and the overall status Alert; the opened light is
Alert if the last timeout outcome is `EXPIRED_OPEN` and idle otherwise, the
closed light is Alert if it is `EXPIRED_CLOSE` and idle otherwise, and the
moving light is idle. -/
theorem updateRoofStatus_stationary (s s1 s2 : State) (a b : Bool)
    (ho : s.roofOpening = false) (hc : s.roofClosing = false)
    (h1 : getFullOpenedLimitSwitch false s = .ok (a, false) s1)
    (h2 : getFullClosedLimitSwitch false s1 = .ok (b, false) s2) :
    ∃ s3, updateRoofStatus s = .ok () s3 ∧
      s3.roofOpening = s.roofOpening ∧ s3.roofClosing = s.roofClosing ∧
      s3.roofTimedOut = s.roofTimedOut ∧
      s3.RoofStatusLP = IPState.IPS_ALERT ∧
      s3.lightOpened = (if s.roofTimedOut = RoofTimedOut.EXPIRED_OPEN
        then IPState.IPS_ALERT else IPState.IPS_IDLE) ∧
      s3.lightClosed = (if s.roofTimedOut = RoofTimedOut.EXPIRED_CLOSE
        then IPState.IPS_ALERT else IPState.IPS_IDLE) ∧
      s3.lightMoving = IPState.IPS_IDLE := by
  obtain ⟨e, k, _, _⟩ := updateRoofStatus_samples s s1 s2 (a, false) (b, false) h1 h2
  have km := k.1
  simp only [State.motion, Prod.mk.injEq] at km
  have ho2 : s2.roofOpening = false := km.1.trans ho
  have hc2 : s2.roofClosing = false := km.2.1.trans hc
  refine ⟨_, e, ?_, ?_, ?_, ?_, ?_, ?_, ?_⟩
  · simp [setRoofStatus, ho2, hc2, ho]
    repeat' split
    all_goals rfl
  · simp [setRoofStatus, ho2, hc2, hc]
    repeat' split
    all_goals rfl
  · rw [(setRoofStatus_kept false false s2).1, km.2.2.1]
  · simp [setRoofStatus, ho2, hc2]
  · rw [← km.2.2.1]
    cases h : s2.roofTimedOut <;> simp [setRoofStatus, ho2, hc2, h]
  · rw [← km.2.2.1]
    cases h : s2.roofTimedOut <;> simp [setRoofStatus, ho2, hc2, h]
  · exact (setRoofStatus_lights false false s2).1 ho2 hc2

/-- C23, witness: stationary with an open timeout on record, and with none. -/
theorem updateRoofStatus_stationary_witness :
    (∃ s3, updateRoofStatus (ambiguousState RoofTimedOut.EXPIRED_OPEN) = .ok () s3 ∧
      s3.roofTimedOut = RoofTimedOut.EXPIRED_OPEN ∧
      s3.RoofStatusLP = IPState.IPS_ALERT ∧ s3.lightOpened = IPState.IPS_ALERT ∧
      s3.lightClosed = IPState.IPS_IDLE) ∧
    (∃ s3, updateRoofStatus (ambiguousState RoofTimedOut.EXPIRED_CLEAR) = .ok () s3 ∧
      s3.RoofStatusLP = IPState.IPS_ALERT ∧ s3.lightOpened = IPState.IPS_IDLE ∧
      s3.lightClosed = IPState.IPS_IDLE) := by
  obtain ⟨s3, h1, _, _, h4, h5, h6, h7, _⟩ :=
    updateRoofStatus_stationary (ambiguousState RoofTimedOut.EXPIRED_OPEN)
      (getFullOpenedLimitSwitch false (ambiguousState RoofTimedOut.EXPIRED_OPEN)).state
      (getFullClosedLimitSwitch false
        (getFullOpenedLimitSwitch false (ambiguousState RoofTimedOut.EXPIRED_OPEN)).state).state
      true true (by decide) (by decide) (by decide) (by decide)
  obtain ⟨t3, g1, _, _, _, g5, g6, g7, _⟩ :=
    updateRoofStatus_stationary (ambiguousState RoofTimedOut.EXPIRED_CLEAR)
      (getFullOpenedLimitSwitch false (ambiguousState RoofTimedOut.EXPIRED_CLEAR)).state
      (getFullClosedLimitSwitch false
        (getFullOpenedLimitSwitch false (ambiguousState RoofTimedOut.EXPIRED_CLEAR)).state).state
      true true (by decide) (by decide) (by decide) (by decide)
  exact ⟨⟨s3, h1, h4, h5, h6.trans (by decide), h7.trans (by decide)⟩,
    ⟨t3, g1, g5, g6.trans (by decide), g7.trans (by decide)⟩⟩

/-- A sample of the opened switch that reports failure has left both stored
switches alone. -/
theorem getFullOpenedLimitSwitch_fail (sw b : Bool) (s s1 : State)
    (h : getFullOpenedLimitSwitch sw s = .ok (false, b) s1) :
    s1.fullyOpenedLimitSwitch = s.fullyOpenedLimitSwitch ∧
    s1.fullyClosedLimitSwitch = s.fullyClosedLimitSwitch := by
  have k := readRoofSwitch_kept (some ROOF_OPENED_SWITCH) sw s
  unfold getFullOpenedLimitSwitch at h
  split at h
  · split at h <;> simp at h
  · split at h
    · simp at h
    · simp at h
    · rename_i sw2 s2 hq
      rw [hq] at k
      simp only [Outcome.ok.injEq] at h
      rw [← h.2]
      exact ⟨k.2.2.2.1, k.2.2.2.2⟩

/-- A sample of the closed switch that reports failure has left both stored
switches alone. -/
theorem getFullClosedLimitSwitch_fail (sw b : Bool) (s s1 : State)
    (h : getFullClosedLimitSwitch sw s = .ok (false, b) s1) :
    s1.fullyOpenedLimitSwitch = s.fullyOpenedLimitSwitch ∧
    s1.fullyClosedLimitSwitch = s.fullyClosedLimitSwitch := by
  have k := readRoofSwitch_kept (some ROOF_CLOSED_SWITCH) sw s
  unfold getFullClosedLimitSwitch at h
  split at h
  · split at h <;> simp at h
  · split at h
    · simp at h
    · simp at h
    · rename_i sw2 s2 hq
      rw [hq] at k
      simp only [Outcome.ok.injEq] at h
      rw [← h.2]
      exact ⟨k.2.2.2.1, k.2.2.2.2⟩

/-- A sample of the opened switch that reports success has stored the value it
returns. -/
theorem getFullOpenedLimitSwitch_stored (sw b : Bool) (s s1 : State)
    (h : getFullOpenedLimitSwitch sw s = .ok (true, b) s1) :
    s1.fullyOpenedLimitSwitch = (if b then ISState.ISS_ON else ISState.ISS_OFF) := by
  unfold getFullOpenedLimitSwitch at h
  split at h
  · split at h
    · simp only [Outcome.ok.injEq, Prod.mk.injEq, true_and] at h
      rw [← h.2, ← h.1]
      rfl
    · simp only [Outcome.ok.injEq, Prod.mk.injEq, true_and] at h
      rw [← h.2, ← h.1]
      rfl
  · split at h
    · simp at h
    · simp only [Outcome.ok.injEq, Prod.mk.injEq, true_and] at h
      rw [← h.2, ← h.1]
    · simp at h

/-- A sample of the closed switch that reports success has stored the value it
returns. -/
theorem getFullClosedLimitSwitch_stored (sw b : Bool) (s s1 : State)
    (h : getFullClosedLimitSwitch sw s = .ok (true, b) s1) :
    s1.fullyClosedLimitSwitch = (if b then ISState.ISS_ON else ISState.ISS_OFF) := by
  unfold getFullClosedLimitSwitch at h
  split at h
  · split at h
    · simp only [Outcome.ok.injEq, Prod.mk.injEq, true_and] at h
      rw [← h.2, ← h.1]
      rfl
    · simp only [Outcome.ok.injEq, Prod.mk.injEq, true_and] at h
      rw [← h.2, ← h.1]
      rfl
  · split at h
    · simp at h
    · simp only [Outcome.ok.injEq, Prod.mk.injEq, true_and] at h
      rw [← h.2, ← h.1]
    · simp at h

/-- A switch query that reports success returns what the decoding of the frame
it read returns. -/
theorem readRoofSwitch_decoded (id : List Char) (r b : Bool) (s s1 : State)
    (h : readRoofSwitch (some id) r s = .ok (true, b) s1) :
    evaluateResponse (cstr (readIno zeroBuf (writeIno (getFrame id) s).2).2.1)
      = some (Response.ack b) := by
  unfold readRoofSwitch at h
  split at h
  · simp at h
  · dsimp only at h
    split at h
    · simp at h
    · split at h
      · simp at h
      · split at h
        · simp at h
        · split at h
          · simp at h
          · rename_i resp hresp
            simp only [Outcome.ok.injEq, Prod.mk.injEq] at h
            cases resp with
            | nak reason => simp [Response.status] at h
            | ack isOn =>
              simp only [Response.result] at h
              rw [hresp, h.1.2]

/-- A failed sample of a limit switch leaves the caller's local at false. -/
theorem getFullOpenedLimitSwitch_fail_sample (b : Bool) (s s1 : State)
    (h : getFullOpenedLimitSwitch false s = .ok (false, b) s1) : b = false := by
  unfold getFullOpenedLimitSwitch at h
  split at h
  · split at h <;> simp at h
  · split at h
    · simp at h
    · simp at h
    · rename_i sw2 s2 hq
      simp only [Outcome.ok.injEq, Prod.mk.injEq, true_and] at h
      rw [← h.1]
      exact readRoofSwitch_result_of_fail _ _ _ _ hq

/-- A failed sample of a limit switch leaves the caller's local at false. -/
theorem getFullClosedLimitSwitch_fail_sample (b : Bool) (s s1 : State)
    (h : getFullClosedLimitSwitch false s = .ok (false, b) s1) : b = false := by
  unfold getFullClosedLimitSwitch at h
  split at h
  · split at h <;> simp at h
  · split at h
    · simp at h
    · simp at h
    · rename_i sw2 s2 hq
      simp only [Outcome.ok.injEq, Prod.mk.injEq, true_and] at h
      rw [← h.1]
      exact readRoofSwitch_result_of_fail _ _ _ _ hq

/-- C21: a failed switch query changes no motion or switch state.  (1), (2) A
call of `getFullOpenedLimitSwitch` or `getFullClosedLimitSwitch` that returns
false, as it does without contact, on a write failure, on a read failure and on
a `NAK`, leaves both stored limit switches at their previous values.  (3) A
status refresh in which both queries return false returns with `roofOpening`,
`roofClosing`, `roofTimedOut` and the stored switches unchanged.  (4), (5) A
call that returns true has stored the switch value it returns, On for true and
Off for false, and outside simulation that value is the one decoded from the
frame read. -/
theorem failed_query_keeps_state :
    (∀ (sw b : Bool) (s s1 : State), getFullOpenedLimitSwitch sw s = .ok (false, b) s1 →
      s1.fullyOpenedLimitSwitch = s.fullyOpenedLimitSwitch ∧
      s1.fullyClosedLimitSwitch = s.fullyClosedLimitSwitch) ∧
    (∀ (sw b : Bool) (s s1 : State), getFullClosedLimitSwitch sw s = .ok (false, b) s1 →
      s1.fullyOpenedLimitSwitch = s.fullyOpenedLimitSwitch ∧
      s1.fullyClosedLimitSwitch = s.fullyClosedLimitSwitch) ∧
    (∀ (a b : Bool) (s s1 s2 : State),
      getFullOpenedLimitSwitch false s = .ok (false, a) s1 →
      getFullClosedLimitSwitch false s1 = .ok (false, b) s2 →
      ∃ s3, updateRoofStatus s = .ok () s3 ∧
        s3.roofOpening = s.roofOpening ∧ s3.roofClosing = s.roofClosing ∧
        s3.roofTimedOut = s.roofTimedOut ∧
        s3.fullyOpenedLimitSwitch = s.fullyOpenedLimitSwitch ∧
        s3.fullyClosedLimitSwitch = s.fullyClosedLimitSwitch) ∧
    (∀ (sw b : Bool) (s s1 : State), getFullOpenedLimitSwitch sw s = .ok (true, b) s1 →
      s1.fullyOpenedLimitSwitch = (if b then ISState.ISS_ON else ISState.ISS_OFF) ∧
      (s.simulation = false →
        evaluateResponse (cstr (readIno zeroBuf
          (writeIno (getFrame ROOF_OPENED_SWITCH) s).2).2.1) = some (Response.ack b))) ∧
    (∀ (sw b : Bool) (s s1 : State), getFullClosedLimitSwitch sw s = .ok (true, b) s1 →
      s1.fullyClosedLimitSwitch = (if b then ISState.ISS_ON else ISState.ISS_OFF) ∧
      (s.simulation = false →
        evaluateResponse (cstr (readIno zeroBuf
          (writeIno (getFrame ROOF_CLOSED_SWITCH) s).2).2.1) = some (Response.ack b))) := by
  refine ⟨getFullOpenedLimitSwitch_fail, getFullClosedLimitSwitch_fail, ?_, ?_, ?_⟩
  · intro a b s s1 s2 h1 h2
    have ha := getFullOpenedLimitSwitch_fail_sample a s s1 h1
    have hb := getFullClosedLimitSwitch_fail_sample b s1 s2 h2
    subst ha
    subst hb
    obtain ⟨e, k, _, _⟩ := updateRoofStatus_samples s s1 s2 (false, false) (false, false) h1 h2
    have km := k.1
    simp only [State.motion, Prod.mk.injEq] at km
    have g := setRoofStatus_kept false false s2
    have f1 := getFullOpenedLimitSwitch_fail false false s s1 h1
    have f2 := getFullClosedLimitSwitch_fail false false s1 s2 h2
    refine ⟨_, e, ?_, ?_, g.1.trans km.2.2.1, ?_, ?_⟩
    · rw [g.2.2.2.2.2.2.2.2.1]
      simpa using km.1
    · rw [g.2.2.2.2.2.2.2.2.2]
      simpa using km.2.1
    · exact g.2.2.2.2.1.trans (f2.1.trans f1.1)
    · exact g.2.2.2.2.2.1.trans (f2.2.trans f1.2)
  · intro sw b s s1 h
    refine ⟨getFullOpenedLimitSwitch_stored sw b s s1 h, ?_⟩
    intro hsim
    simp only [getFullOpenedLimitSwitch, hsim, Bool.false_eq_true, if_false] at h
    split at h
    · simp at h
    · rename_i sw2 s2 hq
      simp only [Outcome.ok.injEq, Prod.mk.injEq, true_and] at h
      rw [← h.1]
      exact readRoofSwitch_decoded _ _ _ _ _ hq
    · simp at h
  · intro sw b s s1 h
    refine ⟨getFullClosedLimitSwitch_stored sw b s s1 h, ?_⟩
    intro hsim
    simp only [getFullClosedLimitSwitch, hsim, Bool.false_eq_true, if_false] at h
    split at h
    · simp at h
    · rename_i sw2 s2 hq
      simp only [Outcome.ok.injEq, Prod.mk.injEq, true_and] at h
      rw [← h.1]
      exact readRoofSwitch_decoded _ _ _ _ _ hq
    · simp at h

/-- C21, witness: both switches stored On, both flags set and an open timeout
on record.  Without contact, with failing writes, with reads that time out and
with `NAK` answers the refresh changes none of them; with the answers Off and
On the stored switches become Off and On. -/
theorem failed_query_keeps_state_witness :
    (∃ s3, updateRoofStatus (staleState false [] []) = .ok () s3 ∧
      s3.roofOpening = true ∧ s3.roofClosing = true ∧
      s3.roofTimedOut = RoofTimedOut.EXPIRED_OPEN ∧
      s3.fullyOpenedLimitSwitch = ISState.ISS_ON ∧
      s3.fullyClosedLimitSwitch = ISState.ISS_ON) ∧
    (∃ s3, updateRoofStatus (staleState true [false, false] []) = .ok () s3 ∧
      s3.roofOpening = true ∧ s3.roofClosing = true ∧
      s3.roofTimedOut = RoofTimedOut.EXPIRED_OPEN ∧
      s3.fullyOpenedLimitSwitch = ISState.ISS_ON ∧
      s3.fullyClosedLimitSwitch = ISState.ISS_ON) ∧
    (∃ s3, updateRoofStatus (staleState true [true, true] []) = .ok () s3 ∧
      s3.roofOpening = true ∧ s3.roofClosing = true ∧
      s3.roofTimedOut = RoofTimedOut.EXPIRED_OPEN ∧
      s3.fullyOpenedLimitSwitch = ISState.ISS_ON ∧
      s3.fullyClosedLimitSwitch = ISState.ISS_ON) ∧
    (∃ s3, updateRoofStatus
          (staleState true [true, true] (rxOf "(NAK:OPENED:jam)(NAK:CLOSED:jam)")) = .ok () s3 ∧
      s3.roofOpening = true ∧ s3.roofClosing = true ∧
      s3.roofTimedOut = RoofTimedOut.EXPIRED_OPEN ∧
      s3.fullyOpenedLimitSwitch = ISState.ISS_ON ∧
      s3.fullyClosedLimitSwitch = ISState.ISS_ON) ∧
    (getFullOpenedLimitSwitch false
      (staleState true [true] (rxOf "(ACK:OPENED:OFF)"))).state.fullyOpenedLimitSwitch
      = ISState.ISS_OFF := by
  have h := fun (c : Bool) (w : List Bool) (r : List RxEv) h1 h2 =>
    failed_query_keeps_state.2.2.1 false false (staleState c w r)
      (getFullOpenedLimitSwitch false (staleState c w r)).state
      (getFullClosedLimitSwitch false
        (getFullOpenedLimitSwitch false (staleState c w r)).state).state h1 h2
  refine ⟨h false [] [] (by decide) (by decide),
    h true [false, false] [] (by decide) (by decide),
    h true [true, true] [] (by decide) (by decide),
    h true [true, true] (rxOf "(NAK:OPENED:jam)(NAK:CLOSED:jam)") (by decide) (by decide),
    ?_⟩
  have g := (failed_query_keeps_state.2.2.2.1 false false
    (staleState true [true] (rxOf "(ACK:OPENED:OFF)"))
    (getFullOpenedLimitSwitch false
      (staleState true [true] (rxOf "(ACK:OPENED:OFF)"))).state (by decide)).1
  exact g

/-- The delay chosen by the motion block: one second exactly when a motion is
busy, not stopped, time is left and the stored switch of the selected direction
is not On; five seconds otherwise.  The block logs no timer call. -/
theorem motionCheck_delay (timeleft : Int) (s : State) :
    ((motionCheck timeleft s).1 = 1000 ↔
      (s.DomeMotionSP = IPState.IPS_BUSY ∧ 0 ≤ s.MotionRequest ∧ 0 < timeleft ∧
        ((s.DomeMotionCW = ISState.ISS_ON ∧ s.fullyOpenedLimitSwitch ≠ ISState.ISS_ON) ∨
         (s.DomeMotionCW ≠ ISState.ISS_ON ∧ s.DomeMotionCCW = ISState.ISS_ON ∧
            s.fullyClosedLimitSwitch ≠ ISState.ISS_ON)))) ∧
    ((motionCheck timeleft s).1 ≠ 1000 → (motionCheck timeleft s).1 = 5000) ∧
    ∃ mid, (motionCheck timeleft s).2.calls = s.calls ++ mid ∧
      ∀ n, Call.SetTimer n ∉ mid := by
  unfold motionCheck
  simp only [INACTIVE_STATUS]
  refine ⟨?_, ?_, ?_⟩
  · split_ifs with h1 h2 h3 h4 h5 h6 h7 h8
    all_goals simp_all
  · split_ifs
    all_goals simp
  · split_ifs
    all_goals first
      | exact ⟨[], (List.append_nil _).symm, fun n hn => List.not_mem_nil _ hn⟩
      | exact ⟨[_], rfl, fun n hn => by simp at hn⟩

/-- The communication-error block logs no timer call. -/
theorem commCheck_calls (s : State) :
    ∃ more, (commCheck s).calls = s.calls ++ more ∧ ∀ n, Call.SetTimer n ∉ more := by
  unfold commCheck
  split
  · exact ⟨[Call.Disconnect, Call.DomeInitProperties, Call.SetParkDataType,
      Call.addAuxControls], by simp [initProperties], fun n hn => by simp at hn⟩
  · exact ⟨[], (List.append_nil _).symm, fun n hn => List.not_mem_nil _ hn⟩

/-- C24: the interval at which the tick re-arms itself.  A tick taken while
not connected returns with the state unchanged, so it logs no timer call.  A
connected tick whose status refresh returns logs exactly one timer call, as
its last call; the delay is 1000 ms exactly when the motion property is busy,
the motion is not stopped (`MotionRequest >= 0`), time is left
(`timeleft > 0`) and the stored limit switch of the selected direction is not
On after the refresh, and it is 5000 ms in every other case. -/
theorem TimerHit_rearm (now : Timeval) (s : State) :
    (s.connected = false → TimerHit now s = .ok () s) ∧
    (s.connected = true → ∀ s1 : State,
      updateRoofStatus (simSwitches (CalcTimeLeft now s.MotionStart s) s) = .ok () s1 →
      ∃ (s2 : State) (d : Nat) (mid : List Call),
        TimerHit now s = .ok () s2 ∧
        s2.calls = s.calls ++ mid ++ [Call.SetTimer d] ∧
        (∀ n, Call.SetTimer n ∉ mid) ∧
        (d = 1000 ↔
          (s.DomeMotionSP = IPState.IPS_BUSY ∧ 0 ≤ s.MotionRequest ∧
            0 < CalcTimeLeft now s.MotionStart s ∧
            ((s.DomeMotionCW = ISState.ISS_ON ∧
                s1.fullyOpenedLimitSwitch ≠ ISState.ISS_ON) ∨
             (s.DomeMotionCW ≠ ISState.ISS_ON ∧ s.DomeMotionCCW = ISState.ISS_ON ∧
                s1.fullyClosedLimitSwitch ≠ ISState.ISS_ON)))) ∧
        (d ≠ 1000 → d = 5000)) := by
  refine ⟨fun h => by simp [TimerHit, h], ?_⟩
  intro hconn s1 href
  have hT := TimerHit_connected now s s1 hconn href
  obtain ⟨_, hMR, _, henv, hcalls, _, _, _, _⟩ := updateRoofStatus_fields _ s1 href
  obtain ⟨hm0, he0, hc0⟩ := simSwitches_kept (CalcTimeLeft now s.MotionStart s) s
  rw [he0] at henv
  rw [hc0] at hcalls
  simp only [State.motion, Prod.mk.injEq] at hm0
  rw [hm0.2.2.2.1] at hMR
  simp only [State.env, Prod.mk.injEq] at henv
  obtain ⟨hd, hd5, mid1, hmid1, hno1⟩ := motionCheck_delay (CalcTimeLeft now s.MotionStart s) s1
  obtain ⟨mid2, hmid2, hno2⟩ :=
    commCheck_calls (motionCheck (CalcTimeLeft now s.MotionStart s) s1).2
  rw [henv.2.2.2.1, henv.2.2.2.2.1, henv.2.2.2.2.2.1, hMR] at hd
  refine ⟨_, (motionCheck (CalcTimeLeft now s.MotionStart s) s1).1,
    [Call.IDSetLight] ++ mid1 ++ mid2, hT, ?_, ?_, hd, hd5⟩
  · show (commCheck (motionCheck (CalcTimeLeft now s.MotionStart s) s1).2).calls ++ _ = _
    rw [hmid2, hmid1, hcalls]
    simp
  · intro n hn
    simp only [List.mem_append, List.mem_singleton] at hn
    rcases hn with (hn | hn) | hn
    · exact Call.noConfusion hn
    · exact hno1 n hn
    · exact hno2 n hn

/-- C24, witness: five seconds into an open motion of 15 seconds with the
opened switch Off the tick re-arms at 1000 ms; on a connected, stationary
driver it re-arms at 5000 ms; on a disconnected driver it returns the state it
was given. -/
theorem TimerHit_rearm_witness :
    (∃ (s2 : State) (mid : List Call),
      TimerHit { tv_sec := 105, tv_usec := 0 } openingState = .ok () s2 ∧
      s2.calls = openingState.calls ++ mid ++ [Call.SetTimer 1000]) ∧
    (∃ (s2 : State) (mid : List Call),
      TimerHit { tv_sec := 105, tv_usec := 0 }
        (stationaryState false "(ACK:OPENED:OFF)(ACK:CLOSED:OFF)") = .ok () s2 ∧
      s2.calls = (stationaryState false "(ACK:OPENED:OFF)(ACK:CLOSED:OFF)").calls ++ mid ++
        [Call.SetTimer 5000]) ∧
    TimerHit { tv_sec := 105, tv_usec := 0 } idleState = .ok () idleState := by
  refine ⟨?_, ?_, (TimerHit_rearm { tv_sec := 105, tv_usec := 0 } idleState).1 (by decide)⟩
  · obtain ⟨s2, d, mid, h, hc, _, hd, _⟩ :=
      (TimerHit_rearm { tv_sec := 105, tv_usec := 0 } openingState).2 (by decide)
        (updateRoofStatus (simSwitches
          (CalcTimeLeft { tv_sec := 105, tv_usec := 0 } openingState.MotionStart openingState)
          openingState)).state (by decide)
    have e : d = 1000 := hd.mpr (by decide)
    subst e
    exact ⟨s2, mid, h, hc⟩
  · obtain ⟨s2, d, mid, h, hc, _, hd, hd5⟩ :=
      (TimerHit_rearm { tv_sec := 105, tv_usec := 0 }
        (stationaryState false "(ACK:OPENED:OFF)(ACK:CLOSED:OFF)")).2 (by decide)
        (updateRoofStatus (simSwitches
          (CalcTimeLeft { tv_sec := 105, tv_usec := 0 }
            (stationaryState false "(ACK:OPENED:OFF)(ACK:CLOSED:OFF)").MotionStart
            (stationaryState false "(ACK:OPENED:OFF)(ACK:CLOSED:OFF)"))
          (stationaryState false "(ACK:OPENED:OFF)(ACK:CLOSED:OFF)"))).state (by decide)
    have e : d = 5000 := hd5 (fun h1 => absurd (hd.mp h1).1 (by decide))
    subst e
    exact ⟨s2, mid, h, hc⟩

/-- In simulation the status refresh returns, having set the stored switches
from the simulated ones. -/
theorem updateRoofStatus_sim (s : State) (h : s.simulation = true) :
    updateRoofStatus s = .ok ()
      (setRoofStatus s.simRoofOpen s.simRoofClosed
        { s with
          fullyOpenedLimitSwitch := if s.simRoofOpen then ISState.ISS_ON else ISState.ISS_OFF,
          fullyClosedLimitSwitch :=
            if s.simRoofClosed then ISState.ISS_ON else ISState.ISS_OFF }) := by
  unfold updateRoofStatus getFullOpenedLimitSwitch getFullClosedLimitSwitch
  rw [h]
  cases ho : s.simRoofOpen <;> cases hc : s.simRoofClosed <;> simp [h, hc]

/-- Setting the status leaves the simulated switches and the transport alone. -/
theorem setRoofStatus_simLink (o c : Bool) (s : State) :
    (setRoofStatus o c s).simLink = s.simLink := by
  unfold setRoofStatus
  simp only []
  repeat' split
  all_goals rfl

/-- The motion block leaves the simulated switches and the transport alone. -/
theorem motionCheck_simLink (timeleft : Int) (s : State) :
    (motionCheck timeleft s).2.simLink = s.simLink := by
  unfold motionCheck
  simp only []
  repeat' split
  all_goals rfl

/-- The communication-error block leaves the simulated switches and the
transport alone. -/
theorem commCheck_simLink (s : State) : (commCheck s).simLink = s.simLink := by
  unfold commCheck
  split <;> rfl

/-- The simulation block of the tick leaves the transport alone. -/
theorem simSwitches_transport (timeleft : Int) (s : State) :
    (simSwitches timeleft s).rx = s.rx ∧ (simSwitches timeleft s).txOk = s.txOk ∧
    (simSwitches timeleft s).tx = s.tx := by
  unfold simSwitches
  repeat' split
  all_goals exact ⟨rfl, rfl, rfl⟩

/-- C22: simulation mode.  In simulation a limit-switch read returns success
with the simulated value, storing it and touching nothing else, and the open
and close relay operations return success in the state they were given, so
none of them writes to or reads from the transport.  A connected tick in
simulation returns with the transport untouched; with the open motion selected
the simulated switches end as (open, not closed) when `timeleft <= 5 s` and are
unchanged when `timeleft > 5 s`; with the close motion selected (and the open
one not) they end as (closed, not open) when `timeleft <= 5 s` and are unchanged
otherwise; with no motion selected they are unchanged. -/
theorem simulation_tick (now : Timeval) (s : State) (hsim : s.simulation = true) :
    (∀ sw : Bool, getFullOpenedLimitSwitch sw s = .ok (true, s.simRoofOpen)
      { s with fullyOpenedLimitSwitch :=
          if s.simRoofOpen then ISState.ISS_ON else ISState.ISS_OFF }) ∧
    (∀ sw : Bool, getFullClosedLimitSwitch sw s = .ok (true, s.simRoofClosed)
      { s with fullyClosedLimitSwitch :=
          if s.simRoofClosed then ISState.ISS_ON else ISState.ISS_OFF }) ∧
    roofOpen s = .ok true s ∧ roofClose s = .ok true s ∧
    (s.connected = true → ∃ s2 : State, TimerHit now s = .ok () s2 ∧
      s2.rx = s.rx ∧ s2.txOk = s.txOk ∧ s2.tx = s.tx ∧
      (s.DomeMotionCW = ISState.ISS_ON →
        (CalcTimeLeft now s.MotionStart s ≤ 5000 →
          s2.simRoofOpen = true ∧ s2.simRoofClosed = false) ∧
        (5000 < CalcTimeLeft now s.MotionStart s →
          s2.simRoofOpen = s.simRoofOpen ∧ s2.simRoofClosed = s.simRoofClosed)) ∧
      (s.DomeMotionCW ≠ ISState.ISS_ON → s.DomeMotionCCW = ISState.ISS_ON →
        (CalcTimeLeft now s.MotionStart s ≤ 5000 →
          s2.simRoofClosed = true ∧ s2.simRoofOpen = false) ∧
        (5000 < CalcTimeLeft now s.MotionStart s →
          s2.simRoofOpen = s.simRoofOpen ∧ s2.simRoofClosed = s.simRoofClosed)) ∧
      (s.DomeMotionCW ≠ ISState.ISS_ON → s.DomeMotionCCW ≠ ISState.ISS_ON →
        s2.simRoofOpen = s.simRoofOpen ∧ s2.simRoofClosed = s.simRoofClosed)) := by
  refine ⟨?_, ?_, by simp [roofOpen, hsim], by simp [roofClose, hsim], ?_⟩
  · intro sw
    unfold getFullOpenedLimitSwitch
    cases ho : s.simRoofOpen <;> simp [hsim]
  · intro sw
    unfold getFullClosedLimitSwitch
    cases hc : s.simRoofClosed <;> simp [hsim]
  · intro hconn
    have hs : (simSwitches (CalcTimeLeft now s.MotionStart s) s).simulation = true := by
      have he := (simSwitches_kept (CalcTimeLeft now s.MotionStart s) s).2.1
      simp only [State.env, Prod.mk.injEq] at he
      rw [he.2.1, hsim]
    have hT := TimerHit_connected now s _ hconn (updateRoofStatus_sim _ hs)
    refine ⟨_, hT, ?_⟩
    have hl : ∀ s2 : State, TimerHit now s = .ok () s2 →
        s2.simLink = (simSwitches (CalcTimeLeft now s.MotionStart s) s).simLink := by
      intro s2 h2
      rw [hT] at h2
      simp only [Outcome.ok.injEq, true_and] at h2
      rw [← h2]
      exact (commCheck_simLink _).trans ((motionCheck_simLink _ _).trans
        (setRoofStatus_simLink _ _ _))
    have h := hl _ hT
    simp only [State.simLink, Prod.mk.injEq] at h
    obtain ⟨h1, h2, h3, h4, h5⟩ := h
    have hio := simSwitches_transport (CalcTimeLeft now s.MotionStart s) s
    rw [h1, h2, h3, h4, h5]
    refine ⟨hio.1, hio.2.1, hio.2.2, ?_⟩
    unfold simSwitches
    rw [if_pos hsim]
    refine ⟨?_, ?_, ?_⟩
    · intro hcw
      refine ⟨fun ht => ?_, fun ht => ?_⟩
      · rw [if_pos (by omega), if_pos hcw]
        exact ⟨rfl, rfl⟩
      · rw [if_neg (by omega)]
        exact ⟨rfl, rfl⟩
    · intro hcw hccw
      refine ⟨fun ht => ?_, fun ht => ?_⟩
      · rw [if_pos (by omega), if_neg hcw, if_pos hccw]
        exact ⟨rfl, rfl⟩
      · rw [if_neg (by omega)]
        exact ⟨rfl, rfl⟩
    · intro hcw hccw
      simp only [if_neg hcw, if_neg hccw, ite_self, and_self]

/-- C22, witness: a simulated open motion of 15 seconds started at second 100
with the simulated switches (not open, closed).  The tick at second 105
(`timeleft` 10 s) leaves them, the tick at second 110 (`timeleft` 5 s) makes
them (open, not closed); a simulated close motion is made (closed, not open)
at second 110; the transport log stays empty. -/
theorem simulation_tick_witness :
    (∃ s2 : State, TimerHit { tv_sec := 105, tv_usec := 0 }
        (simState ISState.ISS_ON ISState.ISS_OFF false true) = .ok () s2 ∧
      s2.simRoofOpen = false ∧ s2.simRoofClosed = true ∧ s2.tx = []) ∧
    (∃ s2 : State, TimerHit { tv_sec := 110, tv_usec := 0 }
        (simState ISState.ISS_ON ISState.ISS_OFF false true) = .ok () s2 ∧
      s2.simRoofOpen = true ∧ s2.simRoofClosed = false ∧ s2.tx = []) ∧
    (∃ s2 : State, TimerHit { tv_sec := 110, tv_usec := 0 }
        (simState ISState.ISS_OFF ISState.ISS_ON true false) = .ok () s2 ∧
      s2.simRoofOpen = false ∧ s2.simRoofClosed = true ∧ s2.tx = []) ∧
    roofOpen (simState ISState.ISS_ON ISState.ISS_OFF false true) =
      .ok true (simState ISState.ISS_ON ISState.ISS_OFF false true) := by
  refine ⟨?_, ?_, ?_, ?_⟩
  · obtain ⟨s2, h, _, _, htx, hcw, _, _⟩ :=
      (simulation_tick { tv_sec := 105, tv_usec := 0 }
        (simState ISState.ISS_ON ISState.ISS_OFF false true) (by decide)).2.2.2.2 (by decide)
    have k := (hcw (by decide)).2 (by decide)
    exact ⟨s2, h, k.1, k.2, htx⟩
  · obtain ⟨s2, h, _, _, htx, hcw, _, _⟩ :=
      (simulation_tick { tv_sec := 110, tv_usec := 0 }
        (simState ISState.ISS_ON ISState.ISS_OFF false true) (by decide)).2.2.2.2 (by decide)
    have k := (hcw (by decide)).1 (by decide)
    exact ⟨s2, h, k.1, k.2, htx⟩
  · obtain ⟨s2, h, _, _, htx, _, hccw, _⟩ :=
      (simulation_tick { tv_sec := 110, tv_usec := 0 }
        (simState ISState.ISS_OFF ISState.ISS_ON true false) (by decide)).2.2.2.2 (by decide)
    have k := (hccw (by decide) (by decide)).1 (by decide)
    exact ⟨s2, h, k.2, k.1, htx⟩
  · exact (simulation_tick { tv_sec := 110, tv_usec := 0 }
      (simState ISState.ISS_ON ISState.ISS_OFF false true) (by decide)).2.2.1

/-- The status refresh never sets a motion flag, whether it returns or
faults. -/
theorem updateRoofStatus_flags (s : State) :
    ((updateRoofStatus s).state.roofOpening = true → s.roofOpening = true) ∧
    ((updateRoofStatus s).state.roofClosing = true → s.roofClosing = true) := by
  have k1 := (getFullOpenedLimitSwitch_kept false s).1.1
  have k2 := fun s1 => (getFullClosedLimitSwitch_kept false s1).1.1
  simp only [State.motion, Prod.mk.injEq] at k1 k2
  cases h1 : getFullOpenedLimitSwitch false s with
  | fault s1 =>
    have e : updateRoofStatus s = .fault s1 := by simp [updateRoofStatus, h1]
    rw [h1] at k1
    rw [e]
    simp only [Outcome.state] at k1 ⊢
    exact ⟨fun h => k1.1 ▸ h, fun h => k1.2.1 ▸ h⟩
  | ok o s1 =>
    rw [h1] at k1
    simp only [Outcome.state] at k1
    have k := k2 s1
    cases h2 : getFullClosedLimitSwitch false s1 with
    | fault s2 =>
      have e : updateRoofStatus s = .fault s2 := by simp [updateRoofStatus, h1, h2]
      rw [h2] at k
      rw [e]
      simp only [Outcome.state] at k ⊢
      exact ⟨fun h => k1.1 ▸ k.1 ▸ h, fun h => k1.2.1 ▸ k.2.1 ▸ h⟩
    | ok c s2 =>
      have e : updateRoofStatus s = .ok () (setRoofStatus o.2 c.2 s2) := by
        simp [updateRoofStatus, h1, h2]
      rw [h2] at k
      rw [e]
      simp only [Outcome.state] at k ⊢
      have g := setRoofStatus_kept o.2 c.2 s2
      rw [g.2.2.2.2.2.2.2.2.1, g.2.2.2.2.2.2.2.2.2, k.1, k.2.1, k1.1, k1.2.1]
      constructor
      · split
        · intro h; cases h
        · exact id
      · split
        · intro h; cases h
        · exact id

/-- The tick never sets a motion flag, whether it returns or faults. -/
theorem TimerHit_flags (now : Timeval) (s : State) :
    ((TimerHit now s).state.roofOpening = true → s.roofOpening = true) ∧
    ((TimerHit now s).state.roofClosing = true → s.roofClosing = true) := by
  have ks := (simSwitches_kept (CalcTimeLeft now s.MotionStart s) s).1
  simp only [State.motion, Prod.mk.injEq] at ks
  have ku := updateRoofStatus_flags (simSwitches (CalcTimeLeft now s.MotionStart s) s)
  rw [ks.1, ks.2.1] at ku
  cases hconn : s.connected with
  | false =>
    have e : TimerHit now s = .ok () s := by simp [TimerHit, hconn]
    rw [e]
    exact ⟨id, id⟩
  | true =>
    cases h1 : updateRoofStatus (simSwitches (CalcTimeLeft now s.MotionStart s) s) with
    | fault s1 =>
      have e : TimerHit now s = .fault s1 := by simp [TimerHit, hconn, h1]
      rw [h1] at ku
      rw [e]
      exact ku
    | ok u s1 =>
      rw [TimerHit_connected now s s1 hconn h1]
      rw [h1] at ku
      simp only [Outcome.state] at ku ⊢
      have kc := (commCheck_kept (motionCheck (CalcTimeLeft now s.MotionStart s) s1).2).1
      simp only [State.motion, Prod.mk.injEq] at kc
      rw [kc.1, kc.2.1]
      have km : ((motionCheck (CalcTimeLeft now s.MotionStart s) s1).2.roofOpening = true →
            s1.roofOpening = true) ∧
          ((motionCheck (CalcTimeLeft now s.MotionStart s) s1).2.roofClosing = true →
            s1.roofClosing = true) := by
        unfold motionCheck
        simp only []
        repeat' split
        all_goals simp
      exact ⟨fun h => ku.1 (km.1 h), fun h => ku.2 (km.2 h)⟩

/-- A `Move` keeps the motion flags exclusive, whether it returns or faults. -/
theorem Move_flags (dir : DomeDirection) (operation : DomeMotionCommand) (now : Timeval)
    (s : State) (h : ¬(s.roofOpening = true ∧ s.roofClosing = true)) :
    ¬((Move dir operation now s).state.roofOpening = true ∧
      (Move dir operation now s).state.roofClosing = true) := by
  have ku := updateRoofStatus_flags s
  have ko := fun s1 => (roofOpen_kept s1).1
  have kc := fun s1 => (roofClose_kept s1).1
  simp only [State.motion, Prod.mk.injEq] at ko kc
  unfold Move
  cases h1 : updateRoofStatus s with
  | fault s1 =>
    rw [h1] at ku
    exact fun hb => h ⟨ku.1 hb.1, ku.2 hb.2⟩
  | ok u s1 =>
    rw [h1] at ku
    simp only [Outcome.state] at ku
    have hs1 : ¬(s1.roofOpening = true ∧ s1.roofClosing = true) :=
      fun hb => h ⟨ku.1 hb.1, ku.2 hb.2⟩
    simp only []
    split
    · split
      · exact hs1
      · split
        · exact hs1
        · rename_i hno hnc
          cases dir with
          | DOME_CW =>
            simp only []
            split
            · exact fun hb => hno hb.1
            · have k := ko s1
              cases h2 : roofOpen s1 with
              | fault s2 =>
                rw [h2] at k
                simp only [Outcome.state] at k ⊢
                rw [k.1]
                exact fun hb => hno hb.1
              | ok r s2 =>
                rw [h2] at k
                simp only [Outcome.state] at k
                cases r with
                | true => exact fun hb => by cases hb.2
                | false =>
                  simp only [Outcome.state]
                  rw [k.1]
                  exact fun hb => hno hb.1
          | DOME_CCW =>
            simp only []
            split
            · exact fun hb => hno hb.1
            · split
              · exact fun hb => hno hb.1
              · have k := kc s1
                cases h2 : roofClose s1 with
                | fault s2 =>
                  rw [h2] at k
                  simp only [Outcome.state] at k ⊢
                  rw [k.1]
                  exact fun hb => hno hb.1
                | ok r s2 =>
                  rw [h2] at k
                  simp only [Outcome.state] at k
                  cases r with
                  | true => exact fun hb => by cases hb.1
                  | false =>
                    simp only [Outcome.state]
                    rw [k.1]
                    exact fun hb => hno hb.1
    · exact hs1

/-- C25: the direction flags are mutually exclusive.  In every state reachable
from one with `roofOpening = roofClosing = false` by `Move`, `updateRoofStatus`
and `TimerHit` steps, with any switch readings, transport outcomes and clock
values, `roofOpening` and `roofClosing` are not both true. -/
theorem flags_exclusive (s : State) (h : Reachable s) :
    ¬(s.roofOpening = true ∧ s.roofClosing = true) := by
  induction h with
  | start s ho hc =>
    intro hb
    rw [ho] at hb
    cases hb.1
  | move dir operation now s _ ih => exact Move_flags dir operation now s ih
  | refresh s _ ih =>
    have k := updateRoofStatus_flags s
    exact fun hb => ih ⟨k.1 hb.1, k.2 hb.2⟩
  | tick now s _ ih =>
    have k := TimerHit_flags now s
    exact fun hb => ih ⟨k.1 hb.1, k.2 hb.2⟩
  | surroundings s s1 _ ho hc ih =>
    rw [ho, hc]
    exact ih

/-- C25, witness: a closed roof is told to open, which sets `roofOpening`; the
state after that `Move` and a tick five seconds later is reachable, and its
flags are not both set. -/
theorem flags_exclusive_witness :
    (Move DomeDirection.DOME_CW DomeMotionCommand.MOTION_START { tv_sec := 100, tv_usec := 0 }
      (stationaryState false
        "(ACK:OPENED:OFF)(ACK:CLOSED:ON)(ACK:LOCKED:OFF)(ACK:OPEN:ON)")).state.roofOpening
      = true ∧
    ¬((TimerHit { tv_sec := 105, tv_usec := 0 }
        (Move DomeDirection.DOME_CW DomeMotionCommand.MOTION_START
          { tv_sec := 100, tv_usec := 0 }
          (stationaryState false
            "(ACK:OPENED:OFF)(ACK:CLOSED:ON)(ACK:LOCKED:OFF)(ACK:OPEN:ON)")).state).state.roofOpening
        = true ∧
      (TimerHit { tv_sec := 105, tv_usec := 0 }
        (Move DomeDirection.DOME_CW DomeMotionCommand.MOTION_START
          { tv_sec := 100, tv_usec := 0 }
          (stationaryState false
            "(ACK:OPENED:OFF)(ACK:CLOSED:ON)(ACK:LOCKED:OFF)(ACK:OPEN:ON)")).state).state.roofClosing
        = true) :=
  ⟨by decide,
    flags_exclusive _
      (Reachable.tick { tv_sec := 105, tv_usec := 0 } _
        (Reachable.move DomeDirection.DOME_CW DomeMotionCommand.MOTION_START
          { tv_sec := 100, tv_usec := 0 } _
          (Reachable.start
            (stationaryState false
              "(ACK:OPENED:OFF)(ACK:CLOSED:ON)(ACK:LOCKED:OFF)(ACK:OPEN:ON)")
            (by decide) (by decide))))⟩

end RollOffNano
